import Mathlib

/-! Rule type engine, REST data source handler and security advisory alert.

A shallow embedding of `internal/engine/rule_types.go` (the rule identity
`RuleMeta`, the schema validation helpers, the construction of a
`RuleTypeEngine` and its ingest / evaluate / remediate pipeline), of
`internal/datasources/rest/handler.go` (the handler of a REST data source), of
`internal/engine/actions/alert/security_advisory/security_advisory.go` (the
alert that opens and closes security advisories) and of the two no-op actions
(`internal/engine/actions/alert/noop/noop.go`,
`internal/engine/actions/remediate/noop/noop.go`).

Conventions of the embedding:

* a Go `error` is an `Option GoError` (`none` is `nil`);
* a Go function returning `(T, error)` returns `Except GoError T`;
* calls made on the collaborators of an engine (ingester, evaluator,
  remediator, logger) are recorded, in order, in a list of `Event`s, the
  requests of a handler in a list of `Request`s and what an alert does in a
  list of `AlertEvent`s;
* functions of other packages and libraries are fields of an environment
  (`Constructors`, `RestEnv`, `AlertEnv`);
* a Go run-time panic is the `Completion.panicked` outcome.
-/

namespace Minder

/-! ## Go values -/

/-- Go error values. `sentinel` is a package-level variable initialised with
`errors.New` (its identity is the variable's name), `errorString` is a value
allocated by a call of `errors.New` or of `fmt.Errorf` without a wrapping verb,
`wrapError` is what `fmt.Errorf` returns for a format with one wrapping verb
(the rendered message and the wrapped error), and `wrapErrors` is what it
returns for a format with two wrapping verbs (the rendered message and the two
wrapped errors, in the order of the verbs). -/
inductive GoError where
  | sentinel (name : String) (msg : String)
  | errorString (msg : String)
  | wrapError (msg : String) (err : GoError)
  | wrapErrors (msg : String) (first second : GoError)
deriving DecidableEq, Repr

/-- The method `Error()` of an error value. -/
def GoError.Error : GoError → String
  | .sentinel _ msg => msg
  | .errorString msg => msg
  | .wrapError msg _ => msg
  | .wrapErrors msg _ _ => msg

/-- The method `Unwrap() error` where the error has one. -/
def GoError.Unwrap : GoError → Option GoError
  | .wrapError _ err => some err
  | _ => none

/-- The loop of `errors.Is` on a non-nil error: compare, then unwrap; the errors
wrapped by a `wrapErrors` are searched in order. -/
def GoError.Is : GoError → GoError → Bool
  | .wrapError msg err, target => decide (GoError.wrapError msg err = target) || err.Is target
  | .wrapErrors msg first second, target =>
    decide (GoError.wrapErrors msg first second = target) ||
      (first.Is target || second.Is target)
  | .sentinel name msg, target => decide (GoError.sentinel name msg = target)
  | .errorString msg, target => decide (GoError.errorString msg = target)

/-- The function `errors.Is(err, target)` for a non-nil target. -/
def errorsIs (err : Option GoError) (target : GoError) : Bool :=
  match err with
  | none => false
  | some e => e.Is target

/-- The call `fmt.Errorf(lead + "%w", err)`. -/
def fmtErrorfW (lead : String) (err : GoError) : GoError :=
  .wrapError (lead ++ err.Error) err

/-- The call `fmt.Errorf(lead + "%w" + mid + "%w", first, second)`. -/
def fmtErrorfWW (lead : String) (first : GoError) (mid : String) (second : GoError) : GoError :=
  .wrapErrors (lead ++ first.Error ++ mid ++ second.Error) first second

/-- One byte. -/
abbrev Byte := Fin 256

/-- Values of Go type `any` as they occur in policies, parameters, arguments
and results: `null` is the nil interface, `object` a `map[string]any`,
`structpb` a `*structpb.Struct` (`none` for a nil pointer) and `rawString` a
string given by its bytes, as read from a stream. -/
inductive GoAny where
  | null
  | bool (b : Bool)
  | number (n : Int)
  | string (s : String)
  | slice (xs : List GoAny)
  | object (kv : List (String × GoAny))
  | structpb (fields : Option (List (String × GoAny)))
  | rawString (bytes : List Byte)

/-- The Go type `map[string]any`. -/
abbrev GoMap := List (String × GoAny)

/-- How a Go call ends: it returns a value or it panics. -/
inductive Completion (α : Type) where
  | returned (v : α)
  | panicked (msg : String)

/-- The message of the run-time panic raised by a nil dereference. -/
def nilDereference : String :=
  "runtime error: invalid memory address or nil pointer dereference"

/-! ## Collaborators declared outside `rule_types.go` -/

/-- Modelled from the spec: the sentinel `evalerrors.ErrEvaluationSkipped` of
package `internal/engine/errors` (not among the sources), the "skipped"
evaluation outcome. -/
def ErrEvaluationSkipped : GoError :=
  .sentinel "evalerrors.ErrEvaluationSkipped" "evaluation skipped"

/-- Modelled from the spec: the sentinel `evalerrors.ErrEvaluationSkipSilently`
of package `internal/engine/errors` (not among the sources), the "skipped
silently" evaluation outcome. -/
def ErrEvaluationSkipSilently : GoError :=
  .sentinel "evalerrors.ErrEvaluationSkipSilently" "evaluation skipped silently"

/-- Modelled from the spec: the sentinel `remediate.ErrNoRemediation` of package
`internal/engine/remediate` (not among the sources), the distinguished "no
remediation configured" condition. -/
def ErrNoRemediation : GoError :=
  .sentinel "remediate.ErrNoRemediation" "no remediation configured"

/-- Modelled from the spec: the type `engif.RemediateActionOpt` and its four
constants, declared in package `internal/engine/interfaces` (not among the
sources): the setting `{On, Off, DryRun, Unknown}` of an action family. -/
inductive RemediateActionOpt where
  | ActionOptOn
  | ActionOptOff
  | ActionOptDryRun
  | ActionOptUnknown
deriving DecidableEq, Repr

/-- The interface `engif.Ingester`, reduced to the method the engine calls. -/
structure Ingester (Ent Evid : Type) where
  Ingest : Ent → GoMap → Except GoError Evid

/-- The interface `engif.Evaluator`. -/
structure Evaluator (Evid : Type) where
  Eval : GoMap → Evid → Option GoError

/-- The interface `engif.Remediator`. -/
structure Remediator (Ent : Type) where
  Remediate : RemediateActionOpt → Ent → GoMap → Option GoError

/-- One description of a violated constraint, `gojsonschema.ResultError`: the
text its method `String()` returns. -/
structure ResultError where
  text : String

/-- The method `String()` of a `gojsonschema.ResultError`. -/
def ResultError.String (e : ResultError) : String := e.text

/-- The value `gojsonschema.Result`: the list returned by `Errors()`; `Valid()`
holds when that list is empty. -/
structure ValidationResult where
  Errors : List ResultError

/-- The method `Valid()` of a `gojsonschema.Result`. -/
def ValidationResult.Valid (r : ValidationResult) : Bool := r.Errors.isEmpty

/-- A compiled `gojsonschema.Schema`, reduced to its method `Validate` applied
to the Go loader of a document. -/
structure Schema where
  Validate : GoMap → Except GoError ValidationResult

/-- The calls an evaluation makes on its collaborators. -/
inductive Event (Ent Evid : Type) where
  | ingest (ent : Ent) (params : GoMap)
  | evaluate (pol : GoMap) (result : Evid)
  | remediate (remAction : RemediateActionOpt) (ent : Ent) (pol : GoMap)
  | logPrintf (line : String)

/-! ## `RuleMeta` -/

/-- The struct `RuleMeta`. -/
structure RuleMeta where
  Name : String
  Provider : String
  Organization : Option String
  Group : Option String

/-- The method `RuleMeta.String`. -/
def RuleMeta.String (r : RuleMeta) : Completion String :=
  match r.Group with
  | some grp => .returned (r.Provider ++ "/group/" ++ grp ++ "/" ++ r.Name)
  | none =>
    match r.Organization with
    | some org => .returned (r.Provider ++ "/org/" ++ org ++ "/" ++ r.Name)
    | none => .panicked nilDereference

/-! ## Schema validation -/

/-- The set `unicode.IsSpace`: the white space that `strings.TrimSpace` cuts. -/
def unicodeIsSpace (c : Char) : Bool :=
  let n := c.toNat
  n == 0x09 || n == 0x0A || n == 0x0B || n == 0x0C || n == 0x0D || n == 0x20 ||
  n == 0x85 || n == 0xA0 || n == 0x1680 || (0x2000 ≤ n && n ≤ 0x200A) ||
  n == 0x2028 || n == 0x2029 || n == 0x202F || n == 0x205F || n == 0x3000

/-- The function `strings.TrimSpace` on the characters of a string. -/
def trimSpaceChars (cs : List Char) : List Char :=
  ((cs.dropWhile unicodeIsSpace).reverse.dropWhile unicodeIsSpace).reverse

/-- The function `strings.TrimSpace`. -/
def stringsTrimSpace (s : String) : String :=
  String.mk (trimSpaceChars s.data)

/-- The function `strings.Join`. -/
def stringsJoin : List String → String → String
  | [], _ => ""
  | [a], _ => a
  | a :: b :: rest, sep => a ++ sep ++ stringsJoin (b :: rest) sep

/-- The function `buildValidationError`. -/
def buildValidationError (errs : List ResultError) : GoError :=
  let problems := errs.map ResultError.String
  .errorString ("invalid json schema: " ++ stringsTrimSpace (stringsJoin problems "\n"))

/-- The function `validateAgainstSchema`. -/
def validateAgainstSchema (schema : Schema) (obj : GoMap) : Option GoError :=
  match schema.Validate obj with
  | .error err => some (fmtErrorfW "cannot validate json schema: " err)
  | .ok result =>
    if !result.Valid then
      some (buildValidationError result.Errors)
    else
      none

/-- The struct `RuleValidator`: the policy schema and the optional parameter
schema. -/
structure RuleValidator where
  schema : Schema
  paramSchema : Option Schema

/-- The message `mediatorv1.Context`. -/
structure Context where
  Provider : String
  Organization : Option String
  Group : Option String

/-- The message `mediatorv1.RuleType_Definition`, the fields read here. -/
structure RuleTypeDefinition where
  InEntity : String
  RuleSchema : Option GoMap
  ParamSchema : Option GoMap

/-- The message `mediatorv1.RuleType`, with its context and definition present. -/
structure RuleType where
  Id : Option String
  Name : String
  Context : Context
  Description : String
  Guidance : String
  Def : RuleTypeDefinition

/-- The function `NewRuleValidator`; `newSchema` is `gojsonschema.NewSchema`
applied to the Go loader of a schema document. -/
def NewRuleValidator (newSchema : Option GoMap → Except GoError Schema) (rt : RuleType) :
    Except GoError RuleValidator :=
  match newSchema rt.Def.RuleSchema with
  | .error err => .error (fmtErrorfW "cannot create json schema: " err)
  | .ok schema =>
    match rt.Def.ParamSchema with
    | none => .ok { schema := schema, paramSchema := none }
    | some ps =>
      match newSchema (some ps) with
      | .error err => .error (fmtErrorfW "cannot create json schema for params: " err)
      | .ok paramSchema => .ok { schema := schema, paramSchema := some paramSchema }

/-- The method `RuleValidator.ValidateRuleDefAgainstSchema`. -/
def RuleValidator.ValidateRuleDefAgainstSchema (r : RuleValidator) (contextualPolicy : GoMap) :
    Option GoError :=
  validateAgainstSchema r.schema contextualPolicy

/-- The method `RuleValidator.ValidateParamsAgainstSchema`; `params` is `none`
for a nil struct and otherwise the map `params.AsMap()`. -/
def RuleValidator.ValidateParamsAgainstSchema (r : RuleValidator) (params : Option GoMap) :
    Option GoError :=
  match r.paramSchema with
  | none => none
  | some paramSchema =>
    match params with
    | none => some (.errorString "params cannot be nil")
    | some obj => validateAgainstSchema paramSchema obj

/-! ## The engine -/

/-- The struct `RuleTypeEngine`; `rrem` is `none` for a nil remediator. -/
structure RuleTypeEngine (Ent Evid Cli : Type) where
  Meta : RuleMeta
  rdi : Ingester Ent Evid
  reval : Evaluator Evid
  rrem : Option (Remediator Ent)
  rval : RuleValidator
  rt : RuleType
  cli : Cli

/-- The constructors `NewRuleTypeEngine` calls in other packages:
`gojsonschema.NewSchema`, `ingester.NewRuleDataIngest`, `eval.NewRuleEvaluator`
and `remediate.NewRuleRemediator`. -/
structure Constructors (Ent Evid Cli : Type) where
  NewSchema : Option GoMap → Except GoError Schema
  NewRuleDataIngest : RuleType → Cli → Except GoError (Ingester Ent Evid)
  NewRuleEvaluator : RuleType → Cli → Except GoError (Evaluator Evid)
  NewRuleRemediator : RuleType → Cli → Except GoError (Remediator Ent)

/-- The function `NewRuleTypeEngine`. -/
def NewRuleTypeEngine {Ent Evid Cli : Type} (deps : Constructors Ent Evid Cli)
    (rt : RuleType) (cli : Cli) : Except GoError (RuleTypeEngine Ent Evid Cli) :=
  match NewRuleValidator deps.NewSchema rt with
  | .error err => .error (fmtErrorfW "cannot create rule validator: " err)
  | .ok rval =>
  match deps.NewRuleDataIngest rt cli with
  | .error err => .error (fmtErrorfW "cannot create rule data ingest: " err)
  | .ok rdi =>
  match deps.NewRuleEvaluator rt cli with
  | .error err => .error (fmtErrorfW "cannot create rule evaluator: " err)
  | .ok reval =>
  let rremOrErr : Except GoError (Option (Remediator Ent)) :=
    match deps.NewRuleRemediator rt cli with
    | .ok rrem => .ok (some rrem)
    | .error err =>
      if err.Is ErrNoRemediation then .ok none
      else .error (fmtErrorfW "cannot create rule remediator: " err)
  match rremOrErr with
  | .error err => .error err
  | .ok rrem =>
  let rte : RuleTypeEngine Ent Evid Cli :=
    { Meta := { Name := rt.Name, Provider := rt.Context.Provider,
                Organization := none, Group := none },
      rval := rval, rdi := rdi, reval := reval, rrem := rrem, rt := rt, cli := cli }
  let orElseGroup : Except GoError (RuleTypeEngine Ent Evid Cli) :=
    match rt.Context.Group with
    | some grp =>
      if grp != "" then .ok { rte with Meta := { rte.Meta with Group := some grp } }
      else .error (.errorString "rule type context must have an organization or group")
    | none => .error (.errorString "rule type context must have an organization or group")
  match rt.Context.Organization with
  | some org =>
    if org != "" then .ok { rte with Meta := { rte.Meta with Organization := some org } }
    else orElseGroup
  | none => orElseGroup

/-- The method `RuleTypeEngine.GetID`. -/
def RuleTypeEngine.GetID {Ent Evid Cli : Type} (r : RuleTypeEngine Ent Evid Cli) :
    Completion String :=
  r.Meta.String

/-- The method `RuleTypeEngine.shouldRemediate`. -/
def RuleTypeEngine.shouldRemediate {Ent Evid Cli : Type} (r : RuleTypeEngine Ent Evid Cli)
    (remAction : RemediateActionOpt) (evalErr : Option GoError) : Bool × Option GoError :=
  match r.rrem with
  | none => (false, none)
  | some _ =>
    match remAction with
    | .ActionOptOff => (false, none)
    | .ActionOptUnknown =>
      (false, some (.errorString "unknown remediation action, check your policy definition"))
    | .ActionOptDryRun | .ActionOptOn =>
      let runRemediation :=
        !errorsIs evalErr ErrEvaluationSkipped || errorsIs evalErr ErrEvaluationSkipSilently
      let runRemediation := if evalErr.isNone then false else runRemediation
      (runRemediation, none)

/-- The method `RuleTypeEngine.tryRemediate`, with the calls it makes. -/
def RuleTypeEngine.tryRemediate {Ent Evid Cli : Type} (r : RuleTypeEngine Ent Evid Cli)
    (ent : Ent) (pol : GoMap) (remAction : RemediateActionOpt) (evalErr : Option GoError) :
    Completion (Option GoError) × List (Event Ent Evid) :=
  match r.shouldRemediate remAction evalErr with
  | (_, some err) => (.returned (some err), [])
  | (false, none) => (.returned none, [])
  | (true, none) =>
    match r.rrem with
    | some rem => (.returned (rem.Remediate remAction ent pol), [.remediate remAction ent pol])
    | none => (.panicked nilDereference, [])

/-- The method `RuleTypeEngine.Eval`, with the calls it makes, in order. -/
def RuleTypeEngine.Eval {Ent Evid Cli : Type} (r : RuleTypeEngine Ent Evid Cli)
    (ent : Ent) (pol params : GoMap) (remAction : RemediateActionOpt) :
    Completion (Option GoError) × List (Event Ent Evid) :=
  match r.rdi.Ingest ent params with
  | .error err =>
    (.returned (some (fmtErrorfW "error ingesting data: " err)), [.ingest ent params])
  | .ok result =>
    let evalErr := r.reval.Eval pol result
    match r.tryRemediate ent pol remAction evalErr with
    | (.panicked msg, calls) =>
      (.panicked msg, [.ingest ent params, .evaluate pol result] ++ calls)
    | (.returned remediateErr, calls) =>
      let logged : List (Event Ent Evid) :=
        match remediateErr with
        | some err => [.logPrintf ("remediation error: " ++ err.Error)]
        | none => []
      (.returned evalErr, [.ingest ent params, .evaluate pol result] ++ calls ++ logged)

/-! ## Reading the outcome of an evaluation and of a run -/

/-- The evaluation passed: the evaluator returned nil. -/
def isPass (evalErr : Option GoError) : Prop := evalErr = none

/-- The evaluation was skipped: the error is `ErrEvaluationSkipped`. -/
def isSkipped (evalErr : Option GoError) : Prop :=
  errorsIs evalErr ErrEvaluationSkipped = true

/-- The evaluation was skipped silently: the error is `ErrEvaluationSkipSilently`. -/
def isSkippedSilently (evalErr : Option GoError) : Prop :=
  errorsIs evalErr ErrEvaluationSkipSilently = true

/-- The evaluation found a violation: an error that is neither kind of skip. -/
def isViolation (evalErr : Option GoError) : Prop :=
  evalErr ≠ none ∧ ¬ isSkipped evalErr ∧ ¬ isSkippedSilently evalErr

instance (evalErr : Option GoError) : Decidable (isPass evalErr) := by
  unfold isPass; infer_instance

instance (evalErr : Option GoError) : Decidable (isSkipped evalErr) := by
  unfold isSkipped; infer_instance

instance (evalErr : Option GoError) : Decidable (isSkippedSilently evalErr) := by
  unfold isSkippedSilently; infer_instance

instance (evalErr : Option GoError) : Decidable (isViolation evalErr) := by
  unfold isViolation; infer_instance

/-- The calls of `Remediate` in a list of calls, with their arguments. -/
def remediateCalls {Ent Evid : Type} :
    List (Event Ent Evid) → List (RemediateActionOpt × Ent × GoMap)
  | [] => []
  | .remediate remAction ent pol :: rest => (remAction, ent, pol) :: remediateCalls rest
  | _ :: rest => remediateCalls rest

/-- The calls of `Eval` on the evaluator in a list of calls. -/
def evaluateCalls {Ent Evid : Type} : List (Event Ent Evid) → List (GoMap × Evid)
  | [] => []
  | .evaluate pol result :: rest => (pol, result) :: evaluateCalls rest
  | _ :: rest => evaluateCalls rest

/-! ## The scenario of the specification -/

/-- The rule type `provider1/group/acme/no-secrets`. -/
def scenarioRuleType : RuleType :=
  { Id := none, Name := "no-secrets",
    Context := { Provider := "provider1", Organization := none, Group := some "acme" },
    Description := "", Guidance := "",
    Def := { InEntity := "repository", RuleSchema := none, ParamSchema := none } }

/-- A schema that accepts every document. -/
def acceptAll : Schema :=
  { Validate := fun _ => .ok { Errors := [] } }

/-- An engine for `scenarioRuleType` whose ingester hands the entity on, whose
evaluator returns `evalErr` and whose remediator, when there is one, returns
`remErr`. -/
def scenarioEngine (evalErr remErr : Option GoError) (hasRemediator : Bool) :
    RuleTypeEngine String String Unit :=
  { Meta := { Name := "no-secrets", Provider := "provider1",
              Organization := none, Group := some "acme" },
    rdi := { Ingest := fun ent _ => .ok ent },
    reval := { Eval := fun _ _ => evalErr },
    rrem := if hasRemediator then some { Remediate := fun _ _ _ => remErr } else none,
    rval := { schema := acceptAll, paramSchema := none },
    rt := scenarioRuleType,
    cli := () }

/-- An engine for `scenarioRuleType` whose ingester fails with `err`. -/
def failingIngestEngine (err : GoError) : RuleTypeEngine String String Unit :=
  { scenarioEngine none none true with rdi := { Ingest := fun _ _ => .error err } }

/-- A violation reported by an evaluator. -/
def violationErr : GoError := .errorString "secret found in repository"

/-- A skipped evaluation, as an evaluator wraps it. -/
def skippedErr : GoError :=
  .wrapError "evaluation skipped: rule not applicable" ErrEvaluationSkipped

/-- A silently skipped evaluation, as an evaluator wraps it. -/
def skippedSilentlyErr : GoError :=
  .wrapError "evaluation skipped silently: nothing to do" ErrEvaluationSkipSilently

/-- A scope (organization or group) is set: non-nil and not the empty string. -/
def scopeIsSet (scope : Option String) : Bool :=
  match scope with
  | some s => s != ""
  | none => false

/-- The validator, the ingester and the evaluator of a rule type are built, and
the remediator is built or reported as not configured. -/
def componentsBuilt {Ent Evid Cli : Type} (deps : Constructors Ent Evid Cli)
    (rt : RuleType) (cli : Cli) : Prop :=
  (∃ rval, NewRuleValidator deps.NewSchema rt = .ok rval) ∧
  (∃ rdi, deps.NewRuleDataIngest rt cli = .ok rdi) ∧
  (∃ reval, deps.NewRuleEvaluator rt cli = .ok reval) ∧
  (∀ err, deps.NewRuleRemediator rt cli = .error err → err.Is ErrNoRemediation = true)

/-- Constructors that build every component and report no remediation. -/
def scenarioConstructors : Constructors String String Unit :=
  { NewSchema := fun _ => .ok acceptAll,
    NewRuleDataIngest := fun _ _ => .ok { Ingest := fun ent _ => .ok ent },
    NewRuleEvaluator := fun _ _ => .ok { Eval := fun _ _ => none },
    NewRuleRemediator := fun _ _ => .error ErrNoRemediation }

/-- A rule type of `provider1` named `name` with the given scopes. -/
def ruleTypeOf (name : String) (org grp : Option String) : RuleType :=
  { scenarioRuleType with
    Name := name,
    Context := { Provider := "provider1", Organization := org, Group := grp } }

/-- The text `sub` occurs in the text `s` (as `strings.Contains`). -/
def containsText (s sub : String) : Prop := sub.data <:+: s.data

instance (s sub : String) : Decidable (containsText s sub) := by
  unfold containsText; infer_instance

/-- A schema whose validation of every document reports the violations `errs`. -/
def reportingSchema (errs : List ResultError) : Schema :=
  { Validate := fun _ => .ok { Errors := errs } }

/-- The description the schema library gives for the key `"\tname"` holding an
integer where the schema asks for a string. -/
def tabKeyTypeError : ResultError :=
  { text := "\tname: Invalid type. Expected: string, given: integer" }

/-- The description the schema library gives for a missing key `owner`. -/
def ownerRequiredError : ResultError :=
  { text := "(root): owner is required" }

/-! ## REST data source handler (`internal/datasources/rest/handler.go`) -/

/-- The constant `MaxBytesLimit`. -/
def MaxBytesLimit : Nat := 1 <<< 20

/-- An `io.Reader`: the bytes it delivers and the error that ends the stream,
`none` for `io.EOF`. -/
structure Reader where
  data : List Byte
  err : Option GoError

/-- The function `io.LimitReader`: at most `n` bytes, then `io.EOF`; the error
of the underlying reader shows only when it has fewer than `n` bytes. -/
def ioLimitReader (r : Reader) (n : Nat) : Reader :=
  { data := r.data.take n, err := if r.data.length < n then r.err else none }

/-- The function `io.ReadAll`. -/
def ioReadAll (r : Reader) : Except GoError (List Byte) :=
  match r.err with
  | none => .ok r.data
  | some err => .error err

/-- An `http.Request`, the parts set by the handler. -/
structure Request where
  Method : String
  URL : String
  Body : Option String
  Header : List (String × String)

/-- An `http.Response`, the parts read by the handler. -/
structure Response where
  StatusCode : Int
  Body : Reader

/-- The functions the handler calls in other packages, for a type `Sch` of
compiled schemas: `schemavalidate.CompileSchemaFromPB`, `CompileSchemaFromMap`
and `ValidateAgainstSchema`, `schemaupdate.ValidateSchemaUpdate` and
`ValidateSchemaUpdateMap`, `util.HttpMethodFromString`, `uritemplate.Expand`,
`http.NewRequest`, the method `Do` of the HTTP client, the decoding of one value
by a `json.Decoder` on a reader, and `json.Marshal` of a struct. -/
structure RestEnv (Sch : Type) where
  CompileSchemaFromPB : Option GoMap → Except GoError (Option Sch)
  CompileSchemaFromMap : GoMap → Except GoError (Option Sch)
  ValidateAgainstSchema : Sch → GoMap → Option GoError
  ValidateSchemaUpdate : Option GoMap → Option GoMap → Option GoError
  ValidateSchemaUpdateMap : GoMap → GoMap → Option GoError
  HttpMethodFromString : String → String → String
  Expand : String → GoMap → Except GoError String
  NewRequest : String → String → Option String → Except GoError Request
  Do : Request → Except GoError Response
  jsonDecode : Reader → Except GoError GoAny
  jsonMarshal : GoMap → Except GoError String

/-- The struct `restHandler`. -/
structure restHandler (Sch : Type) where
  rawInputSchema : Option GoMap
  inputSchema : Option Sch
  endpointTmpl : String
  method : String
  body : String
  headers : List (String × String)
  parse : String

/-- The oneof `body` of a `minderv1.RestDataSource_Def`: a string or a struct
(`none` for a nil struct pointer). -/
inductive DefBody where
  | Bodystr (s : String)
  | Bodyobj (obj : Option GoMap)

/-- The message `minderv1.RestDataSource_Def`. -/
structure RestDataSourceDef where
  InputSchema : Option GoMap
  Endpoint : String
  Method : String
  Headers : List (String × String)
  Body : Option DefBody
  Parse : String

/-- The method `AsMap` of a `*structpb.Struct`. -/
def structAsMap (s : Option GoMap) : GoMap :=
  match s with
  | some fields => fields
  | none => []

/-- The getter `GetBodyobj`: the struct when the body is one, else nil. -/
def RestDataSourceDef.GetBodyobj (d : RestDataSourceDef) : Option GoMap :=
  match d.Body with
  | some (.Bodyobj obj) => obj
  | _ => none

/-- The getter `GetBodystr`: the string when the body is one, else empty. -/
def RestDataSourceDef.GetBodystr (d : RestDataSourceDef) : String :=
  match d.Body with
  | some (.Bodystr s) => s
  | _ => ""

/-- The function `parseRequestBodyConfig`. -/
def parseRequestBodyConfig {Sch : Type} (env : RestEnv Sch) (d : RestDataSourceDef) : String :=
  match d.Body with
  | none => ""
  | some _ =>
    match d.GetBodyobj with
    | some bodyobj =>
      match env.jsonMarshal bodyobj with
      | .error _ => ""
      | .ok obj => obj
    | none => d.GetBodystr

/-- The function `newHandlerFromDef`; `d` is `none` for a nil definition. -/
def newHandlerFromDef {Sch : Type} (env : RestEnv Sch) (d : Option RestDataSourceDef) :
    Except GoError (restHandler Sch) :=
  match d with
  | none => .error (.errorString "rest data source handler definition is nil")
  | some d =>
    match env.CompileSchemaFromPB d.InputSchema with
    | .error err => .error err
    | .ok schema =>
      .ok { rawInputSchema := d.InputSchema,
            inputSchema := schema,
            endpointTmpl := d.Endpoint,
            method := env.HttpMethodFromString d.Method "GET",
            headers := d.Headers,
            body := parseRequestBodyConfig env d,
            parse := d.Parse }

/-- The method `restHandler.ValidateArgs`. -/
def restHandler.ValidateArgs {Sch : Type} (env : RestEnv Sch) (h : restHandler Sch)
    (args : GoAny) : Option GoError :=
  match h.inputSchema with
  | none => some (.errorString "input schema cannot be nil")
  | some inputSchema =>
    match args with
    | .object mapobj => env.ValidateAgainstSchema inputSchema mapobj
    | _ => some (.errorString "args is not a map")

/-- The calls of the schema-update compatibility checks. -/
inductive CompatCall where
  | ValidateSchemaUpdate (current candidate : Option GoMap)
  | ValidateSchemaUpdateMap (current candidate : GoMap)

/-- The method `restHandler.ValidateUpdate`, with the compatibility checks it
runs. -/
def restHandler.ValidateUpdate {Sch : Type} (env : RestEnv Sch) (h : restHandler Sch)
    (obj : GoAny) : Option GoError × List CompatCall :=
  match obj with
  | .null => (some (.errorString "update schema cannot be nil"), [])
  | .structpb castedobj =>
    match env.CompileSchemaFromPB castedobj with
    | .error err =>
      (some (fmtErrorfW "update validation failed due to invalid schema: " err), [])
    | .ok _ =>
      (env.ValidateSchemaUpdate h.rawInputSchema castedobj,
        [.ValidateSchemaUpdate h.rawInputSchema castedobj])
  | .object castedobj =>
    match env.CompileSchemaFromMap castedobj with
    | .error err =>
      (some (fmtErrorfW "update validation failed due to invalid schema: " err), [])
    | .ok _ =>
      (env.ValidateSchemaUpdateMap (structAsMap h.rawInputSchema) castedobj,
        [.ValidateSchemaUpdateMap (structAsMap h.rawInputSchema) castedobj])
  | _ => (some (.errorString "invalid type"), [])

/-- The method `restHandler.parseResponseBody`; `body` is `none` for a nil
reader. -/
def restHandler.parseResponseBody {Sch : Type} (env : RestEnv Sch) (h : restHandler Sch)
    (body : Option Reader) : Except GoError GoAny :=
  match body with
  | none => .ok .null
  | some body =>
    let lr := ioLimitReader body MaxBytesLimit
    if h.parse = "json" then
      match env.jsonDecode lr with
      | .error err => .error (fmtErrorfW "cannot decode json: " err)
      | .ok jsonData => .ok jsonData
    else
      match ioReadAll lr with
      | .error err => .error (fmtErrorfW "cannot read response body: " err)
      | .ok bytedata => .ok (.rawString bytedata)

/-- The function `buildRestOutput`. -/
def buildRestOutput (statusCode : Int) (body : GoAny) : GoAny :=
  .object [("status_code", .number statusCode), ("body", body)]

/-- The method `restHandler.Call`, with the requests it hands to the HTTP
client. -/
def restHandler.Call {Sch : Type} (env : RestEnv Sch) (h : restHandler Sch) (args : GoAny) :
    Except GoError GoAny × List Request :=
  match args with
  | .object argsMap =>
    match env.Expand h.endpointTmpl argsMap with
    | .error err => (.error err, [])
    | .ok expandedEndpoint =>
      let b : Option String := if h.body ≠ "" then some h.body else none
      match env.NewRequest h.method expandedEndpoint b with
      | .error err => (.error err, [])
      | .ok req =>
        let req := { req with Header := req.Header ++ h.headers }
        match env.Do req with
        | .error err => (.error err, [req])
        | .ok resp =>
          match h.parseResponseBody env (some resp.Body) with
          | .error err => (.error err, [req])
          | .ok bout => (.ok (buildRestOutput resp.StatusCode bout), [req])
  | _ => (.error (.errorString "args is not a map"), [])

/-! ## An example of the collaborators of the handler -/

/-- The keys listed under `required` in a schema document. -/
def requiredKeys (schemaDoc : GoMap) : List String :=
  match schemaDoc.lookup "required" with
  | some (.slice xs) =>
    xs.filterMap (fun x => match x with
      | .string k => some k
      | _ => none)
  | _ => []

/-- A validation that reports the first required key a document lacks. -/
def checkRequired (required : List String) (obj : GoMap) : Option GoError :=
  match required.filter (fun k => (obj.lookup k).isNone) with
  | [] => none
  | k :: _ => some (.errorString ("missing property " ++ k))

/-- The unreserved characters of RFC 6570. -/
def isUnreserved (c : Char) : Bool :=
  c.isAlphanum || c = Char.ofNat 45 || c = Char.ofNat 46 || c = Char.ofNat 95 ||
    c = Char.ofNat 126

/-- Simple string expansion of a URI template (RFC 6570, level 1) on templates
whose expressions are single names: a name without a value in the arguments
expands to nothing, a string of unreserved characters expands to itself, and
any other value is outside this example. `open` holds the name being read
inside braces. -/
def expandChars (args : GoMap) : List Char → Option (List Char) → Except GoError (List Char)
  | [], none => .ok []
  | [], some _ => .error (.errorString "unterminated expression")
  | c :: rest, none =>
    if c = Char.ofNat 123 then expandChars args rest (some [])
    else
      match expandChars args rest none with
      | .ok out => .ok (c :: out)
      | .error err => .error err
  | c :: rest, some name =>
    if c = Char.ofNat 125 then
      match args.lookup (String.mk name) with
      | none =>
        expandChars args rest none
      | some (.string v) =>
        if v.data.all isUnreserved then
          match expandChars args rest none with
          | .ok out => .ok (v.data ++ out)
          | .error err => .error err
        else .error (.errorString "value outside the example")
      | some _ => .error (.errorString "value outside the example")
    else expandChars args rest (some (name ++ [c]))

/-- The example expansion of a template. -/
def exampleExpand (template : String) (args : GoMap) : Except GoError String :=
  match expandChars args template.data none with
  | .ok out => .ok (String.mk out)
  | .error err => .error err

/-- The sentinel `io.ErrUnexpectedEOF`. -/
def ErrUnexpectedEOF : GoError := .sentinel "io.ErrUnexpectedEOF" "unexpected EOF"

/-- The bytes of a JSON string literal up to its closing quote, for a literal
without escapes or control bytes. -/
def scanToQuote : List Byte → Option (List Byte)
  | [] => none
  | b :: rest =>
    if b = 34 then some []
    else if b = 92 ∨ b.val < 32 then none
    else
      match scanToQuote rest with
      | some body => some (b :: body)
      | none => none

/-- A decoder of JSON documents made of one string literal without escapes: it
returns the string, and an unexpected end of input when the stream stops before
the closing quote. Other documents are outside this example. -/
def decodeStringLiteral (r : Reader) : Except GoError GoAny :=
  match r.data with
  | b :: rest =>
    if b = 34 then
      match scanToQuote rest with
      | some body => .ok (.rawString body)
      | none =>
        match r.err with
        | some err => .error err
        | none => .error ErrUnexpectedEOF
    else .error (.errorString "document outside the example")
  | [] => .error (.errorString "document outside the example")

/-- Example collaborators: a schema is its list of required keys, every
candidate schema is compatible, requests are built as asked and the server
answers 404 with the JSON document `"not found"`. -/
def exampleRestEnv : RestEnv (List String) :=
  { CompileSchemaFromPB := fun s =>
      match s with
      | none => .ok none
      | some doc => .ok (some (requiredKeys doc)),
    CompileSchemaFromMap := fun doc => .ok (some (requiredKeys doc)),
    ValidateAgainstSchema := checkRequired,
    ValidateSchemaUpdate := fun _ _ => none,
    ValidateSchemaUpdateMap := fun _ _ => none,
    HttpMethodFromString := fun m dflt => if m = "" then dflt else m,
    Expand := exampleExpand,
    NewRequest := fun m url b => .ok { Method := m, URL := url, Body := b, Header := [] },
    Do := fun _ =>
      .ok { StatusCode := 404,
            Body := { data := [34, 110, 111, 116, 32, 102, 111, 117, 110, 100, 34],
                      err := none } },
    jsonDecode := decodeStringLiteral,
    jsonMarshal := fun obj =>
      match obj with
      | [] => .ok "\x7b\x7d"
      | _ => .error (.errorString "value outside the example") }

/-- A data source that fetches `https://api.example.com/repos/{owner}` and
whose input schema requires `owner`. -/
def ownerSourceDef : RestDataSourceDef :=
  { InputSchema := some [("required", .slice [.string "owner"])],
    Endpoint := "https://api.example.com/repos/{owner}",
    Method := "",
    Headers := [],
    Body := none,
    Parse := "json" }

/-- The handler of `ownerSourceDef`. -/
def ownerHandler : restHandler (List String) :=
  { rawInputSchema := some [("required", .slice [.string "owner"])],
    inputSchema := some ["owner"],
    endpointTmpl := "https://api.example.com/repos/{owner}",
    method := "GET",
    body := "",
    headers := [],
    parse := "json" }

/-- A JSON string literal of `n` letters `a`: `n + 2` bytes. -/
def stringLiteral (n : Nat) : List Byte :=
  34 :: (List.replicate n 97 ++ [34])

/-! ## Security advisory alert
(`internal/engine/actions/alert/security_advisory/security_advisory.go`) -/

/-- Modelled from the spec: the sentinel `enginerr.ErrActionFailed` of package
`internal/engine/errors` (not among the sources), the failed-action outcome. -/
def ErrActionFailed : GoError := .sentinel "enginerr.ErrActionFailed" "action failed"

/-- Modelled from the spec: the sentinel `enginerr.ErrActionSkipped` of package
`internal/engine/errors` (not among the sources), the skipped outcome. -/
def ErrActionSkipped : GoError := .sentinel "enginerr.ErrActionSkipped" "action skipped"

/-- Modelled from the spec: the sentinel `enginerr.ErrActionTurnedOff` of package
`internal/engine/errors` (not among the sources), the turned-off outcome. -/
def ErrActionTurnedOff : GoError :=
  .sentinel "enginerr.ErrActionTurnedOff" "action turned off"

/-- Modelled from the spec: the type `interfaces.ActionOpt` of package
`internal/engine/interfaces` (not among the sources), the setting
`{On, Off, DryRun, Unknown}` of an action family. -/
abbrev ActionOpt := RemediateActionOpt

/-- Modelled from the spec: the type `interfaces.ActionCmd` of package
`internal/engine/interfaces` (not among the sources), a string type with the
constants `{On, Off, DoNothing}`; `other` is any other string. -/
inductive ActionCmd where
  | ActionCmdOn
  | ActionCmdOff
  | ActionCmdDoNothing
  | other (cmd : String)

/-- The entities an action receives: the messages `pb.Repository`,
`pb.PullRequest` and `pb.Artifact` with the fields read here, and a message of
another type, with the name of that type. -/
inductive Entity where
  | Repository (Owner Name : String)
  | PullRequest (RepoOwner RepoName : String)
  | Artifact (Owner Repository : String)
  | other (typeName : String)

/-- The message `pb.Profile`, the fields read here. -/
structure Profile where
  Name : String
  Remediate : Option String
  Alert : Option String

/-- Modelled from the spec: the struct `interfaces.EvalStatusParams` of package
`internal/engine/interfaces` (not among the sources), with its profile and rule
type present. -/
structure EvalStatusParams where
  Profile : Profile
  RuleType : RuleType
  EvalErr : Option GoError

/-- The message `pb.RuleType_Definition_Alert_AlertTypeSA`. -/
structure AlertTypeSA where
  Severity : String

/-- The struct `templateParamsSA`. -/
structure templateParamsSA where
  Profile : String
  Rule : String
  Repository : String
  Severity : String
  Guidance : String

/-- The fields of `templateParamsSA` a template can name. -/
inductive TemplateField where
  | Profile
  | Rule
  | Repository
  | Severity
  | Guidance

/-- A piece of a parsed template: text, or the action printing a field. -/
inductive Segment where
  | text (s : String)
  | field (f : TemplateField)

/-- A parsed `text/template`. -/
abbrev Template := List Segment

/-- The value of a field of the template parameters. -/
def templateParamsSA.get (data : templateParamsSA) : TemplateField → String
  | .Profile => data.Profile
  | .Rule => data.Rule
  | .Repository => data.Repository
  | .Severity => data.Severity
  | .Guidance => data.Guidance

/-- The method `Execute` of a template, into a string builder. -/
def Template.Execute (tmpl : Template) (data : templateParamsSA) : Except GoError String :=
  .ok (String.join (tmpl.map (fun seg =>
    match seg with
    | .text s => s
    | .field f => data.get f)))

/-- The constant `AlertType`. -/
def AlertType : String := "security_advisory"

/-- The constant `summaryTmplStr`, parsed. -/
def summaryTmplStr : Template :=
  [ .text "mediator: profile ",
    .field .Profile,
    .text " failed with rule ",
    .field .Rule ]

/-- The constant `descriptionTmplNoRemStr`, parsed. -/
def descriptionTmplNoRemStr : Template :=
  [ .text "\n**Description:**\n\nMediator detected a potential security vulnerability in ",
    .field .Repository,
    .text ".\n\nThis is marked as a ",
    .field .Severity,
    .text " severity vulnerability according to the ",
    .field .Rule,
    .text " rule type definition.\n\n**Details:**\n\n- Profile: ",
    .field .Profile,
    .text "\n- Rule: ",
    .field .Rule,
    .text "\n- Repository: ",
    .field .Repository,
    .text "\n- Severity: ",
    .field .Severity,
    .text "\n\n**Remediation:**\n\n- Enable the auto-remediate feature in ",
    .field .Profile,
    .text " profile to allow for Mediator to automatically remediate such vulnerabilities in the future (depends on the remediate action being available for the given rule type).\n- Please follow the guidance below to resolve this issue manually.\n\n**Guidance:**\n\n",
    .field .Guidance,
    .text "\n\n**Notes:**\n\nThis security advisory is opened because the alert feature is enabled in ",
    .field .Profile,
    .text " and will be closed automatically once the issue for rule ",
    .field .Rule,
    .text " is resolved.\n\nIf you have any questions or think this was wrongly evaluated, please reach out to the Mediator team.\n" ]

/-- The constant `descriptionTmplStr`, parsed. -/
def descriptionTmplStr : Template :=
  [ .text "\n**Description:**\n\nMediator detected a potential security vulnerability in ",
    .field .Repository,
    .text ".\n\nThis is marked as a ",
    .field .Severity,
    .text " severity vulnerability according to the ",
    .field .Rule,
    .text " rule type definition.\n\n**Details:**\n\n- Profile: ",
    .field .Profile,
    .text "\n- Rule: ",
    .field .Rule,
    .text "\n- Repository: ",
    .field .Repository,
    .text "\n- Severity: ",
    .field .Severity,
    .text "\n\n**Remediation:**\n\n- You have the remediate feature enabled in your profile, so Mediator may have already tried to resolve this. Please check if there are any pending remediate actions, i.e. opened pull requests that need review and approval. \n- In case Mediator was not able to remediate this automatically or you want to do it manually, please follow the guidance below to resolve this issue.\n\n**Guidance:**\n\n",
    .field .Guidance,
    .text "\n\n**Notes:**\n\nThis security advisory is opened because the alert feature is enabled in ",
    .field .Profile,
    .text " and will be closed automatically once the issue for rule ",
    .field .Rule,
    .text " is resolved.\n\nIf you have any questions or think this was wrongly evaluated, please reach out to the Mediator team.\n" ]

/-- The struct `alertMetadata`. -/
structure alertMetadata where
  ID : String

/-- The type `json.RawMessage`, as text. -/
abbrev RawMessage := String

/-- The struct `paramsSA`; a vulnerability is given by the name of its package. -/
structure paramsSA where
  Template : templateParamsSA
  Owner : String
  Repo : String
  GHSA_ID : String
  Summary : String
  Description : String
  Vulnerabilities : List String
  Metadata : Option alertMetadata

/-- The interface `provifv1.GitHub`, the methods the alert calls. -/
structure GitHub where
  CreateSecurityAdvisory :
    String → String → String → String → String → List String → Except GoError String
  CloseSecurityAdvisory : String → String → String → Option GoError
  GetBaseURL : String

/-- The struct `providers.ProviderBuilder`, the method the alert calls. -/
structure ProviderBuilder where
  GetGitHub : Except GoError GitHub

/-- The struct `Alert`. -/
structure Alert where
  actionType : String
  cli : GitHub
  saCfg : AlertTypeSA
  summaryTmpl : Template
  descriptionTmpl : Template
  descriptionNoRemTmpl : Template

/-- The functions the alert calls in other packages:
`interfaces.ActionOptFromString`, `util.GenerateCurlCommand`, and
`json.Unmarshal` and `json.Marshal` on an `alertMetadata`. -/
structure AlertEnv where
  ActionOptFromString : Option String → ActionOpt
  GenerateCurlCommand : String → String → String → String → Except GoError String
  jsonUnmarshal : RawMessage → Except GoError alertMetadata
  jsonMarshal : alertMetadata → Except GoError RawMessage

/-- What an action does besides returning: a line of log, with its level and
message, and the calls on the provider with their arguments. -/
inductive AlertEvent where
  | log (level : String) (msg : String)
  | CreateSecurityAdvisory (owner repo severity summary description : String)
      (vulnerabilities : List String)
  | CloseSecurityAdvisory (owner repo id : String)

/-- The function `NewSecurityAdvisoryAlert`; the three constant templates
parse. -/
def NewSecurityAdvisoryAlert (actionType : String) (saCfg : AlertTypeSA)
    (pbuild : ProviderBuilder) : Except GoError Alert :=
  if actionType = "" then .error (.errorString "action type cannot be empty")
  else
    match pbuild.GetGitHub with
    | .error err => .error (fmtErrorfW "cannot get http client: " err)
    | .ok cli =>
      .ok { actionType := actionType,
            cli := cli,
            saCfg := saCfg,
            summaryTmpl := summaryTmplStr,
            descriptionTmpl := descriptionTmplStr,
            descriptionNoRemTmpl := descriptionTmplNoRemStr }

/-- The method `Alert.ParentType`. -/
def Alert.ParentType (alert : Alert) : String := alert.actionType

/-- The method `Alert.SubType`. -/
def Alert.SubType (_ : Alert) : String := AlertType

/-- The method `Alert.GetOnOffState`. -/
def Alert.GetOnOffState (env : AlertEnv) (_ : Alert) (p : Profile) : ActionOpt :=
  env.ActionOptFromString p.Alert

/-- The type switch of `getParamsForSecurityAdvisory`: the owner and the
repository of an entity, or the error for an entity of another type. -/
def Entity.ownerAndRepo : Entity → Except GoError (String × String)
  | .Repository owner name => .ok (owner, name)
  | .PullRequest repoOwner repoName => .ok (repoOwner, repoName)
  | .Artifact owner repository => .ok (owner, repository)
  | .other typeName =>
    .error (.errorString ("expected repository, pull request or artifact, got " ++ typeName))

/-- The method `Alert.getParamsForSecurityAdvisory`, with the lines it logs;
`metadata` is `none` for a nil pointer. -/
def Alert.getParamsForSecurityAdvisory (env : AlertEnv) (alert : Alert) (entity : Entity)
    (evalParams : EvalStatusParams) (metadata : Option RawMessage) :
    Except GoError paramsSA × List AlertEvent :=
  match entity.ownerAndRepo with
  | .error err => (.error err, [])
  | .ok (owner, repo) =>
    let repository := owner ++ "/" ++ repo
    let decoded : Option alertMetadata × List AlertEvent :=
      match metadata with
      | none => (none, [])
      | some raw =>
        match env.jsonUnmarshal raw with
        | .error err =>
          (none, [.log "debug" ("error unmarshalling alert metadata: " ++ err.Error)])
        | .ok md => (some md, [])
    let tmpl : templateParamsSA :=
      { Repository := repository,
        Severity := alert.saCfg.Severity,
        Guidance := evalParams.RuleType.Guidance,
        Rule := evalParams.RuleType.Name,
        Profile := evalParams.Profile.Name }
    match alert.summaryTmpl.Execute tmpl with
    | .error err => (.error (fmtErrorfW "error executing summary template: " err), decoded.2)
    | .ok summary =>
      let rendered :=
        if env.ActionOptFromString evalParams.Profile.Remediate = .ActionOptOn then
          alert.descriptionTmpl.Execute tmpl
        else
          alert.descriptionNoRemTmpl.Execute tmpl
      match rendered with
      | .error err =>
        (.error (fmtErrorfW "error executing description template: " err), decoded.2)
      | .ok description =>
        (.ok { Template := tmpl,
               Owner := owner,
               Repo := repo,
               GHSA_ID := "",
               Summary := summary,
               Description := description,
               Vulnerabilities := [repository],
               Metadata := decoded.1 },
         decoded.2)

/-- The method `Alert.run`, with what it does on the way. -/
def Alert.run (env : AlertEnv) (alert : Alert) (params : paramsSA) (cmd : ActionCmd) :
    (Option RawMessage × Option GoError) × List AlertEvent :=
  match cmd with
  | .ActionCmdOn =>
    let call := AlertEvent.CreateSecurityAdvisory params.Owner params.Repo
      params.Template.Severity params.Summary params.Description params.Vulnerabilities
    match alert.cli.CreateSecurityAdvisory params.Owner params.Repo params.Template.Severity
        params.Summary params.Description params.Vulnerabilities with
    | .error err =>
      ((none, some (fmtErrorfWW "error creating security advisory: " err ", " ErrActionFailed)),
        [call])
    | .ok id =>
      match env.jsonMarshal { ID := id } with
      | .error err =>
        ((none, some (fmtErrorfW "error marshalling alert metadata json: " err)), [call])
      | .ok newMeta =>
        ((some newMeta, none), [call, .log "info" "opened a security advisory"])
  | .ActionCmdOff =>
    let skipped : (Option RawMessage × Option GoError) × List AlertEvent :=
      ((none, some (fmtErrorfW "cannot close security-advisory without GHSA_ID: "
        ErrActionSkipped)), [])
    match params.Metadata with
    | none => skipped
    | some md =>
      if md.ID = "" then skipped
      else
        let call := AlertEvent.CloseSecurityAdvisory params.Owner params.Repo md.ID
        match alert.cli.CloseSecurityAdvisory params.Owner params.Repo md.ID with
        | some err =>
          ((none, some (fmtErrorfWW "error closing security advisory: " err ", "
            ErrActionFailed)), [call])
        | none =>
          ((none, some (fmtErrorfW (alert.ParentType ++ " : ") ErrActionTurnedOff)),
            [call, .log "info" "closed security advisory"])
  | .ActionCmdDoNothing => ((none, some ErrActionSkipped), [])
  | .other _ => ((none, some ErrActionSkipped), [])

/-- The method `Alert.runDry`, with what it does on the way. -/
def Alert.runDry (env : AlertEnv) (alert : Alert) (params : paramsSA) (cmd : ActionCmd) :
    Option GoError × List AlertEvent :=
  match cmd with
  | .ActionCmdOn =>
    let endpoint := "repos/" ++ params.Owner ++ "/" ++ params.Repo ++ "/security-advisories"
    let body := ""
    match env.GenerateCurlCommand "POST" alert.cli.GetBaseURL endpoint body with
    | .error err => (some (fmtErrorfW "cannot generate curl command: " err), [])
    | .ok curlCmd =>
      (none, [.log "info"
        ("run the following curl command to open a security-advisory: \n" ++ curlCmd ++ "\n")])
  | .ActionCmdOff =>
    let skipped : Option GoError × List AlertEvent :=
      (some (fmtErrorfW "cannot close a security-advisory without GHSA_ID: "
        ErrActionSkipped), [])
    match params.Metadata with
    | none => skipped
    | some md =>
      if md.ID = "" then skipped
      else
        let endpoint := "repos/" ++ params.Owner ++ "/" ++ params.Repo ++
          "/security-advisories/" ++ params.GHSA_ID
        let body := "\x7b\"state\": \"closed\"\x7d"
        match env.GenerateCurlCommand "PATCH" alert.cli.GetBaseURL endpoint body with
        | .error err =>
          (some (fmtErrorfW "cannot generate curl command to close a security-adivsory: " err),
            [])
        | .ok curlCmd =>
          (some ErrActionSkipped,
            [.log "info" ("run the following curl command: \n" ++ curlCmd ++ "\n")])
  | .ActionCmdDoNothing => (some ErrActionSkipped, [])
  | .other _ => (some ErrActionSkipped, [])

/-- The method `Alert.Do`, with what it does on the way, in order. -/
def Alert.Do (env : AlertEnv) (alert : Alert) (cmd : ActionCmd) (setting : ActionOpt)
    (entity : Entity) (evalParams : EvalStatusParams) (metadata : Option RawMessage) :
    (Option RawMessage × Option GoError) × List AlertEvent :=
  let started := AlertEvent.log "info" "begin processing"
  match alert.getParamsForSecurityAdvisory env entity evalParams metadata with
  | (.error err, logged) =>
    ((none, some (fmtErrorfW "error extracting details: " err)), started :: logged)
  | (.ok params, logged) =>
    match setting with
    | .ActionOptOn =>
      ((alert.run env params cmd).1, started :: logged ++ (alert.run env params cmd).2)
    | .ActionOptDryRun =>
      ((none, (alert.runDry env params cmd).1),
        started :: logged ++ (alert.runDry env params cmd).2)
    | .ActionOptOff | .ActionOptUnknown =>
      ((none, some (fmtErrorfW "unexpected action setting: " ErrActionFailed)),
        started :: logged)

/-- The calls on the provider among the things an action did. -/
def providerCalls : List AlertEvent → List AlertEvent
  | [] => []
  | .log _ _ :: rest => providerCalls rest
  | call :: rest => call :: providerCalls rest

/-- The entity is a repository, a pull request or an artifact. -/
def Entity.isSupported : Entity → Bool
  | .other _ => false
  | _ => true

/-- The JSON text of an `alertMetadata` whose advisory id needs no escaping;
an empty id is left out. -/
def exampleMarshal (md : alertMetadata) : RawMessage :=
  if md.ID = "" then "\x7b\x7d"
  else "\x7b\"ghsa_id\":\"" ++ md.ID ++ "\"\x7d"

/-- The reading of the texts written by `exampleMarshal`; other texts are
reported as not decodable. -/
def exampleUnmarshal (raw : RawMessage) : Except GoError alertMetadata :=
  let lead := "\x7b\"ghsa_id\":\"".data
  let tail := "\"\x7d".data
  let inner := raw.data.drop lead.length
  if raw = "\x7b\x7d" then .ok { ID := "" }
  else if lead.isPrefixOf raw.data ∧ tail.isSuffixOf inner then
    .ok { ID := String.mk (inner.take (inner.length - tail.length)) }
  else .error (.errorString "invalid character looking for beginning of value")

/-- An example of the collaborators of the alert: the profile settings are
`on`, `off` and `dry_run`, and the curl command is made of its four parts. -/
def exampleAlertEnv : AlertEnv :=
  { ActionOptFromString := fun s =>
      match s with
      | none => .ActionOptOff
      | some v =>
        if v = "on" then .ActionOptOn
        else if v = "off" then .ActionOptOff
        else if v = "dry_run" then .ActionOptDryRun
        else .ActionOptUnknown,
    GenerateCurlCommand := fun method baseURL endpoint body =>
      .ok ("curl -X " ++ method ++ " " ++ baseURL ++ endpoint ++ " -d " ++ body),
    jsonUnmarshal := exampleUnmarshal,
    jsonMarshal := fun md => .ok (exampleMarshal md) }

/-- A provider on which the creation of an advisory returns `GHSA-1` and its
closing succeeds. -/
def exampleGitHub : GitHub :=
  { CreateSecurityAdvisory := fun _ _ _ _ _ _ => .ok "GHSA-1",
    CloseSecurityAdvisory := fun _ _ _ => none,
    GetBaseURL := "https://api.github.com/" }

/-- The alert built for the scenario. -/
def exampleAlert : Alert :=
  { actionType := "alert",
    cli := exampleGitHub,
    saCfg := { Severity := "high" },
    summaryTmpl := summaryTmplStr,
    descriptionTmpl := descriptionTmplStr,
    descriptionNoRemTmpl := descriptionTmplNoRemStr }

/-- The evaluation parameters of the scenario: profile `prod`, remediate on. -/
def exampleEvalParams : EvalStatusParams :=
  { Profile := { Name := "prod", Remediate := some "on", Alert := some "on" },
    RuleType := scenarioRuleType,
    EvalErr := some violationErr }

/-- The advisory id a prior metadata gives to the alert: none for a nil
metadata, for a metadata that does not decode and for one with an empty
`ghsa_id`. -/
def usableID (env : AlertEnv) (metadata : Option RawMessage) : Option String :=
  match metadata with
  | none => none
  | some raw =>
    match env.jsonUnmarshal raw with
    | .error _ => none
    | .ok md => if md.ID = "" then none else some md.ID

/-- The metadata `getParamsForSecurityAdvisory` keeps: the decoded prior
metadata, or nil when there is none or it does not decode. -/
def decodedMetadata (env : AlertEnv) (metadata : Option RawMessage) : Option alertMetadata :=
  match metadata with
  | none => none
  | some raw =>
    match env.jsonUnmarshal raw with
    | .error _ => none
    | .ok md => some md

/-- The template parameters `getParamsForSecurityAdvisory` fills in. -/
def templateParamsOf (alert : Alert) (owner repo : String) (evalParams : EvalStatusParams) :
    templateParamsSA :=
  { Repository := owner ++ "/" ++ repo,
    Severity := alert.saCfg.Severity,
    Guidance := evalParams.RuleType.Guidance,
    Rule := evalParams.RuleType.Name,
    Profile := evalParams.Profile.Name }

/-- The text a template prints for its parameters. -/
def Template.render (tmpl : Template) (data : templateParamsSA) : String :=
  String.join (tmpl.map (fun seg =>
    match seg with
    | .text s => s
    | .field f => data.get f))

/-- The parameters `getParamsForSecurityAdvisory` returns for an entity with
the given owner and repository. -/
def paramsFor (env : AlertEnv) (alert : Alert) (owner repo : String)
    (evalParams : EvalStatusParams) (metadata : Option RawMessage) : paramsSA :=
  { Template := templateParamsOf alert owner repo evalParams,
    Owner := owner,
    Repo := repo,
    GHSA_ID := "",
    Summary := alert.summaryTmpl.render (templateParamsOf alert owner repo evalParams),
    Description :=
      if env.ActionOptFromString evalParams.Profile.Remediate = .ActionOptOn then
        alert.descriptionTmpl.render (templateParamsOf alert owner repo evalParams)
      else
        alert.descriptionNoRemTmpl.render (templateParamsOf alert owner repo evalParams),
    Vulnerabilities := [owner ++ "/" ++ repo],
    Metadata := decodedMetadata env metadata }

/-- The call of `CreateSecurityAdvisory` the alert makes for an entity with the
given owner and repository. -/
def createFor (env : AlertEnv) (alert : Alert) (owner repo : String)
    (evalParams : EvalStatusParams) : Except GoError String :=
  alert.cli.CreateSecurityAdvisory owner repo alert.saCfg.Severity
    (paramsFor env alert owner repo evalParams none).Summary
    (paramsFor env alert owner repo evalParams none).Description
    [owner ++ "/" ++ repo]

/-! ## No-op actions (`internal/engine/actions/alert/noop/noop.go`,
`internal/engine/actions/remediate/noop/noop.go`) -/

/-- Modelled from the spec: the sentinel `enginerr.ErrActionNotAvailable` of
package `internal/engine/errors` (not among the sources), the "action not
available" outcome. -/
def ErrActionNotAvailable : GoError :=
  .sentinel "enginerr.ErrActionNotAvailable" "action not available"

/-- The struct `Alert` of the package of the no-op alert. -/
structure NoopAlert where
  actionType : String

/-- The function `NewNoopAlert`. -/
def NewNoopAlert (actionType : String) : Except GoError NoopAlert :=
  .ok { actionType := actionType }

/-- The method `ParentType` of the no-op alert. -/
def NoopAlert.ParentType (a : NoopAlert) : String := a.actionType

/-- The method `SubType` of the no-op alert. -/
def NoopAlert.SubType (_ : NoopAlert) : String := "noop"

/-- The method `GetOnOffState` of the no-op alert. -/
def NoopAlert.GetOnOffState (_ : NoopAlert) (_ : Profile) : ActionOpt := .ActionOptOff

/-- The method `Do` of the no-op alert. -/
def NoopAlert.Do (a : NoopAlert) (_ : ActionCmd) (_ : ActionOpt) (_ : Entity)
    (_ : GoMap) (_ : GoMap) (_ : Option RawMessage) : Option RawMessage × Option GoError :=
  (none, some (fmtErrorfW (a.ParentType ++ ":") ErrActionNotAvailable))

/-- The struct `Remediator` of the package of the no-op remediator. -/
structure NoopRemediator where
  actionType : String

/-- The function `NewNoopRemediate`. -/
def NewNoopRemediate (actionType : String) : Except GoError NoopRemediator :=
  .ok { actionType := actionType }

/-- The method `ParentType` of the no-op remediator. -/
def NoopRemediator.ParentType (r : NoopRemediator) : String := r.actionType

/-- The method `SubType` of the no-op remediator. -/
def NoopRemediator.SubType (_ : NoopRemediator) : String := "noop"

/-- The method `GetOnOffState` of the no-op remediator. -/
def NoopRemediator.GetOnOffState (_ : NoopRemediator) (_ : Profile) : ActionOpt :=
  .ActionOptOff

/-- The method `Do` of the no-op remediator. -/
def NoopRemediator.Do (r : NoopRemediator) (_ : ActionCmd) (_ : ActionOpt) (_ : Entity)
    (_ : EvalStatusParams) (_ : Option RawMessage) : Option RawMessage × Option GoError :=
  (none, some (fmtErrorfW (r.ParentType ++ ":") ErrActionNotAvailable))

/-! ## Rule types from the database (`internal/engine/rule_types.go`) -/

/-- The struct `db.RuleType`, the fields read here; `ID` is the text of the
identifier. -/
structure DbRuleType where
  ID : String
  Name : String
  Description : String
  Guidance : String
  Definition : RawMessage

/-- A named object of an entity context: its group or its provider. -/
structure Named where
  Name : String

/-- Modelled from the spec: the struct `EntityContext` of package
`internal/engine` (not among the sources), with its group and provider
present. -/
structure EntityContext where
  Group : Named
  Provider : Named

/-- The function `RuleDefFromDB`; `unmarshal` is `protojson.Unmarshal` into a
rule type definition. -/
def RuleDefFromDB (unmarshal : RawMessage → Except GoError RuleTypeDefinition)
    (r : DbRuleType) : Except GoError RuleTypeDefinition :=
  match unmarshal r.Definition with
  | .error err => .error (fmtErrorfW "cannot unmarshal rule type definition: " err)
  | .ok d => .ok d

/-- The function `RuleTypePBFromDB`. -/
def RuleTypePBFromDB (unmarshal : RawMessage → Except GoError RuleTypeDefinition)
    (rt : DbRuleType) (ectx : EntityContext) : Except GoError RuleType :=
  let gname := ectx.Group.Name
  match RuleDefFromDB unmarshal rt with
  | .error err => .error (fmtErrorfW "cannot get rule type definition: " err)
  | .ok d =>
    let id := rt.ID
    .ok { Id := some id,
          Name := rt.Name,
          Context := { Provider := ectx.Provider.Name, Organization := none,
                       Group := some gname },
          Description := rt.Description,
          Guidance := rt.Guidance,
          Def := d }

/-- The record of a rule type named `name`, with an empty definition blob. -/
def recordOf (name : String) : DbRuleType :=
  { ID := "00000000-0000-0000-0000-000000000001", Name := name, Description := "",
    Guidance := "", Definition := "\x7b\x7d" }

/-- The entity context of provider `provider1` and group `acme`. -/
def acmeContext : EntityContext :=
  { Group := { Name := "acme" }, Provider := { Name := "provider1" } }

/-- A reading of definition blobs that gives the definition of the scenario. -/
def scenarioUnmarshal (_ : RawMessage) : Except GoError RuleTypeDefinition :=
  .ok { InEntity := "repository", RuleSchema := none, ParamSchema := none }

/-- A provider on which the creation and the closing of an advisory fail. -/
def failingGitHub : GitHub :=
  { CreateSecurityAdvisory := fun _ _ _ _ _ _ => .error (.errorString "403 Forbidden"),
    CloseSecurityAdvisory := fun _ _ _ => some (.errorString "404 Not Found"),
    GetBaseURL := "https://api.github.com/" }

/-- A provider on which the creation of an advisory fails with an error that
wraps `ErrActionSkipped`, and its closing with one that wraps
`ErrActionTurnedOff`. -/
def outcomeGitHub : GitHub :=
  { CreateSecurityAdvisory := fun _ _ _ _ _ _ =>
      .error (fmtErrorfW "advisories are disabled: " ErrActionSkipped),
    CloseSecurityAdvisory := fun _ _ _ =>
      some (fmtErrorfW "advisory already closed: " ErrActionTurnedOff),
    GetBaseURL := "https://api.github.com/" }

/-! ## The JSON text of the alert metadata

`run` writes the metadata with `json.Marshal` and
`getParamsForSecurityAdvisory` reads it with `json.Unmarshal`, of the Go
library `encoding/json`. The definitions below are what the two do on an
`alertMetadata`, whose one field `ID` carries the tag
`json:"ghsa_id,omitempty"`. A Go string is here a list of Unicode characters:
bytes that are not UTF-8, which the library replaces by U+FFFD, do not occur. -/

/-- The digit `hex[n]` of the encoder, out of `0123456789abcdef`. -/
def hexDigit (n : Nat) : Char :=
  if n < 10 then Char.ofNat (48 + n) else Char.ofNat (87 + n)

/-- What `appendString` writes for one character of a string, with the
escaping of HTML that `json.Marshal` turns on: a backslash before `"` and
`\`; the short forms for backspace, form feed, line feed, carriage return and
tab; `\u00XX` for the other characters below U+0020 and for `<`, `>` and `&`;
`\u2028` and `\u2029` for the separators of lines and of paragraphs; every
other character as it is. -/
def escapeChar (c : Char) : List Char :=
  if c = Char.ofNat 34 ∨ c = Char.ofNat 92 then [Char.ofNat 92, c]
  else if c = Char.ofNat 8 then [Char.ofNat 92, 'b']
  else if c = Char.ofNat 12 then [Char.ofNat 92, 'f']
  else if c = Char.ofNat 10 then [Char.ofNat 92, 'n']
  else if c = Char.ofNat 13 then [Char.ofNat 92, 'r']
  else if c = Char.ofNat 9 then [Char.ofNat 92, 't']
  else if c.toNat < 32 ∨ c = '<' ∨ c = '>' ∨ c = '&' then
    [Char.ofNat 92, 'u', '0', '0', hexDigit (c.toNat / 16), hexDigit (c.toNat % 16)]
  else if c = Char.ofNat 8232 ∨ c = Char.ofNat 8233 then
    [Char.ofNat 92, 'u', '2', '0', '2', hexDigit (c.toNat % 16)]
  else [c]

/-- The characters of a string, each one escaped. -/
def escapeChars : List Char → List Char
  | [] => []
  | c :: cs => escapeChar c ++ escapeChars cs

/-- The function `appendString` of `encoding/json`: the JSON string literal
of a string, between quotes. -/
def appendString (s : String) : String :=
  String.mk (Char.ofNat 34 :: (escapeChars s.data ++ [Char.ofNat 34]))

/-- The function `json.Marshal` on an `alertMetadata`: an object with the one
member `ghsa_id`, left out when the id is empty. -/
def goMarshal (md : alertMetadata) : RawMessage :=
  if md.ID = "" then "\x7b\x7d"
  else "\x7b\"ghsa_id\":" ++ appendString md.ID ++ "\x7d"

/-- The value of a hexadecimal digit, of either case. -/
def hexVal (c : Char) : Option Nat :=
  if 48 ≤ c.toNat ∧ c.toNat ≤ 57 then some (c.toNat - 48)
  else if 97 ≤ c.toNat ∧ c.toNat ≤ 102 then some (c.toNat - 87)
  else if 65 ≤ c.toNat ∧ c.toNat ≤ 70 then some (c.toNat - 55)
  else none

/-- The function `getu4` of the decoder: the number written by the four
hexadecimal digits of a leading `\uXXXX`, with the characters after it. -/
def getu4 : List Char → Option (Nat × List Char)
  | b :: u :: x3 :: x2 :: x1 :: x0 :: rest =>
    if b = Char.ofNat 92 ∧ u = 'u' then
      match hexVal x3, hexVal x2, hexVal x1, hexVal x0 with
      | some d3, some d2, some d1, some d0 => some (((d3 * 16 + d2) * 16 + d1) * 16 + d0, rest)
      | _, _, _, _ => none
    else none
  | _ => none

/-- The function `utf16.DecodeRune`: the code point of a surrogate pair, and
U+FFFD for what is not one. -/
def decodeRune (r1 r2 : Nat) : Nat :=
  if 0xd800 ≤ r1 ∧ r1 < 0xdc00 ∧ 0xdc00 ≤ r2 ∧ r2 < 0xe000 then
    (r1 - 0xd800) * 1024 + (r2 - 0xdc00) + 0x10000
  else 0xfffd

/-- The character a backslash stands for before one of `"`, `\`, `/`, `b`,
`f`, `n`, `r` and `t`; the other characters are not escapes. -/
def unescape (e : Char) : Option Char :=
  if e = Char.ofNat 34 ∨ e = Char.ofNat 92 ∨ e = '/' then some e
  else if e = 'b' then some (Char.ofNat 8)
  else if e = 'f' then some (Char.ofNat 12)
  else if e = 'n' then some (Char.ofNat 10)
  else if e = 'r' then some (Char.ofNat 13)
  else if e = 't' then some (Char.ofNat 9)
  else none

/-- The function `unquote` of the decoder together with the scanning of the
literal: from the characters after an opening quote, the string the literal
stands for and the characters after its closing quote. A character below
U+0020, an unknown escape and a missing closing quote are errors; a `\uXXXX`
that is half of a surrogate pair without its other half reads as U+FFFD. The
first argument bounds the number of characters read. -/
def unquote : Nat → List Char → Option (List Char × List Char)
  | 0, _ => none
  | _ + 1, [] => none
  | fuel + 1, c :: rest =>
    if c = Char.ofNat 34 then some ([], rest)
    else if c = Char.ofNat 92 then
      match rest with
      | [] => none
      | e :: rest1 =>
        if e = 'u' then
          match getu4 (c :: e :: rest1) with
          | none => none
          | some (rr, rest2) =>
            if 0xd800 ≤ rr ∧ rr < 0xe000 then
              match getu4 rest2 with
              | none => (unquote fuel rest2).map (fun p => (Char.ofNat 0xfffd :: p.1, p.2))
              | some (rr1, rest3) =>
                if decodeRune rr rr1 = 0xfffd then
                  (unquote fuel rest2).map (fun p => (Char.ofNat 0xfffd :: p.1, p.2))
                else
                  (unquote fuel rest3).map
                    (fun p => (Char.ofNat (decodeRune rr rr1) :: p.1, p.2))
            else (unquote fuel rest2).map (fun p => (Char.ofNat rr :: p.1, p.2))
        else
          match unescape e with
          | none => none
          | some d => (unquote fuel rest1).map (fun p => (d :: p.1, p.2))
    else if c.toNat < 32 then none
    else (unquote fuel rest).map (fun p => (c :: p.1, p.2))

/-- The white space of JSON, which the scanner skips: space, tab, carriage
return and line feed. -/
def skipWs : List Char → List Char
  | [] => []
  | c :: rest =>
    if c = ' ' ∨ c = Char.ofNat 9 ∨ c = Char.ofNat 13 ∨ c = Char.ofNat 10 then skipWs rest
    else c :: rest

/-- One digit or more, dropped from the head of the input. -/
def scanDigits : List Char → Option (List Char)
  | [] => none
  | c :: rest => if c.isDigit then some (rest.dropWhile Char.isDigit) else none

/-- The scanning of a number: an optional minus, `0` or digits that do not
start with `0`, an optional fraction and an optional exponent. -/
def scanNumber (cs : List Char) : Option (List Char) :=
  let unsigned :=
    match cs with
    | [] => []
    | c :: rest => if c = '-' then rest else c :: rest
  let whole : Option (List Char) :=
    match unsigned with
    | [] => none
    | c :: rest => if c = '0' then some rest else scanDigits (c :: rest)
  match whole with
  | none => none
  | some r =>
    let fraction : Option (List Char) :=
      match r with
      | [] => some r
      | c :: rest => if c = '.' then scanDigits rest else some r
    match fraction with
    | none => none
    | some r1 =>
      match r1 with
      | [] => some r1
      | c :: rest =>
        if c = 'e' ∨ c = 'E' then
          match rest with
          | [] => none
          | s :: rest1 => if s = '+' ∨ s = '-' then scanDigits rest1 else scanDigits rest
        else some r1

/-- The scanning of a string, of one of the literals `true`, `false` and
`null`, or of a number. -/
def scanScalar (cs : List Char) : Option (List Char) :=
  match cs with
  | [] => none
  | c :: rest =>
    if c = Char.ofNat 34 then (unquote rest.length rest).map (fun p => p.2)
    else if "true".data.isPrefixOf cs then some (cs.drop 4)
    else if "false".data.isPrefixOf cs then some (cs.drop 5)
    else if "null".data.isPrefixOf cs then some (cs.drop 4)
    else scanNumber cs

/-- The two kinds of value that hold other values. -/
inductive Container where
  | object
  | array
  deriving DecidableEq, Repr

/-- What the scanner of `encoding/json` waits for: a value
(`stateBeginValue`), the first key of an object or its end
(`stateBeginStringOrEmpty`), a key (`stateBeginString`), the first element of
an array or its end (`stateBeginValueOrEmpty`), and what follows a value
(`stateEndValue`). -/
inductive ScanState where
  | beginValue
  | beginStringOrEmpty
  | beginString
  | beginValueOrEmpty
  | endValue
  deriving DecidableEq, Repr

/-- The scanner of `encoding/json` on one value: the characters after the
value when it is well formed. `opened` lists the objects and arrays of this
value that are not yet closed, `depth` counts those around the value, and the
two together may not pass 10000 (`maxNestingDepth`). The first argument
bounds the number of steps. -/
def scan : Nat → ScanState → List Container → Nat → List Char → Option (List Char)
  | 0, _, _, _, _ => none
  | fuel + 1, state, opened, depth, cs =>
    match state with
    | .endValue =>
      match opened with
      | [] => some cs
      | top :: below =>
        match skipWs cs with
        | [] => none
        | c :: rest =>
          if c = ',' then
            scan fuel (if top = .object then .beginString else .beginValue) opened depth rest
          else if (top = .object ∧ c = Char.ofNat 125) ∨ (top = .array ∧ c = ']') then
            scan fuel .endValue below depth rest
          else none
    | .beginValue =>
      match skipWs cs with
      | [] => none
      | c :: rest =>
        if c = Char.ofNat 123 then
          if depth + opened.length < 10000 then
            scan fuel .beginStringOrEmpty (.object :: opened) depth rest
          else none
        else if c = '[' then
          if depth + opened.length < 10000 then
            scan fuel .beginValueOrEmpty (.array :: opened) depth rest
          else none
        else
          match scanScalar (c :: rest) with
          | none => none
          | some rest1 => scan fuel .endValue opened depth rest1
    | .beginStringOrEmpty =>
      match skipWs cs with
      | [] => none
      | c :: rest =>
        if c = Char.ofNat 125 then scan fuel .endValue opened.tail depth rest
        else scan fuel .beginString opened depth (c :: rest)
    | .beginString =>
      match skipWs cs with
      | [] => none
      | c :: rest =>
        if c = Char.ofNat 34 then
          match unquote rest.length rest with
          | none => none
          | some (_, rest1) =>
            match skipWs rest1 with
            | [] => none
            | d :: rest2 => if d = ':' then scan fuel .beginValue opened depth rest2 else none
        else none
    | .beginValueOrEmpty =>
      match skipWs cs with
      | [] => none
      | c :: rest =>
        if c = ']' then scan fuel .endValue opened.tail depth rest
        else scan fuel .beginValue opened depth (c :: rest)

/-- The characters after the JSON value at the head of the input, which
`depth` objects and arrays surround; nothing when the value is not well
formed. -/
def skipValue (depth : Nat) (cs : List Char) : Option (List Char) :=
  scan (2 * cs.length + 2) .beginValue [] depth cs

/-- The name `encoding/json` gives the kind of a value in its errors, from
the first character of the value. -/
def valueKind (c : Char) : String :=
  if c = Char.ofNat 123 then "object"
  else if c = '[' then "array"
  else if c = Char.ofNat 34 then "string"
  else if c = 't' ∨ c = 'f' then "bool"
  else "number"

/-- A `*json.SyntaxError`, for a text that is not well formed JSON; its
message, which names the offending character, is not modelled. -/
def syntaxError : GoError := .errorString "invalid character in JSON input"

/-- The key of a member names the field `ID`: it is `ghsa_id`, or it is
`ghsa_id` but for the case of its letters, which `foldName` of
`encoding/json` erases with the case tables of Unicode. -/
def isField (foldName : String → String) (key : String) : Bool :=
  key = "ghsa_id" || foldName key = foldName "ghsa_id"

/-- The decoding of the value of one member into an `alertMetadata`: a string
under the key of `ID` is stored, a `null` under it leaves the field as it is,
another value under it is an `UnmarshalTypeError`, of which the first is kept
in `saved` while the decoding goes on; the value of another key is skipped. -/
def memberValue (field : Bool) (cs : List Char) (md : alertMetadata) (saved : Option String) :
    Option (alertMetadata × Option String × List Char) :=
  match cs with
  | [] => none
  | c :: rest =>
    if field = true ∧ c = Char.ofNat 34 then
      (unquote rest.length rest).map (fun p => ({ ID := String.mk p.1 }, saved, p.2))
    else
      match skipValue 1 cs with
      | none => none
      | some rest1 =>
        if field = true ∧ ¬ "null".data.isPrefixOf cs then
          some (md, some (saved.getD (valueKind c)), rest1)
        else some (md, saved, rest1)

/-- The decoding of the members of a JSON object into an `alertMetadata`,
from the characters after the opening brace or after a comma: the metadata,
the kind of the first value of a wrong type, and the characters after the
closing brace. Of two members that name the field, the later one wins. The
first argument bounds the number of members. -/
def object (foldName : String → String) :
    Nat → Bool → List Char → alertMetadata → Option String →
      Option (alertMetadata × Option String × List Char)
  | 0, _, _, _, _ => none
  | fuel + 1, first, cs, md, saved =>
    match skipWs cs with
    | [] => none
    | c :: rest =>
      if first = true ∧ c = Char.ofNat 125 then some (md, saved, rest)
      else if c = Char.ofNat 34 then
        match unquote rest.length rest with
        | none => none
        | some (key, rest1) =>
          match skipWs rest1 with
          | [] => none
          | colon :: rest2 =>
            if colon = ':' then
              match memberValue (isField foldName (String.mk key)) (skipWs rest2) md saved with
              | none => none
              | some (md1, saved1, rest3) =>
                match skipWs rest3 with
                | [] => none
                | d :: rest4 =>
                  if d = ',' then object foldName fuel false rest4 md1 saved1
                  else if d = Char.ofNat 125 then some (md1, saved1, rest4)
                  else none
            else none
      else none

/-- The function `json.Unmarshal` into a pointer to an empty `alertMetadata`,
as `getParamsForSecurityAdvisory` calls it: a well formed object gives the
metadata its member `ghsa_id` holds, `null` gives the empty metadata, and
every other text is an error: of syntax when it is not one well formed JSON
value, of type when the value, or the value of `ghsa_id`, is of another
kind. -/
def goUnmarshal (foldName : String → String) (raw : RawMessage) :
    Except GoError alertMetadata :=
  match skipWs raw.data with
  | [] => .error syntaxError
  | c :: rest =>
    if c = Char.ofNat 123 then
      match object foldName (rest.length + 1) true rest { ID := "" } none with
      | none => .error syntaxError
      | some (md, saved, tail) =>
        if skipWs tail = [] then
          match saved with
          | none => .ok md
          | some kind =>
            .error (.errorString ("json: cannot unmarshal " ++ kind ++
              " into Go struct field alertMetadata.ghsa_id of type string"))
        else .error syntaxError
    else
      match skipValue 0 (c :: rest) with
      | none => .error syntaxError
      | some tail =>
        if skipWs tail = [] then
          if "null".data.isPrefixOf (c :: rest) then .ok { ID := "" }
          else
            .error (.errorString ("json: cannot unmarshal " ++ valueKind c ++
              " into Go value of type security_advisory.alertMetadata"))
        else .error syntaxError

/-- The collaborators of the alert with `json.Marshal` and `json.Unmarshal`
of `encoding/json` for the two functions of JSON. -/
def withGoJson (foldName : String → String) (env : AlertEnv) : AlertEnv :=
  { env with
    jsonMarshal := fun md => .ok (goMarshal md),
    jsonUnmarshal := goUnmarshal foldName }

/-- The folding of the letters of ASCII to upper case, which is `foldName` on
the names made of ASCII characters. -/
def asciiFold (s : String) : String :=
  String.mk (s.data.map Char.toUpper)

/-! ## Lemmas on errors -/

theorem GoError.Is_self (e : GoError) : e.Is e = true := by
  cases e <;> simp [GoError.Is]

/-- Every evaluation outcome is a pass, a violation, a skip or a silent skip. -/
theorem outcome_cases (evalErr : Option GoError) :
    isPass evalErr ∨ isViolation evalErr ∨ isSkipped evalErr ∨ isSkippedSilently evalErr := by
  unfold isPass isViolation
  by_cases h1 : evalErr = none
  · exact Or.inl h1
  · by_cases h2 : isSkipped evalErr
    · exact Or.inr (Or.inr (Or.inl h2))
    · by_cases h3 : isSkippedSilently evalErr
      · exact Or.inr (Or.inr (Or.inr h3))
      · exact Or.inr (Or.inl ⟨h1, h2, h3⟩)

theorem shouldRemediate_fst {Ent Evid Cli : Type} (r : RuleTypeEngine Ent Evid Cli)
    (remAction : RemediateActionOpt) (evalErr : Option GoError) :
    (r.shouldRemediate remAction evalErr).1 = true ↔
      r.rrem.isSome = true ∧
      (remAction = .ActionOptDryRun ∨ remAction = .ActionOptOn) ∧
      (isViolation evalErr ∨ isSkippedSilently evalErr) := by
  unfold RuleTypeEngine.shouldRemediate
  cases hr : r.rrem with
  | none => simp
  | some rem =>
    cases evalErr with
    | none => cases remAction <;> simp [isViolation, isSkippedSilently, errorsIs]
    | some e =>
      cases remAction <;> cases h1 : e.Is ErrEvaluationSkipped <;>
        cases h2 : e.Is ErrEvaluationSkipSilently <;>
        simp_all [isViolation, isSkipped, isSkippedSilently, errorsIs]

theorem shouldRemediate_snd {Ent Evid Cli : Type} (r : RuleTypeEngine Ent Evid Cli)
    (remAction : RemediateActionOpt) (evalErr : Option GoError) :
    (r.shouldRemediate remAction evalErr).2 =
      if r.rrem.isSome = true ∧ remAction = .ActionOptUnknown then
        some (.errorString "unknown remediation action, check your policy definition")
      else none := by
  unfold RuleTypeEngine.shouldRemediate
  cases hr : r.rrem with
  | none => simp
  | some rem => cases remAction <;> simp

theorem tryRemediate_returns {Ent Evid Cli : Type} (r : RuleTypeEngine Ent Evid Cli)
    (ent : Ent) (pol : GoMap) (remAction : RemediateActionOpt) (evalErr : Option GoError) :
    ∃ remediateErr, (r.tryRemediate ent pol remAction evalErr).1 = .returned remediateErr := by
  unfold RuleTypeEngine.tryRemediate
  have h1 := shouldRemediate_fst r remAction evalErr
  rcases hs : r.shouldRemediate remAction evalErr with ⟨b, e⟩
  rw [hs] at h1
  cases b with
  | false => cases e <;> simp
  | true =>
    cases e with
    | some err => simp
    | none =>
      have h2 := (h1.mp rfl).1
      cases hr : r.rrem with
      | none => simp [hr] at h2
      | some rem => simp

theorem tryRemediate_calls {Ent Evid Cli : Type} (r : RuleTypeEngine Ent Evid Cli)
    (ent : Ent) (pol : GoMap) (remAction : RemediateActionOpt) (evalErr : Option GoError) :
    (r.tryRemediate ent pol remAction evalErr).2 =
      if (r.shouldRemediate remAction evalErr).1 = true then [.remediate remAction ent pol]
      else [] := by
  unfold RuleTypeEngine.tryRemediate
  have h1 := shouldRemediate_fst r remAction evalErr
  have h3 := shouldRemediate_snd r remAction evalErr
  rcases hs : r.shouldRemediate remAction evalErr with ⟨b, e⟩
  rw [hs] at h1 h3
  cases b with
  | false => cases e <;> simp
  | true =>
    have h2 := h1.mp rfl
    have h4 : e = none := by
      simp only at h3
      rw [h3]
      rcases h2.2.1 with h | h <;> simp [h]
    subst h4
    cases hr : r.rrem with
    | none => simp [hr] at h2
    | some rem => simp

theorem remediateCalls_append {Ent Evid : Type} (xs ys : List (Event Ent Evid)) :
    remediateCalls (xs ++ ys) = remediateCalls xs ++ remediateCalls ys := by
  induction xs with
  | nil => rfl
  | cons x xs ih => cases x <;> simp [remediateCalls, ih]

theorem Eval_of_ingest_ok {Ent Evid Cli : Type} (r : RuleTypeEngine Ent Evid Cli)
    (ent : Ent) (pol params : GoMap) (remAction : RemediateActionOpt) (result : Evid)
    (hing : r.rdi.Ingest ent params = .ok result) :
    (r.Eval ent pol params remAction).1 = .returned (r.reval.Eval pol result) ∧
    remediateCalls (r.Eval ent pol params remAction).2 =
      if (r.shouldRemediate remAction (r.reval.Eval pol result)).1 = true then
        [(remAction, ent, pol)]
      else [] := by
  obtain ⟨remediateErr, h1⟩ := tryRemediate_returns r ent pol remAction (r.reval.Eval pol result)
  have h2 := tryRemediate_calls r ent pol remAction (r.reval.Eval pol result)
  rcases ht : r.tryRemediate ent pol remAction (r.reval.Eval pol result) with ⟨c, calls⟩
  rw [ht] at h1 h2
  simp only at h1 h2
  subst h1 h2
  simp only [RuleTypeEngine.Eval, hing, ht]
  refine ⟨trivial, ?_⟩
  · by_cases hs : (r.shouldRemediate remAction (r.reval.Eval pol result)).1 = true
    · cases remediateErr <;> simp [hs, remediateCalls]
    · cases remediateErr <;> simp [hs, remediateCalls]

/-! ## The remediation decision -/

/-- C1: on an engine that has a remediator, `shouldRemediate` indicates
remediation exactly when the setting is DryRun or On and the evaluation outcome
is a violation or a silent skip; Off never remediates, a pass is never
remediated, a skip (an error that is `ErrEvaluationSkipped` and not
`ErrEvaluationSkipSilently`) suppresses remediation and a silent skip does
not. -/
theorem shouldRemediate_decision_table {Ent Evid Cli : Type} (r : RuleTypeEngine Ent Evid Cli)
    (hrem : r.rrem.isSome = true) (remAction : RemediateActionOpt)
    (evalErr : Option GoError) :
    ((r.shouldRemediate remAction evalErr).1 = true ↔
      (remAction = .ActionOptDryRun ∨ remAction = .ActionOptOn) ∧
      (isViolation evalErr ∨ isSkippedSilently evalErr)) ∧
    (r.shouldRemediate .ActionOptOff evalErr).1 = false ∧
    (isPass evalErr → (r.shouldRemediate remAction evalErr).1 = false) ∧
    (isSkipped evalErr → ¬ isSkippedSilently evalErr →
      (r.shouldRemediate remAction evalErr).1 = false) ∧
    (isSkippedSilently evalErr →
      (r.shouldRemediate .ActionOptDryRun evalErr).1 = true ∧
      (r.shouldRemediate .ActionOptOn evalErr).1 = true) := by
  have key := fun a => shouldRemediate_fst r a evalErr
  refine ⟨?_, ?_, ?_, ?_, ?_⟩
  · rw [key]; simp [hrem]
  · rw [Bool.eq_false_iff]; intro h; simpa using ((key _).mp h).2.1
  · intro hp
    rw [Bool.eq_false_iff]; intro h
    rcases ((key _).mp h).2.2 with hv | hs
    · exact hv.1 hp
    · rw [isPass] at hp; subst hp; simp [isSkippedSilently, errorsIs] at hs
  · intro hsk hns
    rw [Bool.eq_false_iff]; intro h
    rcases ((key _).mp h).2.2 with hv | hs
    · exact hv.2.1 hsk
    · exact hns hs
  · intro hs
    exact ⟨(key _).mpr ⟨hrem, Or.inl rfl, Or.inr hs⟩, (key _).mpr ⟨hrem, Or.inr rfl, Or.inr hs⟩⟩

/-- Witness of C1 on the scenario engine: with setting On a silent skip is
remediated and a skip is not. -/
theorem shouldRemediate_decision_table_witness :
    (scenarioEngine none none true).rrem.isSome = true ∧
    ((scenarioEngine none none true).shouldRemediate .ActionOptOn
      (some skippedSilentlyErr)).1 = true ∧
    ((scenarioEngine none none true).shouldRemediate .ActionOptOn
      (some skippedErr)).1 = false :=
  ⟨rfl,
   ((shouldRemediate_decision_table (scenarioEngine none none true) rfl .ActionOptOn
      (some skippedSilentlyErr)).2.2.2.2 (by decide)).2,
   (shouldRemediate_decision_table (scenarioEngine none none true) rfl .ActionOptOn
      (some skippedErr)).2.2.2.1 (by decide) (by decide)⟩

/-- C2, counterexample: an engine without a remediator returns no error for the
setting Unknown. -/
theorem unknown_without_remediator_returns_no_error :
    (scenarioEngine (some violationErr) none false).rrem.isSome = false ∧
    (scenarioEngine (some violationErr) none false).shouldRemediate .ActionOptUnknown
      (some violationErr) = (false, none) :=
  ⟨rfl, rfl⟩

/-- C2, amended: for every engine and every evaluation outcome the setting
Unknown never indicates remediation, and `shouldRemediate` returns the error
"unknown remediation action" exactly when the engine has a remediator; without
a remediator it returns no error. -/
theorem shouldRemediate_unknown {Ent Evid Cli : Type} (r : RuleTypeEngine Ent Evid Cli)
    (evalErr : Option GoError) :
    (r.shouldRemediate .ActionOptUnknown evalErr).1 = false ∧
    (r.shouldRemediate .ActionOptUnknown evalErr).2 =
      (if r.rrem.isSome = true then
        some (.errorString "unknown remediation action, check your policy definition")
      else none) ∧
    ((r.shouldRemediate .ActionOptUnknown evalErr).2 ≠ none ↔ r.rrem.isSome = true) := by
  have h1 := shouldRemediate_fst r .ActionOptUnknown evalErr
  have h2 := shouldRemediate_snd r .ActionOptUnknown evalErr
  refine ⟨?_, ?_, ?_⟩
  · rw [Bool.eq_false_iff]; intro h; simpa using (h1.mp h).2.1
  · simpa using h2
  · rw [h2]; cases r.rrem <;> simp

/-! ## The pipeline -/

/-- C3: when ingestion succeeds `Eval` returns exactly what the evaluator
returned, for every setting, every remediator and every remediation decision. -/
theorem Eval_returns_evaluation_outcome {Ent Evid Cli : Type} (r : RuleTypeEngine Ent Evid Cli)
    (ent : Ent) (pol params : GoMap) (remAction : RemediateActionOpt) (result : Evid)
    (hing : r.rdi.Ingest ent params = .ok result) :
    (r.Eval ent pol params remAction).1 = .returned (r.reval.Eval pol result) :=
  (Eval_of_ingest_ok r ent pol params remAction result hing).1

/-- Witness of C3: a failing remediator and an erroring remediation decision
leave the evaluator's violation as the value returned. -/
theorem Eval_returns_evaluation_outcome_witness :
    (scenarioEngine (some violationErr) (some (.errorString "remediation failed")) true).rdi.Ingest
      "repo" [] = .ok "repo" ∧
    ((scenarioEngine (some violationErr) (some (.errorString "remediation failed")) true).Eval
      "repo" [] [] .ActionOptOn).1 = .returned (some violationErr) ∧
    ((scenarioEngine (some violationErr) (some (.errorString "remediation failed")) true).Eval
      "repo" [] [] .ActionOptUnknown).1 = .returned (some violationErr) :=
  ⟨rfl,
   Eval_returns_evaluation_outcome
     (scenarioEngine (some violationErr) (some (.errorString "remediation failed")) true)
     "repo" [] [] .ActionOptOn "repo" rfl,
   Eval_returns_evaluation_outcome
     (scenarioEngine (some violationErr) (some (.errorString "remediation failed")) true)
     "repo" [] [] .ActionOptUnknown "repo" rfl⟩

/-- C4: when the ingester returns an error, `Eval` returns an error that wraps
it, with the message led by "error ingesting data: ", and calls neither the
evaluator nor the remediator. -/
theorem Eval_ingest_error {Ent Evid Cli : Type} (r : RuleTypeEngine Ent Evid Cli)
    (ent : Ent) (pol params : GoMap) (remAction : RemediateActionOpt) (err : GoError)
    (hing : r.rdi.Ingest ent params = .error err) :
    ∃ e : GoError,
      (r.Eval ent pol params remAction).1 = .returned (some e) ∧
      e.Unwrap = some err ∧
      e.Error = "error ingesting data: " ++ err.Error ∧
      errorsIs (some e) err = true ∧
      evaluateCalls (r.Eval ent pol params remAction).2 = [] ∧
      remediateCalls (r.Eval ent pol params remAction).2 = [] := by
  refine ⟨fmtErrorfW "error ingesting data: " err, ?_⟩
  simp [RuleTypeEngine.Eval, hing, fmtErrorfW, GoError.Unwrap, GoError.Error, errorsIs,
    GoError.Is, GoError.Is_self, evaluateCalls, remediateCalls]

/-- Witness of C4: an ingester failing with "not found". -/
theorem Eval_ingest_error_witness :
    (failingIngestEngine (.errorString "not found")).rdi.Ingest "repo" [] =
      .error (.errorString "not found") ∧
    ∃ e : GoError,
      ((failingIngestEngine (.errorString "not found")).Eval "repo" [] [] .ActionOptOn).1 =
        .returned (some e) ∧
      e.Unwrap = some (.errorString "not found") ∧
      e.Error = "error ingesting data: " ++ (GoError.errorString "not found").Error ∧
      errorsIs (some e) (.errorString "not found") = true ∧
      evaluateCalls
        ((failingIngestEngine (.errorString "not found")).Eval "repo" [] [] .ActionOptOn).2 = [] ∧
      remediateCalls
        ((failingIngestEngine (.errorString "not found")).Eval "repo" [] [] .ActionOptOn).2 = [] :=
  ⟨rfl, Eval_ingest_error (failingIngestEngine (.errorString "not found")) "repo" [] []
    .ActionOptOn (.errorString "not found") rfl⟩

/-- C5: after a successful ingestion `Eval` calls the remediator exactly once,
with the setting, entity and policy it was given, when the engine has a
remediator, the setting is DryRun or On and the outcome is a violation or a
silent skip, and never otherwise; it returns without a nil dereference. -/
theorem Eval_remediator_calls {Ent Evid Cli : Type} (r : RuleTypeEngine Ent Evid Cli)
    (ent : Ent) (pol params : GoMap) (remAction : RemediateActionOpt) (result : Evid)
    (hing : r.rdi.Ingest ent params = .ok result) :
    ((r.rrem.isSome = true ∧
        (remAction = .ActionOptDryRun ∨ remAction = .ActionOptOn) ∧
        (isViolation (r.reval.Eval pol result) ∨ isSkippedSilently (r.reval.Eval pol result))) →
      remediateCalls (r.Eval ent pol params remAction).2 = [(remAction, ent, pol)]) ∧
    (¬ (r.rrem.isSome = true ∧
        (remAction = .ActionOptDryRun ∨ remAction = .ActionOptOn) ∧
        (isViolation (r.reval.Eval pol result) ∨ isSkippedSilently (r.reval.Eval pol result))) →
      remediateCalls (r.Eval ent pol params remAction).2 = []) ∧
    (r.Eval ent pol params remAction).1 = .returned (r.reval.Eval pol result) := by
  obtain ⟨h1, h2⟩ := Eval_of_ingest_ok r ent pol params remAction result hing
  have h3 := shouldRemediate_fst r remAction (r.reval.Eval pol result)
  refine ⟨?_, ?_, h1⟩
  · intro h
    rw [h2, if_pos (h3.mpr h)]
  · intro h
    rw [h2, if_neg (fun hs => h (h3.mp hs))]

/-- Witness of C5, the scenario of the specification: with remediate On a
Skipped outcome is returned without a call of the remediator, a violation calls
it exactly once, and an engine without a remediator never calls it. -/
theorem Eval_remediator_calls_witness :
    (remediateCalls ((scenarioEngine (some skippedErr) none true).Eval
        "repo" [] [] .ActionOptOn).2 = [] ∧
      ((scenarioEngine (some skippedErr) none true).Eval
        "repo" [] [] .ActionOptOn).1 = .returned (some skippedErr)) ∧
    remediateCalls ((scenarioEngine (some violationErr) none true).Eval
        "repo" [] [] .ActionOptOn).2 = [(.ActionOptOn, "repo", [])] ∧
    (remediateCalls ((scenarioEngine (some violationErr) none false).Eval
        "repo" [] [] .ActionOptOn).2 = [] ∧
      ((scenarioEngine (some violationErr) none false).Eval
        "repo" [] [] .ActionOptOn).1 = .returned (some violationErr)) :=
  ⟨⟨(Eval_remediator_calls (scenarioEngine (some skippedErr) none true)
        "repo" [] [] .ActionOptOn "repo" rfl).2.1 (by decide),
     (Eval_remediator_calls (scenarioEngine (some skippedErr) none true)
        "repo" [] [] .ActionOptOn "repo" rfl).2.2⟩,
   (Eval_remediator_calls (scenarioEngine (some violationErr) none true)
        "repo" [] [] .ActionOptOn "repo" rfl).1 (by decide),
   ⟨(Eval_remediator_calls (scenarioEngine (some violationErr) none false)
        "repo" [] [] .ActionOptOn "repo" rfl).2.1 (by decide),
    (Eval_remediator_calls (scenarioEngine (some violationErr) none false)
        "repo" [] [] .ActionOptOn "repo" rfl).2.2⟩⟩

/-! ## Construction -/

theorem componentsBuilt_scenario (rt : RuleType) :
    componentsBuilt scenarioConstructors rt () := by
  refine ⟨?_, ⟨_, rfl⟩, ⟨_, rfl⟩, ?_⟩
  · unfold NewRuleValidator scenarioConstructors
    cases rt.Def.ParamSchema <;> exact ⟨_, rfl⟩
  · intro err h
    simp only [scenarioConstructors, Except.error.injEq] at h
    subst h
    rfl

theorem NewRuleTypeEngine_of_built {Ent Evid Cli : Type} (deps : Constructors Ent Evid Cli)
    (rt : RuleType) (cli : Cli) (hb : componentsBuilt deps rt cli) :
    ∃ rte : RuleTypeEngine Ent Evid Cli,
      rte.Meta = { Name := rt.Name, Provider := rt.Context.Provider,
                   Organization := none, Group := none } ∧
      NewRuleTypeEngine deps rt cli =
        (match rt.Context.Organization, rt.Context.Group with
         | some org, grp =>
           if org != "" then .ok { rte with Meta := { rte.Meta with Organization := some org } }
           else
             match grp with
             | some g =>
               if g != "" then .ok { rte with Meta := { rte.Meta with Group := some g } }
               else .error (.errorString "rule type context must have an organization or group")
             | none =>
               .error (.errorString "rule type context must have an organization or group")
         | none, some g =>
           if g != "" then .ok { rte with Meta := { rte.Meta with Group := some g } }
           else .error (.errorString "rule type context must have an organization or group")
         | none, none =>
           .error (.errorString "rule type context must have an organization or group")) := by
  obtain ⟨⟨rval, h1⟩, ⟨rdi, h2⟩, ⟨reval, h3⟩, h4⟩ := hb
  unfold NewRuleTypeEngine
  simp only [h1, h2, h3]
  cases h5 : deps.NewRuleRemediator rt cli with
  | ok rrem =>
    refine ⟨{ Meta := { Name := rt.Name, Provider := rt.Context.Provider,
                        Organization := none, Group := none },
              rval := rval, rdi := rdi, reval := reval, rrem := some rrem,
              rt := rt, cli := cli }, rfl, ?_⟩
    cases rt.Context.Organization <;> cases rt.Context.Group <;> rfl
  | error err =>
    refine ⟨{ Meta := { Name := rt.Name, Provider := rt.Context.Provider,
                        Organization := none, Group := none },
              rval := rval, rdi := rdi, reval := reval, rrem := none,
              rt := rt, cli := cli }, rfl, ?_⟩
    simp only [h4 err h5, if_true]
    cases rt.Context.Organization <;> cases rt.Context.Group <;> rfl

theorem componentsBuilt_of_ok {Ent Evid Cli : Type} (deps : Constructors Ent Evid Cli)
    (rt : RuleType) (cli : Cli) (eng : RuleTypeEngine Ent Evid Cli)
    (hnew : NewRuleTypeEngine deps rt cli = .ok eng) : componentsBuilt deps rt cli := by
  unfold NewRuleTypeEngine at hnew
  unfold componentsBuilt
  cases h1 : NewRuleValidator deps.NewSchema rt with
  | error e => simp [h1] at hnew
  | ok rval =>
    cases h2 : deps.NewRuleDataIngest rt cli with
    | error e => simp [h1, h2] at hnew
    | ok rdi =>
      cases h3 : deps.NewRuleEvaluator rt cli with
      | error e => simp [h1, h2, h3] at hnew
      | ok reval =>
        refine ⟨⟨_, rfl⟩, ⟨_, rfl⟩, ⟨_, rfl⟩, ?_⟩
        intro err h4
        by_contra hne
        simp [h1, h2, h3, h4, hne] at hnew

theorem NewRuleTypeEngine_ok_meta {Ent Evid Cli : Type} (deps : Constructors Ent Evid Cli)
    (rt : RuleType) (cli : Cli) (eng : RuleTypeEngine Ent Evid Cli)
    (hnew : NewRuleTypeEngine deps rt cli = .ok eng) :
    eng.Meta.Name = rt.Name ∧ eng.Meta.Provider = rt.Context.Provider ∧
    ((scopeIsSet rt.Context.Organization = true ∧
        eng.Meta.Organization = rt.Context.Organization ∧ eng.Meta.Group = none) ∨
     (scopeIsSet rt.Context.Organization = false ∧ scopeIsSet rt.Context.Group = true ∧
        eng.Meta.Organization = none ∧ eng.Meta.Group = rt.Context.Group)) := by
  obtain ⟨rte, hmeta, heq⟩ :=
    NewRuleTypeEngine_of_built deps rt cli (componentsBuilt_of_ok deps rt cli eng hnew)
  rw [heq] at hnew
  cases horg : rt.Context.Organization with
  | some org =>
    by_cases ho : org = ""
    · cases hgrp : rt.Context.Group with
      | some g =>
        by_cases hg : g = ""
        · simp [horg, hgrp, ho, hg] at hnew
        · simp [horg, hgrp, ho, hg] at hnew
          subst hnew
          simp [scopeIsSet, hmeta, ho, hg]
      | none => simp [horg, hgrp, ho] at hnew
    · simp [horg, ho] at hnew
      subst hnew
      simp [scopeIsSet, hmeta, ho]
  | none =>
    cases hgrp : rt.Context.Group with
    | some g =>
      by_cases hg : g = ""
      · simp [horg, hgrp, hg] at hnew
      · simp [horg, hgrp, hg] at hnew
        subst hnew
        simp [scopeIsSet, hmeta, hg]
    | none => simp [horg, hgrp] at hnew

/-- C6, counterexample: a rule type with both an organization and a group set
to non-empty values yields an engine, scoped to the organization. -/
theorem both_scopes_construction_succeeds :
    ∃ eng : RuleTypeEngine String String Unit,
      NewRuleTypeEngine scenarioConstructors
        (ruleTypeOf "no-secrets" (some "acme-org") (some "acme")) () = .ok eng ∧
      eng.GetID = .returned "provider1/org/acme-org/no-secrets" :=
  ⟨_, rfl, rfl⟩

/-- C6, amended: for a rule type with both an organization and a group set to
non-empty values, whenever the components of the engine are built the
construction returns an engine whose organization is the one of the rule type
and whose group is nil, and it does not return the error "rule type context
must have an organization or group". -/
theorem NewRuleTypeEngine_both_scopes {Ent Evid Cli : Type} (deps : Constructors Ent Evid Cli)
    (rt : RuleType) (cli : Cli) (org grp : String)
    (horg : rt.Context.Organization = some org) (ho : org ≠ "")
    (hgrp : rt.Context.Group = some grp) (_hg : grp ≠ "")
    (hb : componentsBuilt deps rt cli) :
    (∃ eng, NewRuleTypeEngine deps rt cli = .ok eng ∧
      eng.Meta.Organization = some org ∧ eng.Meta.Group = none) ∧
    NewRuleTypeEngine deps rt cli ≠
      .error (.errorString "rule type context must have an organization or group") := by
  obtain ⟨rte, hmeta, heq⟩ := NewRuleTypeEngine_of_built deps rt cli hb
  rw [heq]
  simp [horg, hgrp, ho, hmeta]

/-- Witness of C6 amended: organization `acme-org` and group `acme` both set. -/
theorem NewRuleTypeEngine_both_scopes_witness :
    (ruleTypeOf "no-secrets" (some "acme-org") (some "acme")).Context.Organization =
      some "acme-org" ∧
    (ruleTypeOf "no-secrets" (some "acme-org") (some "acme")).Context.Group = some "acme" ∧
    ((∃ eng, NewRuleTypeEngine scenarioConstructors
          (ruleTypeOf "no-secrets" (some "acme-org") (some "acme")) () = .ok eng ∧
        eng.Meta.Organization = some "acme-org" ∧ eng.Meta.Group = none) ∧
      NewRuleTypeEngine scenarioConstructors
          (ruleTypeOf "no-secrets" (some "acme-org") (some "acme")) () ≠
        .error (.errorString "rule type context must have an organization or group")) :=
  ⟨rfl, rfl,
   NewRuleTypeEngine_both_scopes scenarioConstructors
     (ruleTypeOf "no-secrets" (some "acme-org") (some "acme")) () "acme-org" "acme"
     rfl (by decide) rfl (by decide) (componentsBuilt_scenario _)⟩

/-- C7: for a rule type whose context has neither an organization nor a group,
a nil pointer or an empty string counting as not set, `NewRuleTypeEngine`
returns an error and no engine. -/
theorem NewRuleTypeEngine_no_scope_fails {Ent Evid Cli : Type}
    (deps : Constructors Ent Evid Cli) (rt : RuleType) (cli : Cli)
    (horg : scopeIsSet rt.Context.Organization = false)
    (hgrp : scopeIsSet rt.Context.Group = false) :
    ∃ err, NewRuleTypeEngine deps rt cli = .error err := by
  cases hnew : NewRuleTypeEngine deps rt cli with
  | error err => exact ⟨err, rfl⟩
  | ok eng =>
    have h := (NewRuleTypeEngine_ok_meta deps rt cli eng hnew).2.2
    rw [horg, hgrp] at h
    simp at h

/-- Witness of C7: an empty organization and a nil group. -/
theorem NewRuleTypeEngine_no_scope_fails_witness :
    scopeIsSet (ruleTypeOf "no-secrets" (some "") none).Context.Organization = false ∧
    scopeIsSet (ruleTypeOf "no-secrets" (some "") none).Context.Group = false ∧
    ∃ err, NewRuleTypeEngine scenarioConstructors
      (ruleTypeOf "no-secrets" (some "") none) () = .error err :=
  ⟨rfl, rfl,
   NewRuleTypeEngine_no_scope_fails scenarioConstructors
     (ruleTypeOf "no-secrets" (some "") none) () rfl rfl⟩

/-- C8: an engine built by `NewRuleTypeEngine` from a rule type with provider
`p`, name `n` and only an organization `o` set has the identifier
`p/org/o/n`; with only a group `g` set it has the identifier `p/group/g/n`. -/
theorem GetID_of_NewRuleTypeEngine {Ent Evid Cli : Type} (deps : Constructors Ent Evid Cli)
    (rt : RuleType) (cli : Cli) (eng : RuleTypeEngine Ent Evid Cli)
    (hnew : NewRuleTypeEngine deps rt cli = .ok eng) :
    (∀ o, rt.Context.Organization = some o → o ≠ "" → scopeIsSet rt.Context.Group = false →
      eng.GetID = .returned (rt.Context.Provider ++ "/org/" ++ o ++ "/" ++ rt.Name)) ∧
    (∀ g, scopeIsSet rt.Context.Organization = false → rt.Context.Group = some g → g ≠ "" →
      eng.GetID = .returned (rt.Context.Provider ++ "/group/" ++ g ++ "/" ++ rt.Name)) := by
  obtain ⟨hn, hp, hscope⟩ := NewRuleTypeEngine_ok_meta deps rt cli eng hnew
  constructor
  · intro o horg ho _
    rcases hscope with ⟨_, h2, h3⟩ | ⟨h1, _⟩
    · simp [RuleTypeEngine.GetID, RuleMeta.String, h2, h3, horg, hn, hp]
    · simp [horg, scopeIsSet, ho] at h1
  · intro g horg hgrp _
    rcases hscope with ⟨h1, _⟩ | ⟨_, _, _, h4⟩
    · rw [horg] at h1; simp at h1
    · simp [RuleTypeEngine.GetID, RuleMeta.String, h4, hgrp, hn, hp]

/-- Witness of C8: the rule type `provider1/group/acme/no-secrets` of the
specification, and the same rule scoped to the organization `acme-org`. -/
theorem GetID_of_NewRuleTypeEngine_witness :
    (∃ eng, NewRuleTypeEngine scenarioConstructors
        (ruleTypeOf "no-secrets" none (some "acme")) () = .ok eng ∧
      eng.GetID = .returned ("provider1" ++ "/group/" ++ "acme" ++ "/" ++ "no-secrets")) ∧
    (∃ eng, NewRuleTypeEngine scenarioConstructors
        (ruleTypeOf "no-secrets" (some "acme-org") none) () = .ok eng ∧
      eng.GetID = .returned ("provider1" ++ "/org/" ++ "acme-org" ++ "/" ++ "no-secrets")) :=
  ⟨⟨_, rfl, (GetID_of_NewRuleTypeEngine scenarioConstructors
        (ruleTypeOf "no-secrets" none (some "acme")) () _ rfl).2 "acme" rfl rfl (by decide)⟩,
   ⟨_, rfl, (GetID_of_NewRuleTypeEngine scenarioConstructors
        (ruleTypeOf "no-secrets" (some "acme-org") none) () _ rfl).1 "acme-org" rfl
        (by decide) rfl⟩⟩

/-- C9, the code at the failing input: two rule types of the same provider, one
with group `acme/dev` and name `no-secrets`, the other with group `acme` and
name `dev/no-secrets`, yield engines with different identities and the same
identifier. -/
theorem GetID_collision :
    ∃ e1 e2 : RuleTypeEngine String String Unit,
      NewRuleTypeEngine scenarioConstructors
        (ruleTypeOf "no-secrets" none (some "acme/dev")) () = .ok e1 ∧
      NewRuleTypeEngine scenarioConstructors
        (ruleTypeOf "dev/no-secrets" none (some "acme")) () = .ok e2 ∧
      e1.Meta.Group ≠ e2.Meta.Group ∧ e1.Meta.Name ≠ e2.Meta.Name ∧
      e1.GetID = .returned "provider1/group/acme/dev/no-secrets" ∧
      e2.GetID = .returned "provider1/group/acme/dev/no-secrets" :=
  ⟨_, _, rfl, rfl, by decide, by decide, rfl, rfl⟩

/-! ## Schema validation -/

theorem trimSpaceChars_eq (cs : List Char) :
    trimSpaceChars cs = (cs.dropWhile unicodeIsSpace).rdropWhile unicodeIsSpace := rfl

theorem dropWhile_keeps_infix (p : Char → Bool) (a t b : List Char) (x : Char)
    (hx : p x = false) :
    ∃ a', (a ++ (x :: t) ++ b).dropWhile p = a' ++ (x :: t) ++ b := by
  induction a with
  | nil => exact ⟨[], by simp [List.dropWhile, hx]⟩
  | cons c a ih =>
    by_cases hc : p c = true
    · obtain ⟨a', h⟩ := ih
      exact ⟨a', by simpa [List.dropWhile, hc] using h⟩
    · exact ⟨c :: a, by simp [List.dropWhile, hc]⟩

theorem rdropWhile_keeps_infix (p : Char → Bool) (a t b : List Char) (y : Char)
    (hy : p y = false) :
    ∃ b', (a ++ (t ++ [y]) ++ b).rdropWhile p = a ++ (t ++ [y]) ++ b' := by
  induction b using List.reverseRecOn with
  | nil =>
    refine ⟨[], ?_⟩
    rw [List.append_nil, ← List.append_assoc,
      List.rdropWhile_concat_neg _ _ _ (by simp [hy])]
  | append_singleton b c ih =>
    by_cases hc : p c = true
    · obtain ⟨b', h⟩ := ih
      refine ⟨b', ?_⟩
      rw [← List.append_assoc, List.rdropWhile_concat_pos _ _ _ hc, h]
    · refine ⟨b ++ [c], ?_⟩
      rw [← List.append_assoc, List.rdropWhile_concat_neg _ _ _ hc]

theorem trimSpaceChars_infix_self (cs : List Char) : trimSpaceChars cs <:+: cs := by
  rw [trimSpaceChars_eq]
  exact (List.rdropWhile_prefix _ _).isInfix.trans (List.dropWhile_suffix _).isInfix

theorem trimSpaceChars_keeps_infix (t cs : List Char) (hne : t ≠ [])
    (hhead : unicodeIsSpace (t.head hne) = false)
    (hlast : unicodeIsSpace (t.getLast hne) = false) (h : t <:+: cs) :
    t <:+: trimSpaceChars cs := by
  obtain ⟨a, b, hab⟩ := h
  subst hab
  rw [trimSpaceChars_eq]
  obtain ⟨a', h1⟩ : ∃ a', (a ++ t ++ b).dropWhile unicodeIsSpace = a' ++ t ++ b := by
    cases t with
    | nil => exact absurd rfl hne
    | cons x t' => exact dropWhile_keeps_infix _ a t' b x hhead
  rw [h1]
  obtain ⟨b', h2⟩ : ∃ b', (a' ++ t ++ b).rdropWhile unicodeIsSpace = a' ++ t ++ b' := by
    have ht := List.dropLast_append_getLast hne
    rw [← ht]
    exact rdropWhile_keeps_infix _ a' t.dropLast b (t.getLast hne) hlast
  rw [h2]
  exact ⟨a', b', rfl⟩

theorem trimSpaceChars_ends (cs : List Char) (hne : trimSpaceChars cs ≠ []) :
    unicodeIsSpace ((trimSpaceChars cs).head hne) = false ∧
    unicodeIsSpace ((trimSpaceChars cs).getLast hne) = false := by
  constructor
  · obtain ⟨s, hs⟩ : trimSpaceChars cs <+: cs.dropWhile unicodeIsSpace :=
      List.rdropWhile_prefix _ _
    have hX : cs.dropWhile unicodeIsSpace ≠ [] := by
      intro h0
      rw [h0] at hs
      exact hne (List.append_eq_nil.mp hs).1
    have hh := List.head_dropWhile_not unicodeIsSpace cs hX
    have heq : (trimSpaceChars cs).head hne = (cs.dropWhile unicodeIsSpace).head hX := by
      have : (trimSpaceChars cs ++ s).head (by simp [hne]) =
          (cs.dropWhile unicodeIsSpace).head hX := by
        congr 1
      rw [← this, List.head_append_of_ne_nil hne]
    rw [heq]
    exact hh
  · have h := List.rdropWhile_last_not (p := unicodeIsSpace)
      (l := cs.dropWhile unicodeIsSpace) hne
    simpa using h

theorem trimSpaceChars_infix_of_infix (d cs : List Char) (h : d <:+: cs) :
    trimSpaceChars d <:+: trimSpaceChars cs := by
  by_cases hne : trimSpaceChars d = []
  · rw [hne]; exact List.nil_infix
  · obtain ⟨h1, h2⟩ := trimSpaceChars_ends d hne
    exact trimSpaceChars_keeps_infix _ cs hne h1 h2 ((trimSpaceChars_infix_self d).trans h)

theorem stringsJoin_contains (sep : String) (l : List String) :
    ∀ d ∈ l, d.data <:+: (stringsJoin l sep).data := by
  induction l with
  | nil => intro d hd; cases hd
  | cons a rest ih =>
    intro d hd
    cases rest with
    | nil =>
      simp only [List.mem_singleton] at hd
      subst hd
      exact List.infix_refl _
    | cons b rest2 =>
      simp only [stringsJoin, String.data_append]
      rcases List.mem_cons.mp hd with h | h
      · subst h
        exact ⟨[], sep.data ++ (stringsJoin (b :: rest2) sep).data, by simp⟩
      · exact (ih d h).trans (List.suffix_append _ _).isInfix

/-- C10, counterexample: for a document whose key `"\tname"` violates the
schema, the message of the error neither contains the description of that
violation nor is the lead followed by the joined descriptions: the white space
that begins the description is cut. -/
theorem validateAgainstSchema_cuts_description :
    validateAgainstSchema (reportingSchema [tabKeyTypeError]) [("\tname", .number 1)] =
      some (.errorString
        "invalid json schema: name: Invalid type. Expected: string, given: integer") ∧
    ¬ containsText "invalid json schema: name: Invalid type. Expected: string, given: integer"
      tabKeyTypeError.String ∧
    "invalid json schema: name: Invalid type. Expected: string, given: integer" ≠
      "invalid json schema: " ++ stringsJoin [tabKeyTypeError.String] "\n" := by
  refine ⟨rfl, ?_, by decide⟩
  intro h
  have hmem : Char.ofNat 9 ∈
      "invalid json schema: name: Invalid type. Expected: string, given: integer".data :=
    List.IsInfix.subset h (by decide)
  revert hmem
  decide

/-- C10, amended: when the schema library reports violations for a document,
`validateAgainstSchema` returns the single error built by `buildValidationError`,
whose message is "invalid json schema: " followed by the descriptions of all the
violations, in order, joined by newlines, with the white space that begins and
ends the joined text cut; the message contains every description, up to the
white space that begins and ends it; and when the library reports no violation
`validateAgainstSchema` returns nil. -/
theorem validateAgainstSchema_reports_all (schema : Schema) (obj : GoMap)
    (result : ValidationResult) (hv : schema.Validate obj = .ok result) :
    (result.Errors ≠ [] →
      validateAgainstSchema schema obj = some (buildValidationError result.Errors)) ∧
    (buildValidationError result.Errors).Error =
      "invalid json schema: " ++
        stringsTrimSpace (stringsJoin (result.Errors.map ResultError.String) "\n") ∧
    (∀ e ∈ result.Errors,
      containsText (buildValidationError result.Errors).Error (stringsTrimSpace e.String)) ∧
    (result.Errors = [] → validateAgainstSchema schema obj = none) := by
  refine ⟨?_, rfl, ?_, ?_⟩
  · intro hne
    cases hE : result.Errors with
    | nil => exact absurd hE hne
    | cons e es => simp [validateAgainstSchema, hv, ValidationResult.Valid, hE]
  · intro e he
    have h1 := stringsJoin_contains "\n" (result.Errors.map ResultError.String) e.String
      (List.mem_map_of_mem _ he)
    have h2 := trimSpaceChars_infix_of_infix _ _ h1
    simp only [containsText, buildValidationError, GoError.Error, String.data_append,
      stringsTrimSpace]
    exact h2.trans (List.suffix_append _ _).isInfix
  · intro hE
    simp [validateAgainstSchema, hv, ValidationResult.Valid, hE]

/-- Witness of C10 amended: a document with two violations, the first on the
key `"\tname"`. -/
theorem validateAgainstSchema_reports_all_witness :
    (reportingSchema [tabKeyTypeError, ownerRequiredError]).Validate [("\tname", .number 1)] =
      .ok { Errors := [tabKeyTypeError, ownerRequiredError] } ∧
    validateAgainstSchema (reportingSchema [tabKeyTypeError, ownerRequiredError])
        [("\tname", .number 1)] =
      some (.errorString ("invalid json schema: " ++
        "name: Invalid type. Expected: string, given: integer\n(root): owner is required")) ∧
    containsText (buildValidationError [tabKeyTypeError, ownerRequiredError]).Error
      (stringsTrimSpace ownerRequiredError.String) :=
  ⟨rfl,
   ((validateAgainstSchema_reports_all
      (reportingSchema [tabKeyTypeError, ownerRequiredError]) [("\tname", .number 1)]
      { Errors := [tabKeyTypeError, ownerRequiredError] } rfl).1 (by simp)).trans (by rfl),
   (validateAgainstSchema_reports_all
      (reportingSchema [tabKeyTypeError, ownerRequiredError]) [("\tname", .number 1)]
      { Errors := [tabKeyTypeError, ownerRequiredError] } rfl).2.2.1 ownerRequiredError
      (by simp)⟩

/-! ## REST data source handler -/

/-- C11: a validator built from a rule type without a parameter schema accepts
every params value, nil included; one built from a rule type with a parameter
schema rejects nil params with an error and validates non-nil params against
the compiled parameter schema. -/
theorem ValidateParamsAgainstSchema_cases (newSchema : Option GoMap → Except GoError Schema)
    (rt : RuleType) (r : RuleValidator) (hnew : NewRuleValidator newSchema rt = .ok r) :
    (rt.Def.ParamSchema = none → ∀ params, r.ValidateParamsAgainstSchema params = none) ∧
    (∀ ps, rt.Def.ParamSchema = some ps →
      ∃ paramSchema, newSchema (some ps) = .ok paramSchema ∧
        r.paramSchema = some paramSchema ∧
        r.ValidateParamsAgainstSchema none = some (.errorString "params cannot be nil") ∧
        ∀ obj, r.ValidateParamsAgainstSchema (some obj) =
          validateAgainstSchema paramSchema obj) := by
  unfold NewRuleValidator at hnew
  cases h1 : newSchema rt.Def.RuleSchema with
  | error err => simp [h1] at hnew
  | ok schema =>
    constructor
    · intro hps params
      simp only [h1, hps, Except.ok.injEq] at hnew
      subst hnew
      rfl
    · intro ps hps
      cases h2 : newSchema (some ps) with
      | error err => simp [h1, hps, h2] at hnew
      | ok paramSchema =>
        simp only [h1, hps, h2, Except.ok.injEq] at hnew
        subst hnew
        exact ⟨paramSchema, rfl, rfl, rfl, fun _ => rfl⟩

/-- Witness of C11: the scenario rule type, without a parameter schema, and the
same rule type with the parameter schema `{}`. -/
theorem ValidateParamsAgainstSchema_cases_witness :
    NewRuleValidator (fun _ => .ok acceptAll) scenarioRuleType =
      .ok { schema := acceptAll, paramSchema := none } ∧
    (∀ params, RuleValidator.ValidateParamsAgainstSchema
      { schema := acceptAll, paramSchema := none } params = none) ∧
    RuleValidator.ValidateParamsAgainstSchema
      { schema := acceptAll, paramSchema := some acceptAll } none =
        some (.errorString "params cannot be nil") :=
  ⟨rfl,
   (ValidateParamsAgainstSchema_cases (fun _ => .ok acceptAll) scenarioRuleType
      { schema := acceptAll, paramSchema := none } rfl).1 rfl,
   by
    obtain ⟨_, _, _, h, _⟩ := (ValidateParamsAgainstSchema_cases (fun _ => .ok acceptAll)
      { scenarioRuleType with
        Def := { InEntity := "repository", RuleSchema := none, ParamSchema := some [] } }
      { schema := acceptAll, paramSchema := some acceptAll } rfl).2 [] rfl
    exact h⟩

/-- C12: `ValidateArgs` returns an error for every args value when the handler
has no compiled input schema, and for every args value that is not a
string-keyed map; for a string-keyed map and a compiled input schema its result
is the result of `schemavalidate.ValidateAgainstSchema` for them. -/
theorem ValidateArgs_cases {Sch : Type} (env : RestEnv Sch) (h : restHandler Sch) :
    (h.inputSchema = none →
      ∀ args, h.ValidateArgs env args = some (.errorString "input schema cannot be nil")) ∧
    (∀ args, (∀ m, args ≠ .object m) → ∃ err, h.ValidateArgs env args = some err) ∧
    (∀ inputSchema, h.inputSchema = some inputSchema →
      (∀ args, (∀ m, args ≠ .object m) →
        h.ValidateArgs env args = some (.errorString "args is not a map")) ∧
      (∀ m, h.ValidateArgs env (.object m) = env.ValidateAgainstSchema inputSchema m)) := by
  have hnot : ∀ (inputSchema : Sch) (args : GoAny), h.inputSchema = some inputSchema →
      (∀ m, args ≠ .object m) →
      h.ValidateArgs env args = some (.errorString "args is not a map") := by
    intro inputSchema args hs hm
    unfold restHandler.ValidateArgs
    rw [hs]
    cases args <;> first | rfl | exact absurd rfl (hm _)
  refine ⟨?_, ?_, ?_⟩
  · intro hs args
    simp [restHandler.ValidateArgs, hs]
  · intro args hm
    cases hs : h.inputSchema with
    | none => exact ⟨.errorString "input schema cannot be nil",
        by simp [restHandler.ValidateArgs, hs]⟩
    | some inputSchema => exact ⟨_, hnot inputSchema args hs hm⟩
  · intro inputSchema hs
    exact ⟨fun args hm => hnot inputSchema args hs hm,
      fun m => by simp [restHandler.ValidateArgs, hs]⟩

/-- C13: `ValidateUpdate` returns an error for a nil candidate and for a
candidate that is neither a struct nor a map; for a struct or a map that does
not compile it returns an error that wraps the compilation error and runs no
compatibility check; for one that compiles it runs the compatibility check of
the candidate against the raw input schema of the handler, once, and returns
its result. -/
theorem ValidateUpdate_cases {Sch : Type} (env : RestEnv Sch) (h : restHandler Sch) :
    h.ValidateUpdate env .null = (some (.errorString "update schema cannot be nil"), []) ∧
    (∀ obj, obj ≠ .null → (∀ s, obj ≠ .structpb s) → (∀ m, obj ≠ .object m) →
      h.ValidateUpdate env obj = (some (.errorString "invalid type"), [])) ∧
    (∀ s err, env.CompileSchemaFromPB s = .error err →
      h.ValidateUpdate env (.structpb s) =
        (some (.wrapError ("update validation failed due to invalid schema: " ++ err.Error) err),
          [])) ∧
    (∀ m err, env.CompileSchemaFromMap m = .error err →
      h.ValidateUpdate env (.object m) =
        (some (.wrapError ("update validation failed due to invalid schema: " ++ err.Error) err),
          [])) ∧
    (∀ s compiled, env.CompileSchemaFromPB s = .ok compiled →
      h.ValidateUpdate env (.structpb s) =
        (env.ValidateSchemaUpdate h.rawInputSchema s,
          [.ValidateSchemaUpdate h.rawInputSchema s])) ∧
    (∀ m compiled, env.CompileSchemaFromMap m = .ok compiled →
      h.ValidateUpdate env (.object m) =
        (env.ValidateSchemaUpdateMap (structAsMap h.rawInputSchema) m,
          [.ValidateSchemaUpdateMap (structAsMap h.rawInputSchema) m])) := by
  refine ⟨rfl, ?_, ?_, ?_, ?_, ?_⟩
  · intro obj h1 h2 h3
    cases obj <;> first | rfl | exact absurd rfl h1 | exact absurd rfl (h2 _) |
      exact absurd rfl (h3 _)
  · intro s err hc
    simp [restHandler.ValidateUpdate, hc, fmtErrorfW]
  · intro m err hc
    simp [restHandler.ValidateUpdate, hc, fmtErrorfW]
  · intro s compiled hc
    simp [restHandler.ValidateUpdate, hc]
  · intro m compiled hc
    simp [restHandler.ValidateUpdate, hc]

/-- Witness of C12 on the handler of `ownerSourceDef`: a string is rejected as
not a map, and a map is checked against the input schema. -/
theorem ValidateArgs_cases_witness :
    ownerHandler.ValidateArgs exampleRestEnv (.string "owner") =
      some (.errorString "args is not a map") ∧
    ownerHandler.ValidateArgs exampleRestEnv (.object []) = checkRequired ["owner"] [] :=
  ⟨((ValidateArgs_cases exampleRestEnv ownerHandler).2.2 ["owner"] rfl).1 (.string "owner")
      (fun _ hm => GoAny.noConfusion hm),
   ((ValidateArgs_cases exampleRestEnv ownerHandler).2.2 ["owner"] rfl).2 []⟩

/-- Witness of C13 on the handler of `ownerSourceDef`: a map candidate that
compiles is checked once against the raw input schema. -/
theorem ValidateUpdate_cases_witness :
    exampleRestEnv.CompileSchemaFromMap [] = .ok (some []) ∧
    ownerHandler.ValidateUpdate exampleRestEnv (.object []) =
      (none, [.ValidateSchemaUpdateMap [("required", .slice [.string "owner"])] []]) :=
  ⟨rfl, (ValidateUpdate_cases exampleRestEnv ownerHandler).2.2.2.2.2 [] (some []) rfl⟩

/-- C14, counterexample: the handler of `ownerSourceDef`, whose template and
input schema both name `owner`, called with an argument map without `owner`,
hands a request for the partly expanded endpoint to the HTTP client and
returns the answer without an error. -/
theorem Call_without_required_variable :
    ([] : GoMap).lookup "owner" = none ∧
    ownerHandler.ValidateArgs exampleRestEnv (.object []) =
      some (.errorString "missing property owner") ∧
    ownerHandler.Call exampleRestEnv (.object []) =
      (.ok (.object [("status_code", .number 404),
                     ("body", .rawString [110, 111, 116, 32, 102, 111, 117, 110, 100])]),
       [{ Method := "GET", URL := "https://api.example.com/repos/", Body := none,
          Header := [] }]) :=
  ⟨rfl, rfl, rfl⟩

/-- C14, amended: `Call` returns an error and issues no HTTP request when the
arguments are not a string-keyed map, when the expansion of the endpoint
template with the argument map fails, and when the request cannot be built;
whenever the expansion and the construction of the request succeed it issues
that one request, whatever the input schema of the handler requires. -/
theorem Call_requests {Sch : Type} (env : RestEnv Sch) (h : restHandler Sch) :
    (∀ args, (∀ m, args ≠ .object m) →
      h.Call env args = (.error (.errorString "args is not a map"), [])) ∧
    (∀ m err, env.Expand h.endpointTmpl m = .error err →
      h.Call env (.object m) = (.error err, [])) ∧
    (∀ m url err, env.Expand h.endpointTmpl m = .ok url →
      env.NewRequest h.method url (if h.body ≠ "" then some h.body else none) = .error err →
      h.Call env (.object m) = (.error err, [])) ∧
    (∀ m url req, env.Expand h.endpointTmpl m = .ok url →
      env.NewRequest h.method url (if h.body ≠ "" then some h.body else none) = .ok req →
      (h.Call env (.object m)).2 = [{ req with Header := req.Header ++ h.headers }]) := by
  refine ⟨?_, ?_, ?_, ?_⟩
  · intro args hm
    cases args <;> first | rfl | exact absurd rfl (hm _)
  · intro m err he
    simp [restHandler.Call, he]
  · intro m url err he hr
    simp only [restHandler.Call, he, hr]
  · intro m url req he hr
    simp only [restHandler.Call, he, hr]
    cases hd : env.Do { req with Header := req.Header ++ h.headers } with
    | error err => rfl
    | ok resp =>
      simp only []
      cases h.parseResponseBody env (some resp.Body) <;> rfl

/-- C17: after a completed HTTP exchange, with whatever status code, `Call`
returns without error the record with the two keys `status_code` and `body`,
holding the status code of the response and the parsed body. -/
theorem Call_output {Sch : Type} (env : RestEnv Sch) (h : restHandler Sch) (m : GoMap)
    (url : String) (req : Request) (resp : Response) (bout : GoAny)
    (hexp : env.Expand h.endpointTmpl m = .ok url)
    (hreq : env.NewRequest h.method url (if h.body ≠ "" then some h.body else none) = .ok req)
    (hdo : env.Do { req with Header := req.Header ++ h.headers } = .ok resp)
    (hparse : h.parseResponseBody env (some resp.Body) = .ok bout) :
    h.Call env (.object m) =
      (.ok (.object [("status_code", .number resp.StatusCode), ("body", bout)]),
       [{ req with Header := req.Header ++ h.headers }]) := by
  simp only [restHandler.Call, hexp, hreq, hdo, hparse, buildRestOutput]

/-- Witness of C17: the answer 404 of the example server is returned as a
record, not as an error. -/
theorem Call_output_witness :
    ownerHandler.Call exampleRestEnv (.object [("owner", .string "stacklok")]) =
      (.ok (.object [("status_code", .number 404),
                     ("body", .rawString [110, 111, 116, 32, 102, 111, 117, 110, 100])]),
       [{ Method := "GET", URL := "https://api.example.com/repos/stacklok", Body := none,
          Header := [] }]) :=
  Call_output exampleRestEnv ownerHandler [("owner", .string "stacklok")]
    "https://api.example.com/repos/stacklok"
    { Method := "GET", URL := "https://api.example.com/repos/stacklok", Body := none,
      Header := [] }
    { StatusCode := 404,
      Body := { data := [34, 110, 111, 116, 32, 102, 111, 117, 110, 100, 34], err := none } }
    (.rawString [110, 111, 116, 32, 102, 111, 117, 110, 100]) rfl rfl rfl rfl

/-- C18: `parseRequestBodyConfig` returns the empty string for a definition
without a body, the string for a body given as a string, the JSON text of the
struct for a body given as a struct, and the empty string when the
serialisation of the struct fails; the construction of the handler does not
depend on it: it succeeds whenever the input schema compiles, with that body. -/
theorem parseRequestBodyConfig_cases {Sch : Type} (env : RestEnv Sch) (d : RestDataSourceDef) :
    (d.Body = none → parseRequestBodyConfig env d = "") ∧
    (∀ s, d.Body = some (.Bodystr s) → parseRequestBodyConfig env d = s) ∧
    (∀ obj text, d.Body = some (.Bodyobj (some obj)) → env.jsonMarshal obj = .ok text →
      parseRequestBodyConfig env d = text) ∧
    (∀ obj err, d.Body = some (.Bodyobj (some obj)) → env.jsonMarshal obj = .error err →
      parseRequestBodyConfig env d = "") ∧
    (∀ schema, env.CompileSchemaFromPB d.InputSchema = .ok schema →
      ∃ h, newHandlerFromDef env (some d) = .ok h ∧
        h.body = parseRequestBodyConfig env d) := by
  refine ⟨?_, ?_, ?_, ?_, ?_⟩
  · intro hb
    simp [parseRequestBodyConfig, hb]
  · intro s hb
    simp [parseRequestBodyConfig, hb, RestDataSourceDef.GetBodyobj,
      RestDataSourceDef.GetBodystr]
  · intro obj text hb hm
    simp [parseRequestBodyConfig, hb, RestDataSourceDef.GetBodyobj, hm]
  · intro obj err hb hm
    simp [parseRequestBodyConfig, hb, RestDataSourceDef.GetBodyobj, hm]
  · intro schema hc
    refine ⟨{ rawInputSchema := d.InputSchema, inputSchema := schema,
              endpointTmpl := d.Endpoint, method := env.HttpMethodFromString d.Method "GET",
              body := parseRequestBodyConfig env d, headers := d.Headers,
              parse := d.Parse }, ?_, rfl⟩
    simp only [newHandlerFromDef, hc]

/-- Witness of C18: a struct body that the example serialiser rejects gives
the empty body, and the handler is built all the same. -/
theorem parseRequestBodyConfig_cases_witness :
    parseRequestBodyConfig exampleRestEnv
      { ownerSourceDef with Body := some (.Bodyobj (some [("state", .string "closed")])) } = "" ∧
    parseRequestBodyConfig exampleRestEnv
      { ownerSourceDef with Body := some (.Bodyobj (some [])) } = "\x7b\x7d" ∧
    ∃ h, newHandlerFromDef exampleRestEnv (some
        { ownerSourceDef with Body := some (.Bodyobj (some [("state", .string "closed")])) }) =
          .ok h ∧
      h.body = "" :=
  ⟨(parseRequestBodyConfig_cases exampleRestEnv
      { ownerSourceDef with Body := some (.Bodyobj (some [("state", .string "closed")])) }).2.2.2.1
      [("state", .string "closed")] (.errorString "value outside the example") rfl rfl,
   (parseRequestBodyConfig_cases exampleRestEnv
      { ownerSourceDef with Body := some (.Bodyobj (some [])) }).2.2.1 [] "\x7b\x7d" rfl rfl,
   (parseRequestBodyConfig_cases exampleRestEnv
      { ownerSourceDef with Body := some (.Bodyobj (some [("state", .string "closed")])) }).2.2.2.2
      (some ["owner"]) rfl⟩

/-! ## The cap on the response body -/

theorem MaxBytesLimit_eq : MaxBytesLimit = 1048576 := by decide

theorem scanToQuote_closed (k : Nat) :
    scanToQuote (List.replicate k 97 ++ [34]) = some (List.replicate k 97) := by
  induction k with
  | zero => rfl
  | succ k ih =>
    have h1 : ¬ ((97 : Byte) = 34) := by decide
    have h2 : ¬ ((97 : Byte) = 92 ∨ (97 : Byte).val < 32) := by decide
    rw [List.replicate_succ, List.cons_append, scanToQuote, ih, if_neg h1, if_neg h2]

theorem scanToQuote_open (k : Nat) : scanToQuote (List.replicate k 97) = none := by
  induction k with
  | zero => rfl
  | succ k ih =>
    have h1 : ¬ ((97 : Byte) = 34) := by decide
    have h2 : ¬ ((97 : Byte) = 92 ∨ (97 : Byte).val < 32) := by decide
    rw [List.replicate_succ, scanToQuote, ih, if_neg h1, if_neg h2]

theorem stringLiteral_length (n : Nat) : (stringLiteral n).length = n + 2 := by
  simp only [stringLiteral, List.length_cons, List.length_append, List.length_replicate,
    List.length_nil]

theorem stringLiteral_take (k : Nat) :
    (stringLiteral (k + 1)).take (k + 1) = 34 :: List.replicate k 97 := by
  rw [stringLiteral, List.take_succ_cons,
    List.take_append_of_le_length (by rw [List.length_replicate]; exact Nat.le_succ k),
    List.take_replicate, Nat.min_eq_left (Nat.le_succ k)]

theorem decodeStringLiteral_whole (n : Nat) :
    decodeStringLiteral { data := stringLiteral n, err := none } =
      .ok (.rawString (List.replicate n 97)) := by
  simp only [decodeStringLiteral, stringLiteral, scanToQuote_closed]
  rfl

theorem decodeStringLiteral_cut (k : Nat) :
    decodeStringLiteral (ioLimitReader { data := stringLiteral (k + 1), err := none } (k + 1)) =
      .error ErrUnexpectedEOF := by
  simp only [decodeStringLiteral, ioLimitReader, stringLiteral_take, scanToQuote_open]
  simp

/-- C15: in a parse mode other than json, for a body that is read to its end
(or whose reader fails only beyond the cap) `parseResponseBody` returns without
error the string of the first `min n 1048576` bytes of the `n` bytes of the
body. -/
theorem parseResponseBody_raw {Sch : Type} (env : RestEnv Sch) (h : restHandler Sch)
    (body : Reader) (hp : h.parse ≠ "json")
    (hb : body.err = none ∨ MaxBytesLimit ≤ body.data.length) :
    MaxBytesLimit = 1048576 ∧
    h.parseResponseBody env (some body) = .ok (.rawString (body.data.take 1048576)) ∧
    (body.data.take 1048576).length = min body.data.length 1048576 := by
  refine ⟨MaxBytesLimit_eq, ?_, ?_⟩
  · have herr : (ioLimitReader body MaxBytesLimit).err = none := by
      rcases hb with hb | hb
      · simp [ioLimitReader, hb]
      · simp [ioLimitReader, Nat.not_lt.mpr hb]
    rw [← MaxBytesLimit_eq]
    simp only [restHandler.parseResponseBody, if_neg hp, ioReadAll, herr]
    rfl
  · rw [List.length_take, Nat.min_comm]

/-- Witness of C15: a body of two bytes is returned whole, and a body of
1,048,577 bytes whose reader then fails is cut to 1,048,576 bytes without an
error. -/
theorem parseResponseBody_raw_witness :
    restHandler.parseResponseBody exampleRestEnv { ownerHandler with parse := "" }
      (some { data := [104, 105], err := none }) = .ok (.rawString [104, 105]) ∧
    restHandler.parseResponseBody exampleRestEnv { ownerHandler with parse := "" }
      (some { data := List.replicate 1048577 97,
              err := some (.errorString "connection reset") }) =
        .ok (.rawString (List.replicate 1048576 97)) := by
  constructor
  · have h := (parseResponseBody_raw exampleRestEnv { ownerHandler with parse := "" }
      { data := [104, 105], err := none } (by decide) (Or.inl rfl)).2.1
    rw [h, List.take_of_length_le (by decide)]
  · have h := (parseResponseBody_raw exampleRestEnv { ownerHandler with parse := "" }
      { data := List.replicate 1048577 97, err := some (.errorString "connection reset") }
      (by decide)
      (Or.inr (by rw [MaxBytesLimit_eq, List.length_replicate]; decide))).2.1
    rw [h, List.take_replicate, Nat.min_eq_left (by decide)]

/-- C16, counterexample: a body of 1,048,578 bytes that is a valid JSON document
(one string literal) is rejected in json mode: the decoder is given its first
1,048,576 bytes and reports an unexpected end of input. -/
theorem long_json_document_rejected :
    (stringLiteral 1048576).length = 1048578 ∧
    exampleRestEnv.jsonDecode { data := stringLiteral 1048576, err := none } =
      .ok (.rawString (List.replicate 1048576 97)) ∧
    ownerHandler.parseResponseBody exampleRestEnv
      (some { data := stringLiteral 1048576, err := none }) =
        .error (.wrapError "cannot decode json: unexpected EOF" ErrUnexpectedEOF) := by
  have henv : exampleRestEnv.jsonDecode = decodeStringLiteral := rfl
  refine ⟨stringLiteral_length 1048576, ?_, ?_⟩
  · rw [henv]
    exact decodeStringLiteral_whole 1048576
  have hcut : decodeStringLiteral
      (ioLimitReader { data := stringLiteral 1048576, err := none } MaxBytesLimit) =
        .error ErrUnexpectedEOF := by
    rw [MaxBytesLimit_eq]
    exact decodeStringLiteral_cut 1048575
  have hp : ownerHandler.parse = "json" := rfl
  simp only [restHandler.parseResponseBody, if_pos hp]
  rw [henv, hcut]
  rfl

/-- C16, amended: in json mode the decoder is given the first 1,048,576 bytes of
the body; `parseResponseBody` returns the value the decoder reads from them,
and when the decoder fails on them, as it does for a document cut short by the
cap, it returns an error that wraps the error of the decoder. -/
theorem parseResponseBody_json {Sch : Type} (env : RestEnv Sch) (h : restHandler Sch)
    (body : Reader) (hp : h.parse = "json") :
    (ioLimitReader body MaxBytesLimit).data = body.data.take 1048576 ∧
    (∀ v, env.jsonDecode (ioLimitReader body MaxBytesLimit) = .ok v →
      h.parseResponseBody env (some body) = .ok v) ∧
    (∀ err, env.jsonDecode (ioLimitReader body MaxBytesLimit) = .error err →
      h.parseResponseBody env (some body) =
        .error (.wrapError ("cannot decode json: " ++ err.Error) err)) := by
  refine ⟨by rw [← MaxBytesLimit_eq]; rfl, ?_, ?_⟩
  · intro v hv
    simp only [restHandler.parseResponseBody, if_pos hp, hv]
  · intro err hv
    simp only [restHandler.parseResponseBody, if_pos hp, hv, fmtErrorfW]

/-- Witness of C16 amended: the document `"not found"` is decoded. -/
theorem parseResponseBody_json_witness :
    ownerHandler.parse = "json" ∧
    ownerHandler.parseResponseBody exampleRestEnv
      (some { data := [34, 110, 111, 116, 32, 102, 111, 117, 110, 100, 34], err := none }) =
        .ok (.rawString [110, 111, 116, 32, 102, 111, 117, 110, 100]) :=
  ⟨rfl, (parseResponseBody_json exampleRestEnv ownerHandler
      { data := [34, 110, 111, 116, 32, 102, 111, 117, 110, 100, 34], err := none } rfl).2.1
      (.rawString [110, 111, 116, 32, 102, 111, 117, 110, 100]) (by rfl)⟩

/-! ## Security advisory alert -/

theorem Template.Execute_ok (tmpl : Template) (data : templateParamsSA) :
    ∃ out, tmpl.Execute data = .ok out :=
  ⟨_, rfl⟩

theorem Entity.ownerAndRepo_of_isSupported (entity : Entity) (he : entity.isSupported = true) :
    ∃ owner repo, entity.ownerAndRepo = .ok (owner, repo) := by
  cases entity with
  | other typeName => simp [Entity.isSupported] at he
  | Repository owner name => exact ⟨owner, name, rfl⟩
  | PullRequest repoOwner repoName => exact ⟨repoOwner, repoName, rfl⟩
  | Artifact owner repository => exact ⟨owner, repository, rfl⟩

theorem providerCalls_append (xs ys : List AlertEvent) :
    providerCalls (xs ++ ys) = providerCalls xs ++ providerCalls ys := by
  induction xs with
  | nil => rfl
  | cons x xs ih => cases x <;> simp [providerCalls, ih]

theorem getParams_calls (env : AlertEnv) (alert : Alert) (entity : Entity)
    (evalParams : EvalStatusParams) (metadata : Option RawMessage) :
    providerCalls (alert.getParamsForSecurityAdvisory env entity evalParams metadata).2 = [] := by
  unfold Alert.getParamsForSecurityAdvisory
  cases entity.ownerAndRepo with
  | error err => rfl
  | ok pair =>
    obtain ⟨owner, repo⟩ := pair
    have hlog : providerCalls
        (match metadata with
          | none => ((none : Option alertMetadata), ([] : List AlertEvent))
          | some raw =>
            match env.jsonUnmarshal raw with
            | .error err =>
              (none, [.log "debug" ("error unmarshalling alert metadata: " ++ err.Error)])
            | .ok md => (some md, [])).2 = [] := by
      cases metadata with
      | none => rfl
      | some raw =>
        simp only []
        cases hu : env.jsonUnmarshal raw <;> rfl
    simp only [Template.Execute]
    split <;> exact hlog

theorem getParams_of_supported (env : AlertEnv) (alert : Alert) (entity : Entity)
    (evalParams : EvalStatusParams) (metadata : Option RawMessage) (owner repo : String)
    (he : entity.ownerAndRepo = .ok (owner, repo)) :
    ∃ params, (alert.getParamsForSecurityAdvisory env entity evalParams metadata).1 =
        .ok params ∧
      params.Owner = owner ∧ params.Repo = repo ∧ params.GHSA_ID = "" := by
  unfold Alert.getParamsForSecurityAdvisory
  by_cases hc : env.ActionOptFromString evalParams.Profile.Remediate = .ActionOptOn
  · simp only [he, Template.Execute, hc, if_true]
    exact ⟨_, rfl, rfl, rfl, rfl⟩
  · simp only [he, Template.Execute, hc, if_false]
    exact ⟨_, rfl, rfl, rfl, rfl⟩

theorem runDry_calls (env : AlertEnv) (alert : Alert) (params : paramsSA) (cmd : ActionCmd) :
    providerCalls (alert.runDry env params cmd).2 = [] := by
  unfold Alert.runDry
  cases cmd with
  | ActionCmdOn =>
    simp only []
    split <;> rfl
  | ActionCmdOff =>
    simp only []
    cases params.Metadata with
    | none => rfl
    | some md =>
      simp only []
      split
      · rfl
      · split <;> rfl
  | ActionCmdDoNothing => rfl
  | other c => rfl

/-- C19: for every command, every entity that is a repository, a pull request or
an artifact, and every prior metadata, `Do` with the setting Off or Unknown
returns no metadata and an error that is `ErrActionFailed` and is not
`ErrActionSkipped`, and calls neither `CreateSecurityAdvisory` nor
`CloseSecurityAdvisory`. -/
theorem Do_off_or_unknown (env : AlertEnv) (alert : Alert) (cmd : ActionCmd)
    (setting : ActionOpt) (entity : Entity) (evalParams : EvalStatusParams)
    (metadata : Option RawMessage)
    (hs : setting = .ActionOptOff ∨ setting = .ActionOptUnknown)
    (he : entity.isSupported = true) :
    (alert.Do env cmd setting entity evalParams metadata).1 =
      (none, some (.wrapError ("unexpected action setting: " ++ ErrActionFailed.Error)
        ErrActionFailed)) ∧
    errorsIs (alert.Do env cmd setting entity evalParams metadata).1.2 ErrActionFailed = true ∧
    errorsIs (alert.Do env cmd setting entity evalParams metadata).1.2 ErrActionSkipped = false ∧
    providerCalls (alert.Do env cmd setting entity evalParams metadata).2 = [] := by
  obtain ⟨owner, repo, ho⟩ := Entity.ownerAndRepo_of_isSupported entity he
  obtain ⟨params, hp, _⟩ := getParams_of_supported env alert entity evalParams metadata
    owner repo ho
  have hc := getParams_calls env alert entity evalParams metadata
  have hdo : alert.Do env cmd setting entity evalParams metadata =
      ((none, some (.wrapError ("unexpected action setting: " ++ ErrActionFailed.Error)
        ErrActionFailed)),
       .log "info" "begin processing" ::
        (alert.getParamsForSecurityAdvisory env entity evalParams metadata).2) := by
    unfold Alert.Do
    rcases hg : alert.getParamsForSecurityAdvisory env entity evalParams metadata with
      ⟨res, logged⟩
    rw [hg] at hp
    simp only at hp
    subst hp
    rcases hs with h | h <;> subst h <;> rfl
  have hfailed : errorsIs (some (.wrapError ("unexpected action setting: " ++
      ErrActionFailed.Error) ErrActionFailed)) ErrActionFailed = true := by decide
  have hskipped : errorsIs (some (.wrapError ("unexpected action setting: " ++
      ErrActionFailed.Error) ErrActionFailed)) ErrActionSkipped = false := by decide
  rw [hdo]
  refine ⟨rfl, hfailed, hskipped, ?_⟩
  simpa [providerCalls] using hc

/-- Witness of C19: turning the alert on for a repository under the setting Off. -/
theorem Do_off_or_unknown_witness :
    (Entity.Repository "stacklok" "mediator").isSupported = true ∧
    (exampleAlert.Do exampleAlertEnv .ActionCmdOn .ActionOptOff
      (.Repository "stacklok" "mediator") exampleEvalParams none).1 =
      (none, some (.wrapError ("unexpected action setting: " ++ ErrActionFailed.Error)
        ErrActionFailed)) ∧
    providerCalls (exampleAlert.Do exampleAlertEnv .ActionCmdOn .ActionOptOff
      (.Repository "stacklok" "mediator") exampleEvalParams none).2 = [] :=
  ⟨rfl,
   (Do_off_or_unknown exampleAlertEnv exampleAlert .ActionCmdOn .ActionOptOff
      (.Repository "stacklok" "mediator") exampleEvalParams none (Or.inl rfl) rfl).1,
   (Do_off_or_unknown exampleAlertEnv exampleAlert .ActionCmdOn .ActionOptOff
      (.Repository "stacklok" "mediator") exampleEvalParams none (Or.inl rfl) rfl).2.2.2⟩

/-- C20: for every command, entity and prior metadata, `Do` with the setting
DryRun returns no metadata and calls neither `CreateSecurityAdvisory` nor
`CloseSecurityAdvisory`; with the command On, for an entity with an owner and a
repository, it returns no error when the curl command for the endpoint
`repos/<owner>/<repo>/security-advisories` is generated. -/
theorem Do_dry_run (env : AlertEnv) (alert : Alert) (cmd : ActionCmd) (entity : Entity)
    (evalParams : EvalStatusParams) (metadata : Option RawMessage) :
    (alert.Do env cmd .ActionOptDryRun entity evalParams metadata).1.1 = none ∧
    providerCalls (alert.Do env cmd .ActionOptDryRun entity evalParams metadata).2 = [] ∧
    (∀ owner repo curlCmd, entity.ownerAndRepo = .ok (owner, repo) →
      env.GenerateCurlCommand "POST" alert.cli.GetBaseURL
        ("repos/" ++ owner ++ "/" ++ repo ++ "/security-advisories") "" = .ok curlCmd →
      (alert.Do env .ActionCmdOn .ActionOptDryRun entity evalParams metadata).1 =
        (none, none)) := by
  have hc := getParams_calls env alert entity evalParams metadata
  refine ⟨?_, ?_, ?_⟩
  · unfold Alert.Do
    rcases hg : alert.getParamsForSecurityAdvisory env entity evalParams metadata with
      ⟨res, logged⟩
    cases res <;> rfl
  · unfold Alert.Do
    rcases hg : alert.getParamsForSecurityAdvisory env entity evalParams metadata with
      ⟨res, logged⟩
    rw [hg] at hc
    simp only at hc
    cases res with
    | error err => simpa [providerCalls] using hc
    | ok params =>
      show providerCalls (.log "info" "begin processing" ::
        (logged ++ (alert.runDry env params cmd).2)) = []
      simp only [providerCalls, providerCalls_append, hc, runDry_calls, List.append_nil]
  · intro owner repo curlCmd ho hcurl
    obtain ⟨params, hp, hown, hrepo, _⟩ :=
      getParams_of_supported env alert entity evalParams metadata owner repo ho
    unfold Alert.Do
    rcases hg : alert.getParamsForSecurityAdvisory env entity evalParams metadata with
      ⟨res, logged⟩
    rw [hg] at hp
    simp only at hp
    subst hp
    simp only [Alert.runDry, hown, hrepo, hcurl]

/-- Witness of C20: a dry run of turning the alert on for a repository returns
neither metadata nor an error and only logs the curl command. -/
theorem Do_dry_run_witness :
    exampleAlert.Do exampleAlertEnv .ActionCmdOn .ActionOptDryRun
      (.Repository "stacklok" "mediator") exampleEvalParams none =
      ((none, none), [.log "info" "begin processing",
        .log "info" ("run the following curl command to open a security-advisory: \n" ++
          "curl -X POST https://api.github.com/repos/stacklok/mediator/security-advisories -d " ++
          "\n")]) ∧
    (exampleAlert.Do exampleAlertEnv .ActionCmdOn .ActionOptDryRun
      (.Repository "stacklok" "mediator") exampleEvalParams none).1 = (none, none) :=
  ⟨rfl,
   (Do_dry_run exampleAlertEnv exampleAlert .ActionCmdOn (.Repository "stacklok" "mediator")
      exampleEvalParams none).2.2 "stacklok" "mediator"
      "curl -X POST https://api.github.com/repos/stacklok/mediator/security-advisories -d "
      rfl rfl⟩

/-! ## Security advisory alert: the commands -/

theorem usableID_eq (env : AlertEnv) (metadata : Option RawMessage) :
    usableID env metadata =
      match decodedMetadata env metadata with
      | none => none
      | some md => if md.ID = "" then none else some md.ID := by
  unfold usableID decodedMetadata
  cases metadata with
  | none => rfl
  | some raw =>
    simp only []
    cases hu : env.jsonUnmarshal raw <;> rfl

theorem getParams_spec (env : AlertEnv) (alert : Alert) (entity : Entity)
    (evalParams : EvalStatusParams) (metadata : Option RawMessage) (owner repo : String)
    (he : entity.ownerAndRepo = .ok (owner, repo)) :
    ∃ logged, providerCalls logged = [] ∧
      alert.getParamsForSecurityAdvisory env entity evalParams metadata =
        (.ok { Template := templateParamsOf alert owner repo evalParams,
               Owner := owner,
               Repo := repo,
               GHSA_ID := "",
               Summary := alert.summaryTmpl.render (templateParamsOf alert owner repo evalParams),
               Description :=
                 if env.ActionOptFromString evalParams.Profile.Remediate = .ActionOptOn then
                   alert.descriptionTmpl.render (templateParamsOf alert owner repo evalParams)
                 else
                   alert.descriptionNoRemTmpl.render
                     (templateParamsOf alert owner repo evalParams),
               Vulnerabilities := [owner ++ "/" ++ repo],
               Metadata := decodedMetadata env metadata }, logged) := by
  have hc := getParams_calls env alert entity evalParams metadata
  refine ⟨(alert.getParamsForSecurityAdvisory env entity evalParams metadata).2, hc, ?_⟩
  have hm : decodedMetadata env metadata =
      (match metadata with
        | none => ((none : Option alertMetadata), ([] : List AlertEvent))
        | some raw =>
          match env.jsonUnmarshal raw with
          | .error err =>
            (none, [.log "debug" ("error unmarshalling alert metadata: " ++ err.Error)])
          | .ok md => (some md, [])).1 := by
    unfold decodedMetadata
    cases metadata with
    | none => rfl
    | some raw =>
      simp only []
      cases hu : env.jsonUnmarshal raw <;> rfl
  unfold Alert.getParamsForSecurityAdvisory
  by_cases hon : env.ActionOptFromString evalParams.Profile.Remediate = .ActionOptOn
  · simp only [he, Template.Execute, hon, if_true, hm]
    rfl
  · simp only [he, Template.Execute, hon, if_false, hm]
    rfl

theorem getParams_fields (env : AlertEnv) (alert : Alert) (entity : Entity)
    (evalParams : EvalStatusParams) (metadata : Option RawMessage) (owner repo : String)
    (he : entity.ownerAndRepo = .ok (owner, repo)) :
    ∃ params logged, providerCalls logged = [] ∧
      alert.getParamsForSecurityAdvisory env entity evalParams metadata =
        (.ok params, logged) ∧
      params.Owner = owner ∧ params.Repo = repo ∧ params.GHSA_ID = "" ∧
      params.Metadata = decodedMetadata env metadata := by
  obtain ⟨logged, hl, hg⟩ := getParams_spec env alert entity evalParams metadata owner repo he
  exact ⟨_, logged, hl, hg, rfl, rfl, rfl, rfl⟩

theorem run_off_skipped (env : AlertEnv) (alert : Alert) (params : paramsSA)
    (hmd : ∀ md, params.Metadata = some md → md.ID = "") :
    alert.run env params .ActionCmdOff =
      ((none, some (fmtErrorfW "cannot close security-advisory without GHSA_ID: "
        ErrActionSkipped)), []) := by
  unfold Alert.run
  cases hd : params.Metadata with
  | none => rfl
  | some md => simp only [hmd md hd, if_true]

theorem runDry_off_skipped (env : AlertEnv) (alert : Alert) (params : paramsSA)
    (hmd : ∀ md, params.Metadata = some md → md.ID = "") :
    alert.runDry env params .ActionCmdOff =
      (some (fmtErrorfW "cannot close a security-advisory without GHSA_ID: "
        ErrActionSkipped), []) := by
  unfold Alert.runDry
  cases hd : params.Metadata with
  | none => rfl
  | some md => simp only [hmd md hd, if_true]

/-- C21: with the setting On or DryRun, for an entity that is a repository, a
pull request or an artifact, `Do` with the command Off and a prior metadata
that gives no advisory id (nil, not decodable, or with an empty `ghsa_id`)
returns no metadata and an error that is `ErrActionSkipped` and is not
`ErrActionFailed`, and makes no call on the provider. -/
theorem Do_off_without_metadata (env : AlertEnv) (alert : Alert) (setting : ActionOpt)
    (entity : Entity) (evalParams : EvalStatusParams) (metadata : Option RawMessage)
    (hs : setting = .ActionOptOn ∨ setting = .ActionOptDryRun)
    (he : entity.isSupported = true) (hm : usableID env metadata = none) :
    (alert.Do env .ActionCmdOff setting entity evalParams metadata).1.1 = none ∧
    errorsIs (alert.Do env .ActionCmdOff setting entity evalParams metadata).1.2
      ErrActionSkipped = true ∧
    errorsIs (alert.Do env .ActionCmdOff setting entity evalParams metadata).1.2
      ErrActionFailed = false ∧
    providerCalls (alert.Do env .ActionCmdOff setting entity evalParams metadata).2 = [] := by
  obtain ⟨owner, repo, ho⟩ := Entity.ownerAndRepo_of_isSupported entity he
  obtain ⟨params, logged, hl, hg, _, _, _, hmeta⟩ :=
    getParams_fields env alert entity evalParams metadata owner repo ho
  have hmd : ∀ md, params.Metadata = some md → md.ID = "" := by
    intro md hd
    rw [hmeta] at hd
    rw [usableID_eq, hd] at hm
    by_contra hne
    simp [hne] at hm
  have h1 : errorsIs (some (fmtErrorfW "cannot close security-advisory without GHSA_ID: "
      ErrActionSkipped)) ErrActionSkipped = true := by decide
  have h2 : errorsIs (some (fmtErrorfW "cannot close security-advisory without GHSA_ID: "
      ErrActionSkipped)) ErrActionFailed = false := by decide
  have h3 : errorsIs (some (fmtErrorfW "cannot close a security-advisory without GHSA_ID: "
      ErrActionSkipped)) ErrActionSkipped = true := by decide
  have h4 : errorsIs (some (fmtErrorfW "cannot close a security-advisory without GHSA_ID: "
      ErrActionSkipped)) ErrActionFailed = false := by decide
  rcases hs with h | h
  · subst h
    simp only [Alert.Do, hg, run_off_skipped env alert params hmd]
    exact ⟨trivial, h1, h2, by simp [providerCalls, hl]⟩
  · subst h
    simp only [Alert.Do, hg, runDry_off_skipped env alert params hmd]
    exact ⟨trivial, h3, h4, by simp [providerCalls, hl]⟩

/-- Witness of C21: turning the alert off for a repository without prior
metadata, under the setting On. -/
theorem Do_off_without_metadata_witness :
    (Entity.Repository "stacklok" "mediator").isSupported = true ∧
    usableID exampleAlertEnv none = none ∧
    (exampleAlert.Do exampleAlertEnv .ActionCmdOff .ActionOptOn
      (.Repository "stacklok" "mediator") exampleEvalParams none).1.1 = none ∧
    errorsIs (exampleAlert.Do exampleAlertEnv .ActionCmdOff .ActionOptOn
      (.Repository "stacklok" "mediator") exampleEvalParams none).1.2 ErrActionSkipped = true ∧
    providerCalls (exampleAlert.Do exampleAlertEnv .ActionCmdOff .ActionOptOn
      (.Repository "stacklok" "mediator") exampleEvalParams none).2 = [] :=
  ⟨rfl, rfl,
   (Do_off_without_metadata exampleAlertEnv exampleAlert .ActionOptOn
      (.Repository "stacklok" "mediator") exampleEvalParams none (Or.inl rfl) rfl rfl).1,
   (Do_off_without_metadata exampleAlertEnv exampleAlert .ActionOptOn
      (.Repository "stacklok" "mediator") exampleEvalParams none (Or.inl rfl) rfl rfl).2.1,
   (Do_off_without_metadata exampleAlertEnv exampleAlert .ActionOptOn
      (.Repository "stacklok" "mediator") exampleEvalParams none (Or.inl rfl) rfl rfl).2.2.2⟩

theorem Is_fmtErrorfW_sentinel (lead : String) (e : GoError) (name msg : String) :
    (fmtErrorfW lead e).Is (.sentinel name msg) = e.Is (.sentinel name msg) := by
  simp [fmtErrorfW, GoError.Is]

theorem Is_fmtErrorfWW_sentinel (lead mid : String) (a b : GoError) (name msg : String) :
    (fmtErrorfWW lead a mid b).Is (.sentinel name msg) =
      (a.Is (.sentinel name msg) || b.Is (.sentinel name msg)) := by
  simp [fmtErrorfWW, GoError.Is]

theorem Is_fmtErrorfWW_first (lead mid : String) (a b : GoError) :
    (fmtErrorfWW lead a mid b).Is a = true := by
  simp [fmtErrorfWW, GoError.Is, GoError.Is_self]

theorem run_off_close (env : AlertEnv) (alert : Alert) (params : paramsSA)
    (md : alertMetadata) (hmeta : params.Metadata = some md) (hid : md.ID ≠ "") :
    alert.run env params .ActionCmdOff =
      match alert.cli.CloseSecurityAdvisory params.Owner params.Repo md.ID with
      | some err =>
        ((none, some (fmtErrorfWW "error closing security advisory: " err ", "
          ErrActionFailed)), [.CloseSecurityAdvisory params.Owner params.Repo md.ID])
      | none =>
        ((none, some (fmtErrorfW (alert.ParentType ++ " : ") ErrActionTurnedOff)),
          [.CloseSecurityAdvisory params.Owner params.Repo md.ID,
           .log "info" "closed security advisory"]) := by
  unfold Alert.run
  simp only [hmeta, hid, if_false]

theorem decodedMetadata_some (env : AlertEnv) (raw : RawMessage) (md : alertMetadata)
    (hu : env.jsonUnmarshal raw = .ok md) : decodedMetadata env (some raw) = some md := by
  simp only [decodedMetadata, hu]

theorem Do_off_calls (env : AlertEnv) (alert : Alert) (entity : Entity)
    (evalParams : EvalStatusParams) (raw : RawMessage) (md : alertMetadata)
    (owner repo : String) (he : entity.ownerAndRepo = .ok (owner, repo))
    (hu : env.jsonUnmarshal raw = .ok md) (hid : md.ID ≠ "") :
    providerCalls (alert.Do env .ActionCmdOff .ActionOptOn entity evalParams (some raw)).2 =
      [.CloseSecurityAdvisory owner repo md.ID] := by
  obtain ⟨params, logged, hl, hg, hown, hrepo, _, hmeta⟩ :=
    getParams_fields env alert entity evalParams (some raw) owner repo he
  rw [decodedMetadata_some env raw md hu] at hmeta
  have hrun := run_off_close env alert params md hmeta hid
  rw [hown, hrepo] at hrun
  simp only [Alert.Do, hg, hrun]
  cases alert.cli.CloseSecurityAdvisory owner repo md.ID <;>
    simp [providerCalls, providerCalls_append, hl]

/-- C22: with the setting On and the command Off, for a prior metadata that
decodes to a non-empty advisory id, `Do` calls `CloseSecurityAdvisory` once,
with the owner and the repository of the entity and that id, and makes no
other call on the provider; when the closing succeeds it returns no metadata
and an error that is `ErrActionTurnedOff` and is neither `ErrActionSkipped` nor
`ErrActionFailed`. -/
theorem Do_off_closes (env : AlertEnv) (alert : Alert) (entity : Entity)
    (evalParams : EvalStatusParams) (raw : RawMessage) (md : alertMetadata)
    (owner repo : String) (he : entity.ownerAndRepo = .ok (owner, repo))
    (hu : env.jsonUnmarshal raw = .ok md) (hid : md.ID ≠ "") :
    providerCalls (alert.Do env .ActionCmdOff .ActionOptOn entity evalParams (some raw)).2 =
      [.CloseSecurityAdvisory owner repo md.ID] ∧
    (alert.cli.CloseSecurityAdvisory owner repo md.ID = none →
      (alert.Do env .ActionCmdOff .ActionOptOn entity evalParams (some raw)).1 =
        (none, some (.wrapError (alert.ParentType ++ " : " ++ ErrActionTurnedOff.Error)
          ErrActionTurnedOff)) ∧
      errorsIs (alert.Do env .ActionCmdOff .ActionOptOn entity evalParams (some raw)).1.2
        ErrActionTurnedOff = true ∧
      errorsIs (alert.Do env .ActionCmdOff .ActionOptOn entity evalParams (some raw)).1.2
        ErrActionSkipped = false ∧
      errorsIs (alert.Do env .ActionCmdOff .ActionOptOn entity evalParams (some raw)).1.2
        ErrActionFailed = false) := by
  obtain ⟨params, logged, hl, hg, hown, hrepo, _, hmeta⟩ :=
    getParams_fields env alert entity evalParams (some raw) owner repo he
  rw [decodedMetadata_some env raw md hu] at hmeta
  have hrun := run_off_close env alert params md hmeta hid
  rw [hown, hrepo] at hrun
  constructor
  · exact Do_off_calls env alert entity evalParams raw md owner repo he hu hid
  · intro hclose
    rw [hclose] at hrun
    simp only [Alert.Do, hg, hrun]
    refine ⟨rfl, ?_, ?_, ?_⟩
    · simp only [errorsIs, ErrActionTurnedOff, Is_fmtErrorfW_sentinel]
      decide
    · simp only [errorsIs, ErrActionTurnedOff, ErrActionSkipped, Is_fmtErrorfW_sentinel]
      decide
    · simp only [errorsIs, ErrActionTurnedOff, ErrActionFailed, Is_fmtErrorfW_sentinel]
      decide

/-- Witness of C22: closing the advisory `GHSA-1` of a repository. -/
theorem Do_off_closes_witness :
    exampleAlertEnv.jsonUnmarshal "\x7b\"ghsa_id\":\"GHSA-1\"\x7d" = .ok { ID := "GHSA-1" } ∧
    providerCalls (exampleAlert.Do exampleAlertEnv .ActionCmdOff .ActionOptOn
      (.Repository "stacklok" "mediator") exampleEvalParams
      (some "\x7b\"ghsa_id\":\"GHSA-1\"\x7d")).2 =
        [.CloseSecurityAdvisory "stacklok" "mediator" "GHSA-1"] ∧
    (exampleAlert.Do exampleAlertEnv .ActionCmdOff .ActionOptOn
      (.Repository "stacklok" "mediator") exampleEvalParams
      (some "\x7b\"ghsa_id\":\"GHSA-1\"\x7d")).1 =
        (none, some (.wrapError ("alert" ++ " : " ++ ErrActionTurnedOff.Error)
          ErrActionTurnedOff)) :=
  ⟨rfl,
   (Do_off_closes exampleAlertEnv exampleAlert (.Repository "stacklok" "mediator")
      exampleEvalParams "\x7b\"ghsa_id\":\"GHSA-1\"\x7d" { ID := "GHSA-1" }
      "stacklok" "mediator" rfl rfl (by decide)).1,
   ((Do_off_closes exampleAlertEnv exampleAlert (.Repository "stacklok" "mediator")
      exampleEvalParams "\x7b\"ghsa_id\":\"GHSA-1\"\x7d" { ID := "GHSA-1" }
      "stacklok" "mediator" rfl rfl (by decide)).2 rfl).1⟩

theorem getParams_eq (env : AlertEnv) (alert : Alert) (entity : Entity)
    (evalParams : EvalStatusParams) (metadata : Option RawMessage) (owner repo : String)
    (he : entity.ownerAndRepo = .ok (owner, repo)) :
    ∃ logged, providerCalls logged = [] ∧
      alert.getParamsForSecurityAdvisory env entity evalParams metadata =
        (.ok (paramsFor env alert owner repo evalParams metadata), logged) :=
  getParams_spec env alert entity evalParams metadata owner repo he

theorem run_on (env : AlertEnv) (alert : Alert) (owner repo : String)
    (evalParams : EvalStatusParams) (metadata : Option RawMessage) :
    alert.run env (paramsFor env alert owner repo evalParams metadata) .ActionCmdOn =
      match createFor env alert owner repo evalParams with
      | .error err =>
        ((none, some (fmtErrorfWW "error creating security advisory: " err ", "
          ErrActionFailed)),
          [.CreateSecurityAdvisory owner repo alert.saCfg.Severity
            (paramsFor env alert owner repo evalParams none).Summary
            (paramsFor env alert owner repo evalParams none).Description
            [owner ++ "/" ++ repo]])
      | .ok id =>
        match env.jsonMarshal { ID := id } with
        | .error err =>
          ((none, some (fmtErrorfW "error marshalling alert metadata json: " err)),
            [.CreateSecurityAdvisory owner repo alert.saCfg.Severity
              (paramsFor env alert owner repo evalParams none).Summary
              (paramsFor env alert owner repo evalParams none).Description
              [owner ++ "/" ++ repo]])
        | .ok newMeta =>
          ((some newMeta, none),
            [.CreateSecurityAdvisory owner repo alert.saCfg.Severity
              (paramsFor env alert owner repo evalParams none).Summary
              (paramsFor env alert owner repo evalParams none).Description
              [owner ++ "/" ++ repo],
             .log "info" "opened a security advisory"]) := by
  rfl

theorem hexVal_hexDigit : ∀ n, n < 16 → hexVal (hexDigit n) = some n := by
  decide

theorem getu4_hexDigits (n : Nat) (hn : n < 65536) (rest : List Char) :
    getu4 (Char.ofNat 92 :: 'u' :: hexDigit (n / 4096) :: hexDigit (n / 256 % 16) ::
      hexDigit (n / 16 % 16) :: hexDigit (n % 16) :: rest) = some (n, rest) := by
  have h3 := hexVal_hexDigit (n / 4096) (by omega)
  have h2 := hexVal_hexDigit (n / 256 % 16) (by omega)
  have h1 := hexVal_hexDigit (n / 16 % 16) (by omega)
  have h0 := hexVal_hexDigit (n % 16) (by omega)
  simp only [getu4, h3, h2, h1, h0, and_self, if_true]
  congr 2
  omega

theorem unquote_plain (fuel : Nat) (c : Char) (rest : List Char) (hq : c ≠ Char.ofNat 34)
    (hb : c ≠ Char.ofNat 92) (hc : ¬ c.toNat < 32) :
    unquote (fuel + 1) (c :: rest) = (unquote fuel rest).map (fun p => (c :: p.1, p.2)) := by
  simp only [unquote, hq, hb, hc, if_false]

theorem unquote_short (fuel : Nat) (e d : Char) (rest : List Char) (hu : e ≠ 'u')
    (he : unescape e = some d) :
    unquote (fuel + 1) (Char.ofNat 92 :: e :: rest) =
      (unquote fuel rest).map (fun p => (d :: p.1, p.2)) := by
  have h1 : Char.ofNat 92 ≠ Char.ofNat 34 := by decide
  simp only [unquote, h1, hu, he, if_false, if_true]

theorem unquote_u4 (fuel n : Nat) (hn : n < 0xd800) (rest : List Char) :
    unquote (fuel + 1) (Char.ofNat 92 :: 'u' :: hexDigit (n / 4096) :: hexDigit (n / 256 % 16) ::
      hexDigit (n / 16 % 16) :: hexDigit (n % 16) :: rest) =
      (unquote fuel rest).map (fun p => (Char.ofNat n :: p.1, p.2)) := by
  have h1 : Char.ofNat 92 ≠ Char.ofNat 34 := by decide
  have h2 : ¬ (0xd800 ≤ n ∧ n < 0xe000) := by omega
  simp only [unquote, h1, getu4_hexDigits n (by omega), h2, if_false, if_true]

theorem unquote_escapeChar (fuel : Nat) (c : Char) (rest : List Char) :
    unquote (fuel + 1) (escapeChar c ++ rest) =
      (unquote fuel rest).map (fun p => (c :: p.1, p.2)) := by
  unfold escapeChar
  split_ifs with h1 h2 h3 h4 h5 h6 h7 h8
  · rcases h1 with h | h <;> subst h <;>
      exact unquote_short fuel _ _ rest (by decide) (by decide)
  · subst h2; exact unquote_short fuel _ _ rest (by decide) (by decide)
  · subst h3; exact unquote_short fuel _ _ rest (by decide) (by decide)
  · subst h4; exact unquote_short fuel _ _ rest (by decide) (by decide)
  · subst h5; exact unquote_short fuel _ _ rest (by decide) (by decide)
  · subst h6; exact unquote_short fuel _ _ rest (by decide) (by decide)
  · have hn : c.toNat < 64 := by
      rcases h7 with h | h | h | h
      · omega
      · subst h; decide
      · subst h; decide
      · subst h; decide
    have hstep := unquote_u4 fuel c.toNat (by omega) rest
    have e1 : c.toNat / 4096 = 0 := by omega
    have e2 : c.toNat / 256 % 16 = 0 := by omega
    have e3 : c.toNat / 16 % 16 = c.toNat / 16 := by omega
    rw [e1, e2, e3, Char.ofNat_toNat] at hstep
    exact hstep
  · have hstep := unquote_u4 fuel c.toNat (by rcases h8 with h | h <;> subst h <;> decide) rest
    have e1 : c.toNat / 4096 = 2 := by rcases h8 with h | h <;> subst h <;> decide
    have e2 : c.toNat / 256 % 16 = 0 := by rcases h8 with h | h <;> subst h <;> decide
    have e3 : c.toNat / 16 % 16 = 2 := by rcases h8 with h | h <;> subst h <;> decide
    rw [e1, e2, e3, Char.ofNat_toNat] at hstep
    exact hstep
  · push_neg at h1 h7
    exact unquote_plain fuel c rest h1.1 h1.2 (by omega)

theorem unquote_escapeChars (cs : List Char) :
    ∀ (fuel : Nat) (tail : List Char), cs.length < fuel →
      unquote fuel (escapeChars cs ++ Char.ofNat 34 :: tail) = some (cs, tail) := by
  induction cs with
  | nil =>
    intro fuel tail h
    obtain ⟨k, rfl⟩ : ∃ k, fuel = k + 1 := ⟨fuel - 1, by simp at h; omega⟩
    simp [escapeChars, unquote]
  | cons c cs ih =>
    intro fuel tail h
    obtain ⟨k, rfl⟩ : ∃ k, fuel = k + 1 := ⟨fuel - 1, by simp at h; omega⟩
    rw [escapeChars, List.append_assoc, unquote_escapeChar,
      ih k tail (by simpa using h)]
    rfl

theorem escapeChar_length (c : Char) : 1 ≤ (escapeChar c).length := by
  unfold escapeChar
  split_ifs <;> simp

theorem escapeChars_length (cs : List Char) : cs.length ≤ (escapeChars cs).length := by
  induction cs with
  | nil => simp [escapeChars]
  | cons c cs ih =>
    have := escapeChar_length c
    simp only [escapeChars, List.length_cons, List.length_append]
    omega

theorem unquote_literal (cs tail : List Char) :
    unquote (escapeChars cs ++ Char.ofNat 34 :: tail).length
      (escapeChars cs ++ Char.ofNat 34 :: tail) = some (cs, tail) := by
  apply unquote_escapeChars
  have := escapeChars_length cs
  simp only [List.length_append, List.length_cons]
  omega

theorem object_of_id (foldName : String → String) (fuel : Nat) (cs : List Char) :
    object foldName (fuel + 1) true
      (Char.ofNat 34 :: (['g', 'h', 's', 'a', '_', 'i', 'd'] ++ Char.ofNat 34 :: ':' ::
        Char.ofNat 34 :: (escapeChars cs ++ Char.ofNat 34 :: [Char.ofNat 125]))) { ID := "" }
      none =
      some ({ ID := String.mk cs }, none, []) := by
  have hkey := unquote_literal ['g', 'h', 's', 'a', '_', 'i', 'd']
    (':' :: Char.ofNat 34 :: (escapeChars cs ++ Char.ofNat 34 :: [Char.ofNat 125]))
  have hk : escapeChars ['g', 'h', 's', 'a', '_', 'i', 'd'] = ['g', 'h', 's', 'a', '_', 'i', 'd'] := by
    decide
  rw [hk] at hkey
  have hval := unquote_literal cs [Char.ofNat 125]
  have hf : isField foldName (String.mk ['g', 'h', 's', 'a', '_', 'i', 'd']) = true := by
    have hs : String.mk ['g', 'h', 's', 'a', '_', 'i', 'd'] = "ghsa_id" := rfl
    simp [isField, hs]
  have h1 : ¬ (Char.ofNat 34 = ' ' ∨ Char.ofNat 34 = Char.ofNat 9 ∨
      Char.ofNat 34 = Char.ofNat 13 ∨ Char.ofNat 34 = Char.ofNat 10) := by decide
  have h2 : ¬ (':' = ' ' ∨ ':' = Char.ofNat 9 ∨ ':' = Char.ofNat 13 ∨ ':' = Char.ofNat 10) := by
    decide
  have h3 : ¬ (Char.ofNat 125 = ' ' ∨ Char.ofNat 125 = Char.ofNat 9 ∨
      Char.ofNat 125 = Char.ofNat 13 ∨ Char.ofNat 125 = Char.ofNat 10) := by decide
  have h4 : Char.ofNat 34 ≠ Char.ofNat 125 := by decide
  have h5 : Char.ofNat 125 ≠ ',' := by decide
  simp only [object, skipWs, h1, h2, h3, h4, h5, if_false, if_true, and_false, hkey, hf,
    memberValue, and_self, hval, Option.map_some']

theorem goUnmarshal_goMarshal (foldName : String → String) (md : alertMetadata) :
    goUnmarshal foldName (goMarshal md) = .ok md := by
  obtain ⟨id⟩ := md
  by_cases h : id = ""
  · subst h
    rfl
  · have hdata : (goMarshal { ID := id }).data =
        Char.ofNat 123 :: Char.ofNat 34 :: (['g', 'h', 's', 'a', '_', 'i', 'd'] ++
          Char.ofNat 34 :: ':' :: Char.ofNat 34 ::
          (escapeChars id.data ++ Char.ofNat 34 :: [Char.ofNat 125])) := by
      simp only [goMarshal, h, if_false, appendString, String.data_append]
      simp
    have h1 : ¬ (Char.ofNat 123 = ' ' ∨ Char.ofNat 123 = Char.ofNat 9 ∨
        Char.ofNat 123 = Char.ofNat 13 ∨ Char.ofNat 123 = Char.ofNat 10) := by decide
    simp only [goUnmarshal, hdata, skipWs, h1, if_false, if_true, object_of_id]

/-- The two functions on texts of each kind: the escapes of the encoder; a
document with white space, other members and a key in upper case; a value of
the wrong type; and texts that are not JSON. -/
theorem goJson_examples :
    goMarshal { ID := "a<b\n" } = "\x7b\"ghsa_id\":\"a\\u003cb\\n\"\x7d" ∧
    goMarshal { ID := "" } = "\x7b\x7d" ∧
    goUnmarshal asciiFold "\x7b\x7d" = .ok { ID := "" } ∧
    goUnmarshal asciiFold " \x7b\"n\": [1, \x7b\"b\": null\x7d], \"GHSA_ID\" : \"a\\u003cb\\n\"\x7d " =
      .ok { ID := "a<b\n" } ∧
    goUnmarshal asciiFold "\x7b\"ghsa_id\": 5\x7d" = .error (.errorString
      "json: cannot unmarshal number into Go struct field alertMetadata.ghsa_id of type string") ∧
    goUnmarshal asciiFold "\x7b\"ghsa_id\":\"GHSA-1\"" = .error syntaxError ∧
    goUnmarshal asciiFold "not json at all" = .error syntaxError :=
  ⟨rfl, rfl, rfl, rfl, rfl, rfl, rfl⟩

/-- C23: with `json.Marshal` and `json.Unmarshal` of `encoding/json`, when
`CreateSecurityAdvisory` returns a non-empty advisory id, `Do` with the
setting On and the command On returns as metadata the JSON document with the
one member `ghsa_id` whose value is the string literal of the id, which is
`{"ghsa_id":"` followed by the id and `"}` when no character of the id needs
escaping; given back as prior metadata to `Do` with the setting On and the
command Off, that document decodes to the same id and
`CloseSecurityAdvisory` is called, once, with the owner, the repository and
exactly that id. -/
theorem metadata_round_trip (foldName : String → String) (env : AlertEnv) (alert : Alert)
    (entity : Entity) (evalParams : EvalStatusParams) (metadata : Option RawMessage)
    (owner repo id : String) (he : entity.ownerAndRepo = .ok (owner, repo))
    (hcreate : createFor (withGoJson foldName env) alert owner repo evalParams = .ok id)
    (hid : id ≠ "") :
    (alert.Do (withGoJson foldName env) .ActionCmdOn .ActionOptOn entity evalParams metadata).1 =
      (some ("\x7b\"ghsa_id\":" ++ appendString id ++ "\x7d"), none) ∧
    (escapeChars id.data = id.data →
      "\x7b\"ghsa_id\":" ++ appendString id ++ "\x7d" = "\x7b\"ghsa_id\":\"" ++ id ++ "\"\x7d") ∧
    goUnmarshal foldName ("\x7b\"ghsa_id\":" ++ appendString id ++ "\x7d") = .ok { ID := id } ∧
    usableID (withGoJson foldName env)
      (some ("\x7b\"ghsa_id\":" ++ appendString id ++ "\x7d")) = some id ∧
    providerCalls (alert.Do (withGoJson foldName env) .ActionCmdOff .ActionOptOn entity
      evalParams (some ("\x7b\"ghsa_id\":" ++ appendString id ++ "\x7d"))).2 =
      [.CloseSecurityAdvisory owner repo id] := by
  obtain ⟨logged, _, hg⟩ :=
    getParams_eq (withGoJson foldName env) alert entity evalParams metadata owner repo he
  have hwrite : (withGoJson foldName env).jsonMarshal { ID := id } =
      .ok ("\x7b\"ghsa_id\":" ++ appendString id ++ "\x7d") := by
    simp only [withGoJson, goMarshal, hid, if_false]
  have hread : (withGoJson foldName env).jsonUnmarshal
      ("\x7b\"ghsa_id\":" ++ appendString id ++ "\x7d") = .ok { ID := id } := by
    have h := goUnmarshal_goMarshal foldName { ID := id }
    simp only [goMarshal, hid, if_false] at h
    exact h
  refine ⟨?_, ?_, hread, ?_, ?_⟩
  · simp only [Alert.Do, hg, run_on, hcreate, hwrite]
  · intro hplain
    apply String.ext
    simp only [appendString, hplain, String.data_append]
    simp
  · simp only [usableID, hread, hid, if_false]
  · exact Do_off_calls (withGoJson foldName env) alert entity evalParams _ { ID := id } owner
      repo he hread hid

/-- Witness of C23: the advisory `GHSA-1` opened for a repository is written
as `{"ghsa_id":"GHSA-1"}`, and is the one closed afterwards. -/
theorem metadata_round_trip_witness :
    createFor (withGoJson asciiFold exampleAlertEnv) exampleAlert "stacklok" "mediator"
      exampleEvalParams = .ok "GHSA-1" ∧
    (exampleAlert.Do (withGoJson asciiFold exampleAlertEnv) .ActionCmdOn .ActionOptOn
      (.Repository "stacklok" "mediator") exampleEvalParams none).1 =
        (some "\x7b\"ghsa_id\":\"GHSA-1\"\x7d", none) ∧
    goUnmarshal asciiFold "\x7b\"ghsa_id\":\"GHSA-1\"\x7d" = .ok { ID := "GHSA-1" } ∧
    providerCalls (exampleAlert.Do (withGoJson asciiFold exampleAlertEnv) .ActionCmdOff
      .ActionOptOn (.Repository "stacklok" "mediator") exampleEvalParams
      (some "\x7b\"ghsa_id\":\"GHSA-1\"\x7d")).2 =
        [.CloseSecurityAdvisory "stacklok" "mediator" "GHSA-1"] :=
  ⟨rfl,
   (metadata_round_trip asciiFold exampleAlertEnv exampleAlert
      (.Repository "stacklok" "mediator") exampleEvalParams none "stacklok" "mediator" "GHSA-1"
      rfl rfl (by decide)).1,
   (metadata_round_trip asciiFold exampleAlertEnv exampleAlert
      (.Repository "stacklok" "mediator") exampleEvalParams none "stacklok" "mediator" "GHSA-1"
      rfl rfl (by decide)).2.2.1,
   (metadata_round_trip asciiFold exampleAlertEnv exampleAlert
      (.Repository "stacklok" "mediator") exampleEvalParams none "stacklok" "mediator" "GHSA-1"
      rfl rfl (by decide)).2.2.2.2⟩

/-- C24, counterexample: a provider whose error wraps `ErrActionSkipped` (for
the creation) or `ErrActionTurnedOff` (for the closing) makes `Do` return an
error that is `ErrActionSkipped`, or `ErrActionTurnedOff`, besides being
`ErrActionFailed`. -/
theorem provider_outcome_shows_through :
    createFor exampleAlertEnv { exampleAlert with cli := outcomeGitHub } "stacklok" "mediator"
      exampleEvalParams = .error (fmtErrorfW "advisories are disabled: " ErrActionSkipped) ∧
    errorsIs ({ exampleAlert with cli := outcomeGitHub }.Do exampleAlertEnv .ActionCmdOn
      .ActionOptOn (.Repository "stacklok" "mediator") exampleEvalParams none).1.2
      ErrActionSkipped = true ∧
    errorsIs ({ exampleAlert with cli := outcomeGitHub }.Do exampleAlertEnv .ActionCmdOff
      .ActionOptOn (.Repository "stacklok" "mediator") exampleEvalParams
      (some "\x7b\"ghsa_id\":\"GHSA-1\"\x7d")).1.2 ErrActionTurnedOff = true :=
  ⟨rfl, rfl, rfl⟩

/-- C24, amended: with the setting On, when `CreateSecurityAdvisory` fails for
the command On, or `CloseSecurityAdvisory` fails for the command Off with a
stored advisory id, `Do` returns no metadata and an error that is
`ErrActionFailed` and wraps the error of the provider; that error is
`ErrActionSkipped`, or `ErrActionTurnedOff`, exactly when the error of the
provider is. -/
theorem Do_provider_failure (env : AlertEnv) (alert : Alert) (entity : Entity)
    (evalParams : EvalStatusParams) (owner repo : String) (err : GoError)
    (he : entity.ownerAndRepo = .ok (owner, repo)) :
    (∀ metadata, createFor env alert owner repo evalParams = .error err →
      (alert.Do env .ActionCmdOn .ActionOptOn entity evalParams metadata).1 =
        (none, some (.wrapErrors ("error creating security advisory: " ++ err.Error ++ ", " ++
          ErrActionFailed.Error) err ErrActionFailed)) ∧
      errorsIs (alert.Do env .ActionCmdOn .ActionOptOn entity evalParams metadata).1.2
        ErrActionFailed = true ∧
      errorsIs (alert.Do env .ActionCmdOn .ActionOptOn entity evalParams metadata).1.2
        err = true ∧
      errorsIs (alert.Do env .ActionCmdOn .ActionOptOn entity evalParams metadata).1.2
        ErrActionSkipped = err.Is ErrActionSkipped ∧
      errorsIs (alert.Do env .ActionCmdOn .ActionOptOn entity evalParams metadata).1.2
        ErrActionTurnedOff = err.Is ErrActionTurnedOff) ∧
    (∀ raw md, env.jsonUnmarshal raw = .ok md → md.ID ≠ "" →
      alert.cli.CloseSecurityAdvisory owner repo md.ID = some err →
      (alert.Do env .ActionCmdOff .ActionOptOn entity evalParams (some raw)).1 =
        (none, some (.wrapErrors ("error closing security advisory: " ++ err.Error ++ ", " ++
          ErrActionFailed.Error) err ErrActionFailed)) ∧
      errorsIs (alert.Do env .ActionCmdOff .ActionOptOn entity evalParams (some raw)).1.2
        ErrActionFailed = true ∧
      errorsIs (alert.Do env .ActionCmdOff .ActionOptOn entity evalParams (some raw)).1.2
        err = true ∧
      errorsIs (alert.Do env .ActionCmdOff .ActionOptOn entity evalParams (some raw)).1.2
        ErrActionSkipped = err.Is ErrActionSkipped ∧
      errorsIs (alert.Do env .ActionCmdOff .ActionOptOn entity evalParams (some raw)).1.2
        ErrActionTurnedOff = err.Is ErrActionTurnedOff) := by
  have hclass : ∀ lead : String,
      errorsIs (some (fmtErrorfWW lead err ", " ErrActionFailed)) ErrActionFailed = true ∧
      errorsIs (some (fmtErrorfWW lead err ", " ErrActionFailed)) err = true ∧
      errorsIs (some (fmtErrorfWW lead err ", " ErrActionFailed)) ErrActionSkipped =
        err.Is ErrActionSkipped ∧
      errorsIs (some (fmtErrorfWW lead err ", " ErrActionFailed)) ErrActionTurnedOff =
        err.Is ErrActionTurnedOff := by
    intro lead
    have h1 : ErrActionFailed.Is ErrActionFailed = true := by decide
    have h2 : ErrActionFailed.Is ErrActionSkipped = false := by decide
    have h3 : ErrActionFailed.Is ErrActionTurnedOff = false := by decide
    refine ⟨?_, Is_fmtErrorfWW_first _ _ _ _, ?_, ?_⟩
    · show (fmtErrorfWW lead err ", " ErrActionFailed).Is ErrActionFailed = true
      unfold ErrActionFailed at h1 ⊢
      rw [Is_fmtErrorfWW_sentinel, h1, Bool.or_true]
    · show (fmtErrorfWW lead err ", " ErrActionFailed).Is ErrActionSkipped =
        err.Is ErrActionSkipped
      unfold ErrActionSkipped at h2 ⊢
      rw [Is_fmtErrorfWW_sentinel, h2, Bool.or_false]
    · show (fmtErrorfWW lead err ", " ErrActionFailed).Is ErrActionTurnedOff =
        err.Is ErrActionTurnedOff
      unfold ErrActionTurnedOff at h3 ⊢
      rw [Is_fmtErrorfWW_sentinel, h3, Bool.or_false]
  constructor
  · intro metadata hcreate
    obtain ⟨logged, _, hg⟩ := getParams_eq env alert entity evalParams metadata owner repo he
    simp only [Alert.Do, hg, run_on, hcreate]
    exact ⟨rfl, hclass _⟩
  · intro raw md hu hid hclose
    obtain ⟨params, logged, hl, hg, hown, hrepo, _, hmeta⟩ :=
      getParams_fields env alert entity evalParams (some raw) owner repo he
    rw [decodedMetadata_some env raw md hu] at hmeta
    have hrun := run_off_close env alert params md hmeta hid
    rw [hown, hrepo, hclose] at hrun
    simp only [Alert.Do, hg, hrun]
    exact ⟨rfl, hclass _⟩

/-- Witness of C24 amended: a provider that answers 403 to the creation of an
advisory and 404 to its closing; the errors returned are `ErrActionFailed` and
are not `ErrActionSkipped`. -/
theorem Do_provider_failure_witness :
    createFor exampleAlertEnv { exampleAlert with cli := failingGitHub } "stacklok" "mediator"
      exampleEvalParams = .error (.errorString "403 Forbidden") ∧
    ({ exampleAlert with cli := failingGitHub }.Do exampleAlertEnv .ActionCmdOn .ActionOptOn
      (.Repository "stacklok" "mediator") exampleEvalParams none).1 =
        (none, some (.wrapErrors ("error creating security advisory: " ++
          (GoError.errorString "403 Forbidden").Error ++ ", " ++ ErrActionFailed.Error)
          (.errorString "403 Forbidden") ErrActionFailed)) ∧
    errorsIs ({ exampleAlert with cli := failingGitHub }.Do exampleAlertEnv .ActionCmdOn
      .ActionOptOn (.Repository "stacklok" "mediator") exampleEvalParams none).1.2
      ErrActionSkipped = false ∧
    errorsIs ({ exampleAlert with cli := failingGitHub }.Do exampleAlertEnv .ActionCmdOff
      .ActionOptOn (.Repository "stacklok" "mediator") exampleEvalParams
      (some "\x7b\"ghsa_id\":\"GHSA-1\"\x7d")).1.2 ErrActionFailed = true :=
  ⟨rfl,
   ((Do_provider_failure exampleAlertEnv { exampleAlert with cli := failingGitHub }
      (.Repository "stacklok" "mediator") exampleEvalParams "stacklok" "mediator"
      (.errorString "403 Forbidden") rfl).1 none rfl).1,
   (((Do_provider_failure exampleAlertEnv { exampleAlert with cli := failingGitHub }
      (.Repository "stacklok" "mediator") exampleEvalParams "stacklok" "mediator"
      (.errorString "403 Forbidden") rfl).1 none rfl).2.2.2.1).trans (by decide),
   ((Do_provider_failure exampleAlertEnv { exampleAlert with cli := failingGitHub }
      (.Repository "stacklok" "mediator") exampleEvalParams "stacklok" "mediator"
      (.errorString "404 Not Found") rfl).2
      "\x7b\"ghsa_id\":\"GHSA-1\"\x7d" { ID := "GHSA-1" } rfl (by decide) rfl).2.1⟩

/-! ## The texts of the advisory -/

theorem getParams_ok (env : AlertEnv) (alert : Alert) (entity : Entity)
    (evalParams : EvalStatusParams) (metadata : Option RawMessage) (params : paramsSA)
    (hp : (alert.getParamsForSecurityAdvisory env entity evalParams metadata).1 = .ok params) :
    ∃ owner repo, entity.ownerAndRepo = .ok (owner, repo) ∧
      params = paramsFor env alert owner repo evalParams metadata := by
  cases he : entity.ownerAndRepo with
  | error err =>
    simp [Alert.getParamsForSecurityAdvisory, he] at hp
  | ok pair =>
    obtain ⟨owner, repo⟩ := pair
    obtain ⟨logged, _, hg⟩ := getParams_eq env alert entity evalParams metadata owner repo he
    rw [hg] at hp
    simp only [Except.ok.injEq] at hp
    exact ⟨owner, repo, rfl, hp.symm⟩

theorem render_append (a b : Template) (data : templateParamsSA) :
    Template.render (a ++ b) data = Template.render a data ++ Template.render b data := by
  apply String.ext
  simp only [Template.render, String.data_join, List.map_append, List.flatten_append,
    String.data_append]

theorem descriptions_differ (data : templateParamsSA) :
    descriptionTmplStr.render data ≠ descriptionTmplNoRemStr.render data := by
  intro h
  have hA : descriptionTmplStr =
      List.take 14 descriptionTmplStr ++ List.drop 14 descriptionTmplStr :=
    (List.take_append_drop 14 _).symm
  have hB : descriptionTmplNoRemStr =
      List.take 14 descriptionTmplStr ++ List.drop 14 descriptionTmplNoRemStr :=
    (List.take_append_drop 14 descriptionTmplNoRemStr).symm
  have h1 : Template.render (List.take 14 descriptionTmplStr ++ List.drop 14 descriptionTmplStr)
        data =
      Template.render
        (List.take 14 descriptionTmplStr ++ List.drop 14 descriptionTmplNoRemStr) data := by
    rw [← hA, ← hB]
    exact h
  rw [render_append, render_append] at h1
  have h2 := congrArg String.data h1
  rw [String.data_append, String.data_append, List.append_cancel_left_eq] at h2
  have h3 := congrArg (List.take 25) h2
  have hY : List.take 25 (Template.render (List.drop 14 descriptionTmplStr) data).data =
      "\n\n**Remediation:**\n\n- You".data := rfl
  have hE : List.take 25 (Template.render (List.drop 14 descriptionTmplNoRemStr) data).data =
      "\n\n**Remediation:**\n\n- Ena".data := rfl
  rw [hY, hE] at h3
  revert h3
  decide

/-- C25: the parameters returned by `getParamsForSecurityAdvisory` hold the
summary printed by the summary template and the description printed by the
remediation template when the remediate setting of the profile parses to On,
and by the no-remediation template for every other setting; both are printed
from the profile name, the rule name, the owner and repository, the severity
and the guidance alone. For an alert built by `NewSecurityAdvisoryAlert` the
templates are the three constants, the summary reads "mediator: profile P
failed with rule R", and the two descriptions differ. -/
theorem getParams_texts (env : AlertEnv) (alert : Alert) (entity : Entity)
    (evalParams : EvalStatusParams) (metadata : Option RawMessage) (params : paramsSA)
    (hp : (alert.getParamsForSecurityAdvisory env entity evalParams metadata).1 = .ok params) :
    ∃ owner repo, entity.ownerAndRepo = .ok (owner, repo) ∧
      params.Template =
        { Profile := evalParams.Profile.Name, Rule := evalParams.RuleType.Name,
          Repository := owner ++ "/" ++ repo, Severity := alert.saCfg.Severity,
          Guidance := evalParams.RuleType.Guidance } ∧
      params.Summary = alert.summaryTmpl.render params.Template ∧
      (env.ActionOptFromString evalParams.Profile.Remediate = .ActionOptOn →
        params.Description = alert.descriptionTmpl.render params.Template) ∧
      (env.ActionOptFromString evalParams.Profile.Remediate ≠ .ActionOptOn →
        params.Description = alert.descriptionNoRemTmpl.render params.Template) ∧
      (∀ actionType saCfg pbuild,
        NewSecurityAdvisoryAlert actionType saCfg pbuild = .ok alert →
          alert.summaryTmpl = summaryTmplStr ∧
          alert.descriptionTmpl = descriptionTmplStr ∧
          alert.descriptionNoRemTmpl = descriptionTmplNoRemStr ∧
          params.Summary =
            "mediator: profile " ++ evalParams.Profile.Name ++ " failed with rule " ++
              evalParams.RuleType.Name ∧
          alert.descriptionTmpl.render params.Template ≠
            alert.descriptionNoRemTmpl.render params.Template) := by
  obtain ⟨owner, repo, he, hparams⟩ := getParams_ok env alert entity evalParams metadata params hp
  subst hparams
  refine ⟨owner, repo, he, rfl, rfl, ?_, ?_, ?_⟩
  · intro hon
    simp only [paramsFor, hon, if_true]
  · intro hoff
    simp only [paramsFor, hoff, if_false]
  · intro actionType saCfg pbuild hnew
    unfold NewSecurityAdvisoryAlert at hnew
    by_cases hempty : actionType = ""
    · simp [hempty] at hnew
    · cases hgh : pbuild.GetGitHub with
      | error err => simp [hempty, hgh] at hnew
      | ok cli =>
        simp only [hempty, hgh, if_false, Except.ok.injEq] at hnew
        subst hnew
        refine ⟨rfl, rfl, rfl, ?_, descriptions_differ _⟩
        apply String.ext
        simp [paramsFor, Template.render, summaryTmplStr, templateParamsOf,
          templateParamsSA.get, String.data_join]

/-- Witness of C25: with remediate `on` the description is printed by the
remediation template, with remediate `off` by the other one. -/
theorem getParams_texts_witness :
    (exampleAlert.getParamsForSecurityAdvisory exampleAlertEnv
      (.Repository "stacklok" "mediator") exampleEvalParams none).1 =
        .ok (paramsFor exampleAlertEnv exampleAlert "stacklok" "mediator"
          exampleEvalParams none) ∧
    (∃ owner repo, Entity.ownerAndRepo (.Repository "stacklok" "mediator") =
        .ok (owner, repo) ∧
      (paramsFor exampleAlertEnv exampleAlert "stacklok" "mediator"
        exampleEvalParams none).Summary = "mediator: profile prod failed with rule no-secrets") :=
  ⟨rfl, by
    obtain ⟨owner, repo, he, _, _, _, _, hnew⟩ :=
      getParams_texts exampleAlertEnv exampleAlert (.Repository "stacklok" "mediator")
        exampleEvalParams none
        (paramsFor exampleAlertEnv exampleAlert "stacklok" "mediator" exampleEvalParams none)
        rfl
    refine ⟨owner, repo, he, ?_⟩
    rw [(hnew "alert" { Severity := "high" } { GetGitHub := .ok exampleGitHub } rfl).2.2.2.1]
    rfl⟩

/-! ## No-op actions -/

/-- C26: for every profile the no-op alert and the no-op remediator report the
state Off, and for every command, setting, entity and metadata their `Do`
returns no metadata and an error that is `ErrActionNotAvailable`, whose message
is the parent type of the action followed by ":" and the message of that
error. -/
theorem noop_actions (a : NoopAlert) (r : NoopRemediator) (p : Profile) (cmd : ActionCmd)
    (setting : ActionOpt) (entity : Entity) (m1 m2 : GoMap) (evalParams : EvalStatusParams)
    (metadata : Option RawMessage) :
    a.GetOnOffState p = .ActionOptOff ∧
    r.GetOnOffState p = .ActionOptOff ∧
    (∃ e, a.Do cmd setting entity m1 m2 metadata = (none, some e) ∧
      e.Is ErrActionNotAvailable = true ∧
      e.Error = a.ParentType ++ ":" ++ ErrActionNotAvailable.Error ∧
      a.ParentType.data <+: e.Error.data) ∧
    (∃ e, r.Do cmd setting entity evalParams metadata = (none, some e) ∧
      e.Is ErrActionNotAvailable = true ∧
      e.Error = r.ParentType ++ ":" ++ ErrActionNotAvailable.Error ∧
      r.ParentType.data <+: e.Error.data) := by
  have hna : ErrActionNotAvailable.Is ErrActionNotAvailable = true := by decide
  have his : ∀ lead : String,
      (fmtErrorfW lead ErrActionNotAvailable).Is ErrActionNotAvailable = true := by
    intro lead
    unfold ErrActionNotAvailable at hna ⊢
    rw [Is_fmtErrorfW_sentinel, hna]
  refine ⟨rfl, rfl, ⟨_, rfl, his _, ?_, ?_⟩, ⟨_, rfl, his _, ?_, ?_⟩⟩
  · simp [fmtErrorfW, GoError.Error, String.append_assoc]
  · simp [fmtErrorfW, GoError.Error, String.data_append, List.append_assoc]
  · simp [fmtErrorfW, GoError.Error, String.append_assoc]
  · simp [fmtErrorfW, GoError.Error, String.data_append, List.append_assoc]

/-! ## Rule types from the database -/

/-- C27, counterexample: a rule type scoped to the organization `acme-org` and
the rule type rebuilt from its record in the context of group `acme` yield
engines with different identifiers. -/
theorem rebuilt_org_rule_type_changes_id :
    ∃ (rebuilt : RuleType) (e1 e2 : RuleTypeEngine String String Unit),
      RuleTypePBFromDB scenarioUnmarshal (recordOf "no-secrets") acmeContext = .ok rebuilt ∧
      rebuilt.Name = (ruleTypeOf "no-secrets" (some "acme-org") none).Name ∧
      rebuilt.Context.Provider =
        (ruleTypeOf "no-secrets" (some "acme-org") none).Context.Provider ∧
      NewRuleTypeEngine scenarioConstructors
        (ruleTypeOf "no-secrets" (some "acme-org") none) () = .ok e1 ∧
      NewRuleTypeEngine scenarioConstructors rebuilt () = .ok e2 ∧
      e1.GetID = .returned "provider1/org/acme-org/no-secrets" ∧
      e2.GetID = .returned "provider1/group/acme/no-secrets" :=
  ⟨_, _, _, rfl, rfl, rfl, rfl, rfl, rfl, rfl⟩

/-- C27, amended: for a rule type scoped to a group, without an organization,
the rule type rebuilt by `RuleTypePBFromDB` from a record with the same name,
in an entity context with the same provider and that group, yields an engine
with the same identifier as the engine built from the original rule type. -/
theorem rebuilt_group_rule_type_keeps_id {Ent Evid Cli : Type}
    (deps : Constructors Ent Evid Cli) (cli : Cli)
    (unmarshal : RawMessage → Except GoError RuleTypeDefinition)
    (record : DbRuleType) (ectx : EntityContext) (rt rebuilt : RuleType)
    (e1 e2 : RuleTypeEngine Ent Evid Cli)
    (hname : record.Name = rt.Name)
    (hprov : ectx.Provider.Name = rt.Context.Provider)
    (horg : scopeIsSet rt.Context.Organization = false)
    (hgrp : rt.Context.Group = some ectx.Group.Name)
    (hdb : RuleTypePBFromDB unmarshal record ectx = .ok rebuilt)
    (h1 : NewRuleTypeEngine deps rt cli = .ok e1)
    (h2 : NewRuleTypeEngine deps rebuilt cli = .ok e2) :
    e2.GetID = e1.GetID := by
  have hreb : rebuilt.Name = record.Name ∧ rebuilt.Context.Provider = ectx.Provider.Name ∧
      rebuilt.Context.Organization = none ∧
      rebuilt.Context.Group = some ectx.Group.Name := by
    unfold RuleTypePBFromDB at hdb
    cases hd : RuleDefFromDB unmarshal record with
    | error err => simp [hd] at hdb
    | ok d =>
      simp only [hd, Except.ok.injEq] at hdb
      subst hdb
      exact ⟨rfl, rfl, rfl, rfl⟩
  obtain ⟨hn1, hp1, hs1⟩ := NewRuleTypeEngine_ok_meta deps rt cli e1 h1
  obtain ⟨hn2, hp2, hs2⟩ := NewRuleTypeEngine_ok_meta deps rebuilt cli e2 h2
  rw [horg] at hs1
  rw [hreb.2.2.1] at hs2
  simp only [scopeIsSet, Bool.false_eq_true, false_and, true_and, false_or] at hs1 hs2
  simp only [RuleTypeEngine.GetID, RuleMeta.String, hs1.2.2, hs2.2.2, hgrp, hreb.2.2.2,
    hn1, hn2, hp1, hp2, hreb.1, hreb.2.1, hname, hprov]

/-- Witness of C27 amended: the rule type `provider1/group/acme/no-secrets`. -/
theorem rebuilt_group_rule_type_keeps_id_witness :
    ∃ (rebuilt : RuleType) (e1 e2 : RuleTypeEngine String String Unit),
      RuleTypePBFromDB scenarioUnmarshal (recordOf "no-secrets") acmeContext = .ok rebuilt ∧
      NewRuleTypeEngine scenarioConstructors scenarioRuleType () = .ok e1 ∧
      NewRuleTypeEngine scenarioConstructors rebuilt () = .ok e2 ∧
      e2.GetID = e1.GetID ∧
      e1.GetID = .returned "provider1/group/acme/no-secrets" :=
  ⟨_, _, _, rfl, rfl, rfl,
   rebuilt_group_rule_type_keeps_id scenarioConstructors () scenarioUnmarshal
     (recordOf "no-secrets") acmeContext scenarioRuleType _ _ _ rfl rfl rfl rfl rfl rfl rfl,
   rfl⟩

/-- C28: every engine returned by `NewRuleTypeEngine` has exactly one of
`Meta.Organization` and `Meta.Group` set, to a non-empty string: the
organization of the rule type when that is non-empty, and otherwise its group;
so `GetID` returns an identifier and does not dereference a nil scope. -/
theorem NewRuleTypeEngine_scope_invariant {Ent Evid Cli : Type}
    (deps : Constructors Ent Evid Cli) (rt : RuleType) (cli : Cli)
    (eng : RuleTypeEngine Ent Evid Cli) (hnew : NewRuleTypeEngine deps rt cli = .ok eng) :
    ((∃ org, eng.Meta.Organization = some org ∧ org ≠ "" ∧ eng.Meta.Group = none) ∨
     (∃ grp, eng.Meta.Group = some grp ∧ grp ≠ "" ∧ eng.Meta.Organization = none)) ∧
    (scopeIsSet rt.Context.Organization = true →
      eng.Meta.Organization = rt.Context.Organization ∧ eng.Meta.Group = none) ∧
    (scopeIsSet rt.Context.Organization = false →
      eng.Meta.Group = rt.Context.Group ∧ eng.Meta.Organization = none) ∧
    (∃ id, eng.GetID = .returned id) := by
  obtain ⟨_, _, hscope⟩ := NewRuleTypeEngine_ok_meta deps rt cli eng hnew
  have hset : ∀ scope : Option String, scopeIsSet scope = true →
      ∃ v, scope = some v ∧ v ≠ "" := by
    intro scope hs
    cases scope with
    | none => simp [scopeIsSet] at hs
    | some v => exact ⟨v, rfl, by simpa [scopeIsSet] using hs⟩
  rcases hscope with ⟨ho, horg, hgrp⟩ | ⟨ho, hg, horg, hgrp⟩
  · obtain ⟨v, hv, hne⟩ := hset _ ho
    refine ⟨Or.inl ⟨v, by rw [horg, hv], hne, hgrp⟩, fun _ => ⟨horg, hgrp⟩, ?_, ?_⟩
    · intro hno
      rw [ho] at hno
      exact absurd hno (by decide)
    · exact ⟨eng.Meta.Provider ++ "/org/" ++ v ++ "/" ++ eng.Meta.Name,
        by simp only [RuleTypeEngine.GetID, RuleMeta.String, hgrp, horg, hv]⟩
  · obtain ⟨v, hv, hne⟩ := hset _ hg
    refine ⟨Or.inr ⟨v, by rw [hgrp, hv], hne, horg⟩, ?_, fun _ => ⟨hgrp, horg⟩, ?_⟩
    · intro hyes
      rw [ho] at hyes
      exact absurd hyes (by decide)
    · exact ⟨eng.Meta.Provider ++ "/group/" ++ v ++ "/" ++ eng.Meta.Name,
        by simp only [RuleTypeEngine.GetID, RuleMeta.String, hgrp, hv]⟩

/-- Witness of C28: an empty organization falls back to the group `acme`. -/
theorem NewRuleTypeEngine_scope_invariant_witness :
    ∃ eng : RuleTypeEngine String String Unit,
      NewRuleTypeEngine scenarioConstructors
        (ruleTypeOf "no-secrets" (some "") (some "acme")) () = .ok eng ∧
      eng.Meta.Group = some "acme" ∧ eng.Meta.Organization = none ∧
      ∃ id, eng.GetID = .returned id :=
  ⟨_, rfl,
   ((NewRuleTypeEngine_scope_invariant scenarioConstructors
      (ruleTypeOf "no-secrets" (some "") (some "acme")) () _ rfl).2.2.1 rfl).1,
   ((NewRuleTypeEngine_scope_invariant scenarioConstructors
      (ruleTypeOf "no-secrets" (some "") (some "acme")) () _ rfl).2.2.1 rfl).2,
   (NewRuleTypeEngine_scope_invariant scenarioConstructors
      (ruleTypeOf "no-secrets" (some "") (some "acme")) () _ rfl).2.2.2⟩

/-! ## Security advisory alert: the dry run of a closing -/

theorem runDry_off_close (env : AlertEnv) (alert : Alert) (params : paramsSA)
    (md : alertMetadata) (hmeta : params.Metadata = some md) (hid : md.ID ≠ "") :
    alert.runDry env params .ActionCmdOff =
      match env.GenerateCurlCommand "PATCH" alert.cli.GetBaseURL
          ("repos/" ++ params.Owner ++ "/" ++ params.Repo ++ "/security-advisories/" ++
            params.GHSA_ID) "\x7b\"state\": \"closed\"\x7d" with
      | .error err =>
        (some (fmtErrorfW "cannot generate curl command to close a security-adivsory: " err),
          [])
      | .ok curlCmd =>
        (some ErrActionSkipped,
          [.log "info" ("run the following curl command: \n" ++ curlCmd ++ "\n")]) := by
  unfold Alert.runDry
  simp only [hmeta, hid, if_false]

theorem runDry_off_error (env : AlertEnv) (alert : Alert) (params : paramsSA) :
    (alert.runDry env params .ActionCmdOff).1 ≠ none := by
  unfold Alert.runDry
  cases hm : params.Metadata with
  | none => simp
  | some md =>
    by_cases hid : md.ID = ""
    · simp [hid]
    · simp only [hid, if_false]
      split <;> simp

/-- C29: with the setting DryRun and the command Off, `Do` returns no metadata
and a non-nil error for every entity and prior metadata; when the metadata
holds a non-empty advisory id and the curl command is generated, the error is
`ErrActionSkipped`, whereas with the command On and its curl command generated
`Do` returns a nil error. -/
theorem dry_run_of_closing (env : AlertEnv) (alert : Alert) (entity : Entity)
    (evalParams : EvalStatusParams) (metadata : Option RawMessage) :
    (alert.Do env .ActionCmdOff .ActionOptDryRun entity evalParams metadata).1.1 = none ∧
    (alert.Do env .ActionCmdOff .ActionOptDryRun entity evalParams metadata).1.2 ≠ none ∧
    (∀ owner repo raw md curlCmd, entity.ownerAndRepo = .ok (owner, repo) →
      metadata = some raw → env.jsonUnmarshal raw = .ok md → md.ID ≠ "" →
      env.GenerateCurlCommand "PATCH" alert.cli.GetBaseURL
        ("repos/" ++ owner ++ "/" ++ repo ++ "/security-advisories/")
        "\x7b\"state\": \"closed\"\x7d" = .ok curlCmd →
      (alert.Do env .ActionCmdOff .ActionOptDryRun entity evalParams metadata).1 =
        (none, some ErrActionSkipped)) ∧
    (∀ owner repo curlCmd, entity.ownerAndRepo = .ok (owner, repo) →
      env.GenerateCurlCommand "POST" alert.cli.GetBaseURL
        ("repos/" ++ owner ++ "/" ++ repo ++ "/security-advisories") "" = .ok curlCmd →
      (alert.Do env .ActionCmdOn .ActionOptDryRun entity evalParams metadata).1 =
        (none, none)) := by
  refine ⟨?_, ?_, ?_, ?_⟩
  · unfold Alert.Do
    rcases hg : alert.getParamsForSecurityAdvisory env entity evalParams metadata with
      ⟨res, logged⟩
    cases res <;> rfl
  · unfold Alert.Do
    rcases hg : alert.getParamsForSecurityAdvisory env entity evalParams metadata with
      ⟨res, logged⟩
    cases res with
    | error err => simp
    | ok params => exact runDry_off_error env alert params
  · intro owner repo raw md curlCmd he hraw hu hid hcurl
    subst hraw
    obtain ⟨params, logged, _, hg, hown, hrepo, hghsa, hmeta⟩ :=
      getParams_fields env alert entity evalParams (some raw) owner repo he
    rw [decodedMetadata_some env raw md hu] at hmeta
    have hrun := runDry_off_close env alert params md hmeta hid
    rw [hown, hrepo, hghsa, String.append_empty, hcurl] at hrun
    simp only [Alert.Do, hg, hrun]
  · intro owner repo curlCmd he hcurl
    obtain ⟨params, logged, _, hg, hown, hrepo, _, _⟩ :=
      getParams_fields env alert entity evalParams metadata owner repo he
    simp only [Alert.Do, hg, Alert.runDry, hown, hrepo, hcurl]

/-- Witness of C29: the dry run of closing the advisory `GHSA-1` of a
repository ends with `ErrActionSkipped`. -/
theorem dry_run_of_closing_witness :
    (exampleAlert.Do exampleAlertEnv .ActionCmdOff .ActionOptDryRun
      (.Repository "stacklok" "mediator") exampleEvalParams
      (some "\x7b\"ghsa_id\":\"GHSA-1\"\x7d")).1 = (none, some ErrActionSkipped) ∧
    (exampleAlert.Do exampleAlertEnv .ActionCmdOn .ActionOptDryRun
      (.Repository "stacklok" "mediator") exampleEvalParams
      (some "\x7b\"ghsa_id\":\"GHSA-1\"\x7d")).1 = (none, none) :=
  ⟨(dry_run_of_closing exampleAlertEnv exampleAlert (.Repository "stacklok" "mediator")
      exampleEvalParams (some "\x7b\"ghsa_id\":\"GHSA-1\"\x7d")).2.2.1
      "stacklok" "mediator" "\x7b\"ghsa_id\":\"GHSA-1\"\x7d" { ID := "GHSA-1" } _
      rfl rfl rfl (by decide) rfl,
   (dry_run_of_closing exampleAlertEnv exampleAlert (.Repository "stacklok" "mediator")
      exampleEvalParams (some "\x7b\"ghsa_id\":\"GHSA-1\"\x7d")).2.2.2
      "stacklok" "mediator" _ rfl rfl⟩

/-- C30: the parameters returned by `getParamsForSecurityAdvisory` have an empty
`GHSA_ID`, for every entity, evaluation parameters and prior metadata; so for
a prior metadata with a non-empty advisory id the dry run of a closing asks for
the curl command of the endpoint `repos/<owner>/<repo>/security-advisories/`,
without the id, whereas `run` closes the advisory of the id of the metadata. -/
theorem GHSA_ID_never_set (env : AlertEnv) (alert : Alert) (entity : Entity)
    (evalParams : EvalStatusParams) (metadata : Option RawMessage) (params : paramsSA)
    (hp : (alert.getParamsForSecurityAdvisory env entity evalParams metadata).1 = .ok params) :
    params.GHSA_ID = "" ∧
    (∀ md, params.Metadata = some md → md.ID ≠ "" →
      alert.runDry env params .ActionCmdOff =
        (match env.GenerateCurlCommand "PATCH" alert.cli.GetBaseURL
            ("repos/" ++ params.Owner ++ "/" ++ params.Repo ++ "/security-advisories/")
            "\x7b\"state\": \"closed\"\x7d" with
          | .error err =>
            (some (fmtErrorfW "cannot generate curl command to close a security-adivsory: "
              err), [])
          | .ok curlCmd =>
            (some ErrActionSkipped,
              [.log "info" ("run the following curl command: \n" ++ curlCmd ++ "\n")])) ∧
      providerCalls (alert.run env params .ActionCmdOff).2 =
        [.CloseSecurityAdvisory params.Owner params.Repo md.ID]) := by
  obtain ⟨owner, repo, _, hparams⟩ :=
    getParams_ok env alert entity evalParams metadata params hp
  have hghsa : params.GHSA_ID = "" := by rw [hparams]; rfl
  refine ⟨hghsa, ?_⟩
  intro md hmeta hid
  constructor
  · have hrun := runDry_off_close env alert params md hmeta hid
    rw [hghsa, String.append_empty] at hrun
    exact hrun
  · rw [run_off_close env alert params md hmeta hid]
    cases alert.cli.CloseSecurityAdvisory params.Owner params.Repo md.ID <;>
      simp [providerCalls]

/-- Witness of C30: for the prior metadata of the advisory `GHSA-1` the curl
command of the dry run names no advisory, and the closing names `GHSA-1`. -/
theorem GHSA_ID_never_set_witness :
    (exampleAlert.getParamsForSecurityAdvisory exampleAlertEnv
      (.Repository "stacklok" "mediator") exampleEvalParams
      (some "\x7b\"ghsa_id\":\"GHSA-1\"\x7d")).1 =
        .ok (paramsFor exampleAlertEnv exampleAlert "stacklok" "mediator" exampleEvalParams
          (some "\x7b\"ghsa_id\":\"GHSA-1\"\x7d")) ∧
    (paramsFor exampleAlertEnv exampleAlert "stacklok" "mediator" exampleEvalParams
      (some "\x7b\"ghsa_id\":\"GHSA-1\"\x7d")).GHSA_ID = "" ∧
    (exampleAlert.Do exampleAlertEnv .ActionCmdOff .ActionOptDryRun
      (.Repository "stacklok" "mediator") exampleEvalParams
      (some "\x7b\"ghsa_id\":\"GHSA-1\"\x7d")).2 =
        [.log "info" "begin processing",
         .log "info" ("run the following curl command: \n" ++
           "curl -X PATCH https://api.github.com/repos/stacklok/mediator/security-advisories/" ++
           " -d \x7b\"state\": \"closed\"\x7d" ++ "\n")] :=
  ⟨rfl,
   (GHSA_ID_never_set exampleAlertEnv exampleAlert (.Repository "stacklok" "mediator")
      exampleEvalParams (some "\x7b\"ghsa_id\":\"GHSA-1\"\x7d") _ rfl).1,
   rfl⟩

end Minder
